import Mathlib

/-!
Verification development for the EventCompanionBot repository
(src/EventCompanionBot.py, single file).

Shallow embedding conventions:
- SQLite tables are lists of row structures; SQL UPDATE is a map over the
  list, INSERT OR IGNORE and INSERT ... ON CONFLICT DO UPDATE are
  presence-tested append/map, DELETE is a filter, and ON DELETE CASCADE on
  the events foreign key is modelled inside delete_event.
- Wall-clock instants (event_time, alert run_at_iso, datetime.now) are
  modelled as Int minute counts in the single configured timezone APP_TZ;
  isoformat and fromisoformat round-trip and are therefore the identity in
  the model.  Columns that only record creation timestamps (created_at,
  registered_at, updated_at) are not observable by any claim and are
  omitted.
- Outbound transport calls are recorded as an Effect list: reply is a
  message to the acting chat identified by its UI-string key, deliver is a
  per-recipient bot.send_message or send_photo attempt, report is the
  broadcast_done message carrying the aggregate success and fail counts,
  and armJob is an app.job_queue.run_once registration.
- Per-recipient delivery success is modelled by an oracle ok : Int -> Bool;
  a failed attempt is still a deliver effect (the code catches the
  exception and counts it).
- A Python exception escaping a handler is caught by the top-level error
  boundary, which logs and drops the update; since every sqlite write runs
  in a connection context manager that rolls back on error, such a path is
  modelled as returning the database unchanged with no effects.
-/

/-- A row of the events table. -/
structure EventRow where
  event_id : String
  event_name : String
  admin_id : Int
deriving Repr, DecidableEq

/-- A row of the event_content table.  loc_lat and loc_lon are REAL in the
schema; no claim observes their numeric value, so coordinates are modelled
as integers. -/
structure ContentRow where
  event_id : String
  agenda : Option String := none
  wifi_ssid : Option String := none
  wifi_password : Option String := none
  organizer_name : Option String := none
  organizer_phone : Option String := none
  organizer_email : Option String := none
  organizer_telegram : Option String := none
  event_time : Option Int := none
  event_location : Option String := none
  loc_lat : Option Int := none
  loc_lon : Option Int := none
deriving Repr, DecidableEq

/-- A row of the participants table (UNIQUE(event_id, telegram_id)). -/
structure ParticipantRow where
  event_id : String
  telegram_id : Int
  username : Option String := none
  first_name : Option String := none
  last_name : Option String := none
  full_name : Option String := none
  phone_number : Option String := none
  company_name : Option String := none
deriving Repr, DecidableEq

/-- A row of the photos table. -/
structure PhotoRow where
  event_id : String
  file_id : String
  caption : Option String := none
deriving Repr, DecidableEq

/-- A row of the anonymous_questions table. -/
structure QuestionRow where
  event_id : String
  sender_telegram_id : Int
  question_text : String
  status : String := "new"
deriving Repr, DecidableEq

/-- A row of the feedback table (UNIQUE(event_id, telegram_id)). -/
structure FeedbackRow where
  event_id : String
  telegram_id : Int
  rating : Int
  comment : Option String := none
deriving Repr, DecidableEq

/-- The step payload persisted as payload_json in user_state.  The source
stores an open JSON object; the keys actually used by the program are
event_id, src, full_name, phone_number and rating. -/
structure Payload where
  event_id : Option String := none
  src : Option String := none
  full_name : Option String := none
  phone_number : Option String := none
  rating : Option Int := none
deriving Repr, DecidableEq

/-- The empty payload, corresponding to the JSON object with no keys. -/
def Payload.empty : Payload := {}

/-- A row of the user_state table (telegram_id PRIMARY KEY).  Rows are only
ever written with a non-null state, so the state column is a plain String. -/
structure UserStateRow where
  telegram_id : Int
  state : String
  payload : Payload
deriving Repr, DecidableEq

/-- A row of the user_context table (telegram_id PRIMARY KEY). -/
structure UserContextRow where
  telegram_id : Int
  current_event_id : String
deriving Repr, DecidableEq

/-- A row of the alerts table.  run_at_iso is modelled as an Int minute
count (see the header comment). -/
structure AlertRow where
  id : Nat
  event_id : String
  run_at : Int
  minutes_before : Int
  created_by : Int
  status : String
deriving Repr, DecidableEq

/-- The whole SQLite database.  next_alert_id models the AUTOINCREMENT
rowid counter of the alerts table. -/
structure DB where
  events : List EventRow := []
  contents : List ContentRow := []
  participants : List ParticipantRow := []
  photos : List PhotoRow := []
  questions : List QuestionRow := []
  feedback : List FeedbackRow := []
  user_state : List UserStateRow := []
  user_context : List UserContextRow := []
  alerts : List AlertRow := []
  next_alert_id : Nat := 1
deriving Repr, DecidableEq

/-- Outbound transport calls performed by a handler. -/
inductive Effect where
  | reply (key : String)
  | deliver (chat_id : Int)
  | report (success fail : Nat)
  | armJob (alert_id : Nat) (run_at : Int)
deriving Repr, DecidableEq

/-- Python str.strip(): drop whitespace from both ends.  Defined
structurally over the character list so that concrete inputs evaluate
definitionally (the core String.trim uses well-founded recursion, which
does not reduce). -/
def py_strip (s : String) : String :=
  String.mk (((s.data.dropWhile Char.isWhitespace).reverse.dropWhile Char.isWhitespace).reverse)

/-- Python str.lower() on the ASCII keywords the program compares
against. -/
def py_lower (s : String) : String :=
  String.mk (s.data.map Char.toLower)

/-- Worker for py_split: split a character list at a separator. -/
def py_split_list (sep : Char) : List Char → List Char → List String
  | [], acc => [String.mk acc.reverse]
  | c :: rest, acc =>
      if c == sep then String.mk acc.reverse :: py_split_list sep rest []
      else py_split_list sep rest (c :: acc)

/-- Split on a single separator character.  Every separator the source
splits on (colon, newline, space, hyphen) is a single character, for which
this agrees with Python str.split and with String.splitOn. -/
def py_split (sep : Char) (s : String) : List String :=
  py_split_list sep s.data []

/-- Join with a separator (the inverse used to rebuild the tail of a
maxsplit-1 Python split). -/
def py_join (sep : String) : List String → String
  | [] => ""
  | [x] => x
  | x :: rest => x ++ sep ++ py_join sep rest

/-- String prefix test, structurally via the character lists. -/
def py_startsWith (s p : String) : Bool :=
  p.data.isPrefixOf s.data

/-- SQL COALESCE restricted to two arguments over nullable text. -/
def coalesce (a b : Option String) : Option String :=
  match a with
  | some x => some x
  | none => b

/-- Python truthiness of an optional string: None and the empty string are
falsy. -/
def truthyS (o : Option String) : Bool :=
  match o with
  | some s => s != ""
  | none => false

/-- Python  a or b  for optional strings (None and the empty string fall
through to b). -/
def pyOr (a b : Option String) : Option String :=
  match a with
  | some s => if s == "" then b else some s
  | none => b

/-- norm_username: strip leading @, trim, lowercase; empty becomes None. -/
def norm_username (u : Option String) : Option String :=
  match u with
  | none => none
  | some s =>
      if s == "" then none
      else
        let r := py_lower (py_strip (String.mk (s.data.dropWhile (fun c => c == '@'))))
        if r == "" then none else some r

/-- norm_phone: keep only digits and the plus sign; empty becomes None.
The source first deletes spaces and hyphens and then applies the
regex [^0-9+], which is equivalent to the single character filter. -/
def norm_phone (p : Option String) : Option String :=
  match p with
  | none => none
  | some s =>
      if s == "" then none
      else
        let r := String.mk (s.data.filter (fun c => c.isDigit || c == '+'))
        if r == "" then none else some r

/-- Numeric value of a list of decimal digit characters. -/
def digitsToNat (cs : List Char) : Nat :=
  cs.foldl (fun n c => n * 10 + (c.toNat - 48)) 0

/-- Parse a non-empty all-digit string. -/
def parseDigits? (s : String) : Option Nat :=
  if s.length > 0 && s.data.all Char.isDigit then some (digitsToNat s.data) else none

/-- Python int() on the simple integer literals the program builds into
callback tokens (an optional sign followed by digits).  A failing parse
raises ValueError in the source, which the caller models as a dropped
update. -/
def parseInt? (s : String) : Option Int :=
  match s.data with
  | [] => none
  | '-' :: rest =>
      if rest.length > 0 && rest.all Char.isDigit then some (-(digitsToNat rest : Int)) else none
  | '+' :: rest =>
      if rest.length > 0 && rest.all Char.isDigit then some (digitsToNat rest : Int) else none
  | cs =>
      if cs.all Char.isDigit then some (digitsToNat cs : Int) else none

/-- Gregorian leap year. -/
def is_leap (y : Nat) : Bool :=
  (y % 4 == 0 && y % 100 != 0) || y % 400 == 0

/-- Length of a month. -/
def days_in_month (y m : Nat) : Nat :=
  if m == 2 then (if is_leap y then 29 else 28)
  else if m == 4 || m == 6 || m == 9 || m == 11 then 30
  else 31

/-- Days in the months of year y strictly before month m. -/
def days_before_month (y m : Nat) : Nat :=
  ((List.range (m - 1)).map (fun i => days_in_month y (i + 1))).sum

/-- Minute count of a civil date-time in the proleptic Gregorian calendar
(the model of an APP_TZ datetime, see the header comment). -/
def date_to_minutes (y mo d hh mi : Nat) : Int :=
  ((((365 * (y - 1) + (y - 1) / 4 - (y - 1) / 100 + (y - 1) / 400
      + days_before_month y mo + (d - 1)) * 24 + hh) * 60 + mi : Nat) : Int)

/-- parse_event_time: datetime.strptime(text.strip(), "%Y-%m-%d %H:%M") in
APP_TZ, returning the minute count.  The model validates the canonical
zero-padded shape the prompt asks for plus the calendar field ranges that
strptime enforces. -/
def parse_event_time (raw : String) : Option Int :=
  let t := py_strip raw
  match py_split ' ' t with
  | [dpart, tpart] =>
      match py_split '-' dpart, py_split ':' tpart with
      | [ys, ms, ds], [hs, mins] =>
          match parseDigits? ys, parseDigits? ms, parseDigits? ds,
                parseDigits? hs, parseDigits? mins with
          | some y, some mo, some d, some hh, some mi =>
              if 1 ≤ y && y ≤ 9999 && 1 ≤ mo && mo ≤ 12 && 1 ≤ d &&
                 d ≤ days_in_month y mo && hh ≤ 23 && mi ≤ 59 then
                some (date_to_minutes y mo d hh mi)
              else none
          | _, _, _, _, _ => none
      | _, _ => none
  | _ => none

/-! ## Database methods (class Database) -/

/-- Row of the events table with the given id, if any. -/
def get_event (db : DB) (eid : String) : Option EventRow :=
  db.events.find? (fun e => e.event_id == eid)

/-- event_exists. -/
def event_exists (db : DB) (eid : String) : Bool :=
  (get_event db eid).isSome

/-- is_admin: the event exists and its admin_id is the user. -/
def is_admin (db : DB) (eid : String) (uid : Int) : Bool :=
  match get_event db eid with
  | some e => e.admin_id == uid
  | none => false

/-- create_event: INSERT the events row and INSERT OR IGNORE the empty
event_content row.  A duplicate event_id would raise on the events PRIMARY
KEY; callers model that as a dropped update, so this function is only
applied to fresh ids. -/
def create_event (db : DB) (eid name : String) (admin : Int) : DB :=
  { db with
    events := db.events ++ [{ event_id := eid, event_name := name, admin_id := admin }],
    contents :=
      if db.contents.any (fun c => c.event_id == eid) then db.contents
      else db.contents ++ [{ event_id := eid }] }

/-- delete_event: DELETE FROM events, with ON DELETE CASCADE removing the
dependent rows of every child table (foreign_keys is ON). -/
def delete_event (db : DB) (eid : String) : DB :=
  { db with
    events := db.events.filter (fun e => e.event_id != eid),
    contents := db.contents.filter (fun c => c.event_id != eid),
    participants := db.participants.filter (fun p => p.event_id != eid),
    photos := db.photos.filter (fun p => p.event_id != eid),
    questions := db.questions.filter (fun q => q.event_id != eid),
    feedback := db.feedback.filter (fun f => f.event_id != eid),
    alerts := db.alerts.filter (fun a => a.event_id != eid) }

/-- get_event_content (the source returns an empty dict when the row is
missing; the model returns none). -/
def get_event_content (db : DB) (eid : String) : Option ContentRow :=
  db.contents.find? (fun c => c.event_id == eid)

/-- UPDATE event_content SET ... WHERE event_id = ?.  The source passes the
event id dynamically and it can be None on some handler paths; comparing a
column with SQL NULL matches no row, so a none id leaves the table
unchanged. -/
def update_content (db : DB) (eid : Option String) (f : ContentRow → ContentRow) : DB :=
  match eid with
  | none => db
  | some e =>
      { db with contents := db.contents.map (fun c => if c.event_id == e then f c else c) }

/-- set_agenda. -/
def set_agenda (db : DB) (eid : Option String) (a : String) : DB :=
  update_content db eid (fun c => { c with agenda := some a })

/-- set_wifi. -/
def set_wifi (db : DB) (eid : Option String) (ssid pwd : String) : DB :=
  update_content db eid (fun c => { c with wifi_ssid := some ssid, wifi_password := some pwd })

/-- set_organizer_info. -/
def set_organizer_info (db : DB) (eid : Option String) (n p em tg : String) : DB :=
  update_content db eid (fun c =>
    { c with organizer_name := some n, organizer_phone := some p,
             organizer_email := some em, organizer_telegram := some tg })

/-- set_time. -/
def set_time (db : DB) (eid : Option String) (t : Option Int) : DB :=
  update_content db eid (fun c => { c with event_time := t })

/-- set_location. -/
def set_location (db : DB) (eid : Option String) (l : Option String) : DB :=
  update_content db eid (fun c => { c with event_location := l })

/-- set_map_pin. -/
def set_map_pin (db : DB) (eid : Option String) (lat lon : Int) : DB :=
  update_content db eid (fun c => { c with loc_lat := some lat, loc_lon := some lon })

/-- clear_map_pin. -/
def clear_map_pin (db : DB) (eid : Option String) : DB :=
  update_content db eid (fun c => { c with loc_lat := none, loc_lon := none })

/-- ensure_participant_stub: INSERT OR IGNORE of an identity stub followed
by a COALESCE update of the identity columns.  An insert for a nonexistent
event would violate the foreign key and raise; all call sites check
event_exists first, so that path is modelled as a no-op. -/
def ensure_participant_stub (db : DB) (eid : String) (uid : Int)
    (username first last : Option String) : DB :=
  if ¬ event_exists db eid then db
  else
    let un := norm_username username
    let db1 :=
      if db.participants.any (fun p => p.event_id == eid && p.telegram_id == uid) then db
      else
        { db with participants := db.participants ++
            [{ event_id := eid, telegram_id := uid, username := un,
               first_name := first, last_name := last }] }
    { db1 with participants := db1.participants.map (fun p =>
        if p.event_id == eid && p.telegram_id == uid then
          { p with username := coalesce un p.username,
                   first_name := coalesce first p.first_name,
                   last_name := coalesce last p.last_name }
        else p) }

/-- has_full_registration: the row exists and full_name, phone_number and
company_name are all non-empty after strip (Python truthiness of the
stripped value). -/
def has_full_registration (db : DB) (eid : String) (uid : Int) : Bool :=
  match db.participants.find? (fun p => p.event_id == eid && p.telegram_id == uid) with
  | none => false
  | some p =>
      py_strip (p.full_name.getD "") != "" && py_strip (p.phone_number.getD "") != "" &&
        py_strip (p.company_name.getD "") != ""

/-- set_registration_info: UPDATE of the three registration columns keyed
by (event_id, telegram_id); the event id can be None on a stale-payload
path, in which case the WHERE clause matches nothing. -/
def set_registration_info (db : DB) (eid : Option String) (uid : Int)
    (full_name phone company : String) : DB :=
  match eid with
  | none => db
  | some e =>
      { db with participants := db.participants.map (fun p =>
          if p.event_id == e && p.telegram_id == uid then
            { p with full_name := some (py_strip full_name),
                     phone_number := norm_phone (some phone),
                     company_name := some (py_strip company) }
          else p) }

/-- leave_event: DELETE FROM participants WHERE event_id=? AND telegram_id=?. -/
def leave_event (db : DB) (eid : String) (uid : Int) : DB :=
  { db with participants :=
      db.participants.filter (fun p => !(p.event_id == eid && p.telegram_id == uid)) }

/-- get_participant_telegram_ids (telegram_id is non-null in the model, so
the IS NOT NULL filters of the source are identities). -/
def get_participant_telegram_ids (db : DB) (eid : String) : List Int :=
  (db.participants.filter (fun p => p.event_id == eid)).map (fun p => p.telegram_id)

/-- add_photo. -/
def add_photo (db : DB) (eid : String) (file_id : String) (caption : Option String) : DB :=
  { db with photos := db.photos ++ [{ event_id := eid, file_id := file_id, caption := caption }] }

/-- add_question. -/
def add_question (db : DB) (eid : String) (sender : Int) (text : String) : DB :=
  { db with questions := db.questions ++
      [{ event_id := eid, sender_telegram_id := sender, question_text := text }] }

/-- set_feedback: INSERT ... ON CONFLICT(event_id, telegram_id) DO UPDATE
SET rating = excluded.rating, comment = COALESCE(excluded.comment,
feedback.comment).  A None event id, or an insert for a nonexistent event,
violates NOT NULL respectively the foreign key; the statement raises and
the transaction rolls back, leaving the table unchanged. -/
def set_feedback (db : DB) (eid : Option String) (uid rating : Int)
    (comment : Option String) : DB :=
  match eid with
  | none => db
  | some e =>
      if db.feedback.any (fun f => f.event_id == e && f.telegram_id == uid) then
        { db with feedback := db.feedback.map (fun f =>
            if f.event_id == e && f.telegram_id == uid then
              { f with rating := rating, comment := coalesce comment f.comment }
            else f) }
      else if event_exists db e then
        { db with feedback := db.feedback ++
            [{ event_id := e, telegram_id := uid, rating := rating, comment := comment }] }
      else db

/-- set_user_state: state None deletes the row, otherwise INSERT ... ON
CONFLICT(telegram_id) DO UPDATE (telegram_id is the primary key). -/
def set_user_state (db : DB) (uid : Int) (state : Option String) (payload : Option Payload) : DB :=
  match state with
  | none =>
      { db with user_state := db.user_state.filter (fun r => r.telegram_id != uid) }
  | some st =>
      let p := payload.getD Payload.empty
      if db.user_state.any (fun r => r.telegram_id == uid) then
        { db with user_state := db.user_state.map (fun r =>
            if r.telegram_id == uid then { telegram_id := uid, state := st, payload := p }
            else r) }
      else
        { db with user_state := db.user_state ++
            [{ telegram_id := uid, state := st, payload := p }] }

/-- get_user_state: (None, empty dict) when no row. -/
def get_user_state (db : DB) (uid : Int) : Option String × Payload :=
  match db.user_state.find? (fun r => r.telegram_id == uid) with
  | none => (none, Payload.empty)
  | some r => (some r.state, r.payload)

/-- clear_user_state. -/
def clear_user_state (db : DB) (uid : Int) : DB :=
  set_user_state db uid none none

/-- set_current_event: None deletes the row, otherwise upsert keyed by the
primary key telegram_id. -/
def set_current_event (db : DB) (uid : Int) (eid : Option String) : DB :=
  match eid with
  | none =>
      { db with user_context := db.user_context.filter (fun r => r.telegram_id != uid) }
  | some e =>
      if db.user_context.any (fun r => r.telegram_id == uid) then
        { db with user_context := db.user_context.map (fun r =>
            if r.telegram_id == uid then { telegram_id := uid, current_event_id := e } else r) }
      else
        { db with user_context := db.user_context ++
            [{ telegram_id := uid, current_event_id := e }] }

/-- get_current_event (an empty stored id is treated as None, mirroring the
row and row 0 truthiness test of the source). -/
def get_current_event (db : DB) (uid : Int) : Option String :=
  match db.user_context.find? (fun r => r.telegram_id == uid) with
  | none => none
  | some r => if r.current_event_id == "" then none else some r.current_event_id

/-- add_alert: INSERT with status scheduled, returning lastrowid. -/
def add_alert (db : DB) (eid : String) (run_at : Int) (minutes_before : Int)
    (created_by : Int) : DB × Nat :=
  ({ db with
      alerts := db.alerts ++
        [{ id := db.next_alert_id, event_id := eid, run_at := run_at,
           minutes_before := minutes_before, created_by := created_by,
           status := "scheduled" }],
      next_alert_id := db.next_alert_id + 1 },
   db.next_alert_id)

/-- list_future_alerts: SELECT ... WHERE status = scheduled. -/
def list_future_alerts (db : DB) : List AlertRow :=
  db.alerts.filter (fun a => a.status == "scheduled")

/-- mark_alert_sent: UPDATE alerts SET status = sent WHERE id = ?. -/
def mark_alert_sent (db : DB) (alert_id : Nat) : DB :=
  { db with alerts := db.alerts.map (fun a =>
      if a.id == alert_id then { a with status := "sent" } else a) }

/-! ## Transport-facing handlers -/

/-- The Telegram profile of the acting user, as the handlers read it from
update.effective_user. -/
structure UserInfo where
  id : Int
  username : Option String := none
  first_name : Option String := none
  last_name : Option String := none
deriving Repr, DecidableEq

/-- The typed-cancel test at the top of on_text: text.lower() equals the
configured cancel command (default /cancel) or the bare word cancel. -/
def is_cancel_text (t : String) : Bool :=
  py_lower t == "/cancel" || py_lower t == "cancel"

/-- show_event_menu: looks the event up, re-points current_event at it and
renders the role menu; a missing event renders event_not_found. -/
def show_event_menu (uid : Int) (eid : Option String) (db : DB) : DB × List Effect :=
  match eid with
  | none => (db, [Effect.reply "event_not_found"])
  | some e =>
      match get_event db e with
      | none => (db, [Effect.reply "event_not_found"])
      | some _ => (set_current_event db uid (some e), [Effect.reply "entered_event"])

/-- The sequential per-recipient delivery loop of send_broadcast: success
and fail counters plus one deliver attempt per recipient.  The batch
structure of the source only inserts sleeps between slices and does not
change the attempt sequence. -/
def broadcast_fold (ok : Int → Bool) (recipients : List Int) : Nat × Nat × List Effect :=
  recipients.foldl
    (fun acc pid =>
      if ok pid then (acc.1 + 1, acc.2.1, acc.2.2 ++ [Effect.deliver pid])
      else (acc.1, acc.2.1 + 1, acc.2.2 ++ [Effect.deliver pid]))
    (0, 0, [])

/-- send_broadcast: recipients are the participants of the event minus the
organizer (and minus a falsy id 0, from the Python truthiness test); an
empty recipient list renders broadcast_none and attempts nothing,
otherwise every recipient is attempted and the aggregate counts are
rendered once the loop completes.  The database is never written. -/
def send_broadcast (db : DB) (eidO : Option String) (ok : Int → Bool) : List Effect :=
  match eidO.bind (get_event db) with
  | none => [Effect.reply "event_not_found"]
  | some ev =>
      let ids := get_participant_telegram_ids db ev.event_id
      let recipients := ids.filter (fun pid => pid != 0 && pid != ev.admin_id)
      if recipients.isEmpty then [Effect.reply "broadcast_none"]
      else
        let r := broadcast_fold ok recipients
        Effect.reply "broadcast_sending" :: r.2.2 ++ [Effect.report r.1 r.2.1]

/-- The SSID/Password line parse of the admin_set_wifi branch (a later
matching line overwrites an earlier one, mirroring the reassignment loop
of the source; the value is the text after the first colon, stripped). -/
def parse_wifi (text : String) : Option String × Option String :=
  (py_split '\n' text).foldl
    (fun (acc : Option String × Option String) line =>
      let acc1 := if py_startsWith (py_lower line) "ssid:" then
          (some (py_strip (py_join ":" ((py_split ':' line).drop 1))), acc.2)
        else acc
      if py_startsWith (py_lower line) "password:" then
        (acc1.1, some (py_strip (py_join ":" ((py_split ':' line).drop 1))))
      else acc1)
    (none, none)

/-- The Name/Phone/Email/Telegram line parse of the admin_set_org branch. -/
def parse_org_fields (text : String) : String × String × String × String :=
  (py_split '\n' text).foldl
    (fun (acc : String × String × String × String) rawLine =>
      let line := py_strip rawLine
      if (py_split ':' line).length == 1 then acc
      else
        let k := py_lower (py_strip ((py_split ':' line).headD ""))
        let v := py_strip (py_join ":" ((py_split ':' line).drop 1))
        if k == "name" then (v, acc.2)
        else if k == "phone" then (acc.1, v, acc.2.2)
        else if k == "email" then (acc.1, acc.2.1, v, acc.2.2.2)
        else if k == "telegram" then (acc.1, acc.2.1, acc.2.2.1, v)
        else acc)
    ("", "", "", "")

/-- The create_event_name branch of on_text. -/
def text_create_event_name (u : UserInfo) (text freshId : String) (db : DB) :
    DB × List Effect :=
  if text == "" then (db, [Effect.reply "create_event_invalid_name"])
  else if event_exists db freshId then (db, [])
  else
    let db1 := create_event db freshId text u.id
    let db2 := ensure_participant_stub db1 freshId u.id u.username u.first_name u.last_name
    let db3 := set_current_event db2 u.id (some freshId)
    let db4 := clear_user_state db3 u.id
    show_event_menu u.id (some freshId) db4

/-- The reg_full_name branch of on_text. -/
def text_reg_full_name (uid : Int) (text : String) (payload : Payload) (db : DB) :
    DB × List Effect :=
  if !(truthyS payload.event_id) || !(event_exists db (payload.event_id.getD "")) then
    (clear_user_state db uid, [Effect.reply "event_not_found"])
  else if text.length < 2 then (db, [Effect.reply "reg_name_invalid"])
  else
    (set_user_state db uid (some "reg_phone") (some { payload with full_name := some text }),
     [Effect.reply "reg_phone_prompt"])

/-- The reg_company branch of on_text (writes the registration info and
returns to the event menu). -/
def text_reg_company (uid : Int) (text : String) (payload : Payload) (db : DB) :
    DB × List Effect :=
  if text.length < 2 then (db, [Effect.reply "reg_company_invalid"])
  else
    let db1 := set_registration_info db payload.event_id uid
      (py_strip (payload.full_name.getD "")) (payload.phone_number.getD "") text
    let db2 := clear_user_state db1 uid
    let m := show_event_menu uid payload.event_id db2
    (m.1, Effect.reply "reg_saved" :: m.2)

/-- The admin_edit_agenda branch of on_text: the one EventContent branch
with an organizer re-check before its write. -/
def text_admin_edit_agenda (uid : Int) (text : String) (eidO : Option String) (db : DB) :
    DB × List Effect :=
  if !(truthyS eidO) || !(is_admin db (eidO.getD "") uid) then
    (clear_user_state db uid, [Effect.reply "not_allowed"])
  else
    let db1 := set_agenda db eidO text
    let db2 := clear_user_state db1 uid
    let m := show_event_menu uid eidO db2
    (m.1, Effect.reply "agenda_updated" :: m.2)

/-- The admin_set_time branch of on_text (no organizer re-check). -/
def text_admin_set_time (uid : Int) (text : String) (eidO : Option String) (db : DB) :
    DB × List Effect :=
  match parse_event_time text with
  | none => (db, [Effect.reply "time_invalid_format"])
  | some t =>
      let db1 := set_time db eidO (some t)
      let db2 := clear_user_state db1 uid
      let m := show_event_menu uid eidO db2
      (m.1, Effect.reply "time_updated" :: m.2)

/-- The admin_set_location branch of on_text (no organizer re-check). -/
def text_admin_set_location (uid : Int) (text : String) (eidO : Option String) (db : DB) :
    DB × List Effect :=
  let db1 := if py_lower text == "clear" then set_location db eidO none
             else set_location db eidO (some text)
  let db2 := clear_user_state db1 uid
  let m := show_event_menu uid eidO db2
  (m.1, Effect.reply "location_updated" :: m.2)

/-- The admin_set_map_pin text branch of on_text (only the literal clear
acts; no organizer re-check). -/
def text_admin_set_map_pin (uid : Int) (text : String) (eidO : Option String) (db : DB) :
    DB × List Effect :=
  if py_lower text == "clear" then
    let db1 := clear_map_pin db eidO
    let db2 := clear_user_state db1 uid
    let m := show_event_menu uid eidO db2
    (m.1, Effect.reply "map_pin_removed" :: m.2)
  else (db, [Effect.reply "map_pin_need_location"])

/-- The admin_set_wifi branch of on_text (no organizer re-check). -/
def text_admin_set_wifi (uid : Int) (text : String) (eidO : Option String) (db : DB) :
    DB × List Effect :=
  let parsed := parse_wifi text
  if !(truthyS parsed.1) || !(truthyS parsed.2) then
    (db, [Effect.reply "wifi_invalid_format"])
  else if (parsed.2.getD "").length < 8 then
    (db, [Effect.reply "wifi_invalid_password"])
  else
    let db1 := set_wifi db eidO (parsed.1.getD "") (parsed.2.getD "")
    let db2 := clear_user_state db1 uid
    let m := show_event_menu uid eidO db2
    (m.1, Effect.reply "wifi_updated" :: m.2)

/-- The admin_set_org branch of on_text (no organizer re-check). -/
def text_admin_set_org (uid : Int) (text : String) (eidO : Option String) (db : DB) :
    DB × List Effect :=
  let fields := parse_org_fields text
  if fields.1 == "" then (db, [Effect.reply "not_allowed"])
  else
    let db1 := set_organizer_info db eidO fields.1 fields.2.1 fields.2.2.1 fields.2.2.2
    let db2 := clear_user_state db1 uid
    let m := show_event_menu uid eidO db2
    (m.1, Effect.reply "org_updated" :: m.2)

/-- The admin_notify_text branch of on_text. -/
def text_admin_notify (uid : Int) (eidO : Option String) (ok : Int → Bool) (db : DB) :
    DB × List Effect :=
  let bes := send_broadcast db eidO ok
  let db1 := clear_user_state db uid
  let m := show_event_menu uid eidO db1
  (m.1, bes ++ m.2)

/-- The p_ask_question branch of on_text. -/
def text_p_ask_question (uid : Int) (text : String) (payload : Payload) (db : DB) :
    DB × List Effect :=
  if !(truthyS payload.event_id) || !(event_exists db (payload.event_id.getD "")) then
    (clear_user_state db uid, [Effect.reply "event_not_found"])
  else
    let db1 := add_question db (payload.event_id.getD "") uid text
    let db2 := clear_user_state db1 uid
    let m := show_event_menu uid payload.event_id db2
    (m.1, Effect.reply "question_sent" :: m.2)

/-- The p_feedback_comment branch of on_text.  An empty (stripped) comment
only re-prompts; a non-empty one upserts the feedback row keyed by the
payload rating and closes the flow.  A None event id, or an insert path
for a deleted event, raises in db.set_feedback and the update is dropped. -/
def text_p_feedback_comment (uid : Int) (text : String) (eidO : Option String)
    (rating : Int) (db : DB) : DB × List Effect :=
  if text == "" then (db, [Effect.reply "comment_empty"])
  else
    match eidO with
    | none => (db, [])
    | some e =>
        if db.feedback.any (fun f => f.event_id == e && f.telegram_id == uid) ||
           event_exists db e then
          let db1 := set_feedback db (some e) uid rating (some text)
          let db2 := clear_user_state db1 uid
          let m := show_event_menu uid (some e) db2
          (m.1, Effect.reply "comment_saved" :: m.2)
        else (db, [])

/-- on_text: the freeform-text arm of the interaction FSM, dispatching on
the persisted state exactly as the if-chain of the source does.  freshId
models the secrets.token_urlsafe event id drawn in the create_event_name
branch, ok the per-recipient delivery oracle of the broadcast engine. -/
def on_text (u : UserInfo) (raw : String) (freshId : String) (ok : Int → Bool)
    (db : DB) : DB × List Effect :=
  let uid := u.id
  let text := py_strip raw
  if is_cancel_text text then
    (clear_user_state db uid, [Effect.reply "cancelled"])
  else
    let sp := get_user_state db uid
    let state := sp.1
    let payload := sp.2
    if state == some "create_event_name" then text_create_event_name u text freshId db
    else if state == some "reg_full_name" then text_reg_full_name uid text payload db
    else if state == some "reg_phone" then (db, [Effect.reply "reg_phone_reject"])
    else if state == some "reg_company" then text_reg_company uid text payload db
    else
      let cur := get_current_event db uid
      let eidO := pyOr payload.event_id cur
      if state == some "admin_edit_agenda" then text_admin_edit_agenda uid text eidO db
      else if state == some "admin_set_time" then text_admin_set_time uid text eidO db
      else if state == some "admin_set_location" then text_admin_set_location uid text eidO db
      else if state == some "admin_set_map_pin" then text_admin_set_map_pin uid text eidO db
      else if state == some "admin_set_wifi" then text_admin_set_wifi uid text eidO db
      else if state == some "admin_set_org" then text_admin_set_org uid text eidO db
      else if state == some "admin_notify_text" then text_admin_notify uid eidO ok db
      else if state == some "p_ask_question" then text_p_ask_question uid text payload db
      else if state == some "p_feedback_comment" then
        text_p_feedback_comment uid text eidO (payload.rating.getD 1) db
      else (db, [Effect.reply "use_my_events_to_continue"])

/-- on_contact: the contact kwargs are the sharing owner id (contact
user_id, possibly absent) and the raw phone number string. -/
def on_contact (u : UserInfo) (owner : Option Int) (phoneRaw : String) (db : DB) :
    DB × List Effect :=
  let uid := u.id
  let sp := get_user_state db uid
  if sp.1 != some "reg_phone" then (db, [])
  else if (match owner with | some o => o != 0 && o != uid | none => false) then
    (db, [Effect.reply "share_own_contact"])
  else
    match norm_phone (some phoneRaw) with
    | none => (db, [Effect.reply "phone_read_fail"])
    | some ph =>
        (set_user_state db uid (some "reg_company")
           (some { sp.2 with phone_number := some ph }),
         [Effect.reply "reg_company_prompt"])

/-- on_location. -/
def on_location (u : UserInfo) (lat lon : Int) (db : DB) : DB × List Effect :=
  let uid := u.id
  let sp := get_user_state db uid
  if sp.1 != some "admin_set_map_pin" then (db, [])
  else
    let eidO := pyOr sp.2.event_id (get_current_event db uid)
    if !(truthyS eidO) || !(is_admin db (eidO.getD "") uid) then
      (clear_user_state db uid, [])
    else
      let db1 := set_map_pin db eidO lat lon
      let db2 := clear_user_state db1 uid
      let m := show_event_menu uid eidO db2
      (m.1, Effect.reply "map_pin_saved" :: m.2)

/-- on_photo. -/
def on_photo (u : UserInfo) (fileId : String) (caption : Option String) (ok : Int → Bool)
    (db : DB) : DB × List Effect :=
  let uid := u.id
  let sp := get_user_state db uid
  if sp.1 == some "admin_upload_photos" then
    let eidO := pyOr sp.2.event_id (get_current_event db uid)
    if !(truthyS eidO) || !(is_admin db (eidO.getD "") uid) then
      (clear_user_state db uid, [Effect.reply "not_allowed"])
    else
      (add_photo db (eidO.getD "") fileId caption, [Effect.reply "photo_saved_send_more"])
  else if sp.1 == some "admin_notify_text" then
    let eidO := pyOr sp.2.event_id (get_current_event db uid)
    if !(truthyS eidO) || !(is_admin db (eidO.getD "") uid) then
      (clear_user_state db uid, [])
    else
      let bes := send_broadcast db eidO ok
      let db1 := clear_user_state db uid
      let m := show_event_menu uid eidO db1
      (m.1, bes ++ m.2)
  else (db, [Effect.reply "photo_received_use_photos"])

/-- The admin:alert_set branch of the callback router: a lead time is
subtracted from the stored event time; a missing event time or a
resulting fire-at not strictly in the future is reported without
persisting anything, otherwise the alert row is inserted as scheduled and
a one-shot job is armed at the fire-at instant. -/
def admin_alert_set (uid : Int) (event_id data : String) (now : Int) (db : DB) :
    DB × List Effect :=
  let et := match get_event_content db event_id with
            | none => none
            | some c => c.event_time
  match parseInt? ((py_split ':' data).getLastD "") with
  | none => (db, [])
  | some minutes =>
      match et with
      | none => (db, [Effect.reply "event_time_not_set"])
      | some t =>
          let run_at := t - minutes
          if run_at ≤ now then (db, [Effect.reply "reminder_past"])
          else
            let r := add_alert db event_id run_at minutes uid
            (r.1, [Effect.armJob r.2 run_at, Effect.reply "reminder_scheduled"])

/-- handle_admin_action: the organizer-scoped arm of the callback router.
on_callback dispatches here only for an existing current event whose
organizer is the caller; the leading get_event access raises on a missing
event, modelled as a dropped update. -/
def handle_admin_action (u : UserInfo) (event_id : String) (data : String) (now : Int)
    (db : DB) : DB × List Effect :=
  let uid := u.id
  match get_event db event_id with
  | none => (db, [])
  | some _ =>
      if data == "admin:manage" then (db, [Effect.reply "manage_title"])
      else if data == "admin:view" then (db, [Effect.reply "view_title"])
      else if data == "admin:agenda" then (db, [Effect.reply "agenda_title"])
      else if data == "admin:wifi" then (db, [Effect.reply "wifi_title"])
      else if data == "admin:org" then (db, [Effect.reply "org_title"])
      else if data == "admin:time" then (db, [Effect.reply "time_title"])
      else if data == "admin:location" then (db, [Effect.reply "location_title"])
      else if data == "admin:map_pin" then (db, [Effect.reply "map_pin_title"])
      else if data == "admin:agenda_view" then (db, [Effect.reply "current_agenda"])
      else if data == "admin:wifi_view" then (db, [Effect.reply "current_wifi"])
      else if data == "admin:org_view" then (db, [Effect.reply "current_org"])
      else if data == "admin:time_view" then (db, [Effect.reply "current_time"])
      else if data == "admin:location_view" then (db, [Effect.reply "current_location"])
      else if data == "admin:map_pin_view" then (db, [Effect.reply "current_map_pin"])
      else if data == "admin:agenda_edit" then
        (set_user_state db uid (some "admin_edit_agenda")
           (some { Payload.empty with event_id := some event_id }),
         [Effect.reply "agenda_set_prompt"])
      else if data == "admin:wifi_edit" then
        (set_user_state db uid (some "admin_set_wifi")
           (some { Payload.empty with event_id := some event_id }),
         [Effect.reply "wifi_set_prompt"])
      else if data == "admin:org_edit" then
        (set_user_state db uid (some "admin_set_org")
           (some { Payload.empty with event_id := some event_id }),
         [Effect.reply "org_set_prompt"])
      else if data == "admin:time_edit" then
        (set_user_state db uid (some "admin_set_time")
           (some { Payload.empty with event_id := some event_id }),
         [Effect.reply "time_set_prompt"])
      else if data == "admin:location_edit" then
        (set_user_state db uid (some "admin_set_location")
           (some { Payload.empty with event_id := some event_id }),
         [Effect.reply "location_set_prompt"])
      else if data == "admin:map_pin_edit" then
        (set_user_state db uid (some "admin_set_map_pin")
           (some { Payload.empty with event_id := some event_id }),
         [Effect.reply "map_pin_set_prompt"])
      else if data == "admin:members" then (db, [Effect.reply "members_title"])
      else if data == "admin:notify" then
        (set_user_state db uid (some "admin_notify_text")
           (some { Payload.empty with event_id := some event_id }),
         [Effect.reply "push_prompt"])
      else if data == "admin:alert" then (db, [Effect.reply "alert_menu"])
      else if py_startsWith data "admin:alert_set:" then
        admin_alert_set uid event_id data now db
      else if data == "admin:photos" then (db, [Effect.reply "photos_menu_title"])
      else if data == "admin:photos_view" then (db, [Effect.reply "photos_view_result"])
      else if data == "admin:photos_upload" then
        (set_user_state db uid (some "admin_upload_photos")
           (some { Payload.empty with event_id := some event_id }),
         [Effect.reply "upload_mode_title"])
      else if data == "admin:photos_done" then
        (clear_user_state db uid, [Effect.reply "upload_mode_closed"])
      else if data == "admin:questions" then (db, [Effect.reply "questions_title"])
      else if data == "admin:feedback" then (db, [Effect.reply "feedback_title"])
      else if data == "admin:invite" then (db, [Effect.reply "invite_title"])
      else if data == "admin:delete" then (db, [Effect.reply "delete_confirm"])
      else if data == "admin:delete_yes" then
        let db1 := delete_event db event_id
        (set_current_event db1 uid none, [Effect.reply "event_deleted"])
      else if data == "admin:back_to_menu" then show_event_menu uid (some event_id) db
      else (db, [Effect.reply "unknown_action"])

/-- handle_participant_action: the participant-scoped arm of the callback
router. -/
def handle_participant_action (u : UserInfo) (event_id : String) (data : String)
    (db : DB) : DB × List Effect :=
  let uid := u.id
  match get_event db event_id with
  | none => (db, [])
  | some _ =>
      if data == "p:info" then (db, [Effect.reply "event_info"])
      else if data == "p:share" then (db, [Effect.reply "invite_title"])
      else if data == "p:ask" then
        (set_user_state db uid (some "p_ask_question")
           (some { Payload.empty with event_id := some event_id }),
         [Effect.reply "ask_question_prompt"])
      else if data == "p:feedback" then (db, [Effect.reply "rating_choose"])
      else if py_startsWith data "p:rate:" then
        match parseInt? ((py_split ':' data).getLastD "") with
        | none => (db, [])
        | some rating =>
            let db1 := set_feedback db (some event_id) uid rating none
            (set_user_state db1 uid (some "p_feedback_comment")
               (some { Payload.empty with event_id := some event_id, rating := some rating }),
             [Effect.reply "rating_saved_optional_comment"])
      else if data == "p:feedback_skip" then
        (clear_user_state db uid, [Effect.reply "feedback_saved"])
      else if data == "p:leave" then (db, [Effect.reply "leave_confirm"])
      else if data == "p:leave_yes" then
        (set_current_event (leave_event db event_id uid) uid none,
         [Effect.reply "left_event"])
      else if data == "p:back_to_menu" then show_event_menu uid (some event_id) db
      else (db, [Effect.reply "unknown_action"])

/-- on_callback: the top-level callback router. -/
def on_callback (u : UserInfo) (data : String) (now : Int) (db : DB) : DB × List Effect :=
  let uid := u.id
  if data == "hub:none" then (db, [Effect.reply "my_events_title"])
  else if data == "hub:admin" then
    (clear_user_state db uid, [Effect.reply "events_you_organize"])
  else if data == "hub:joined" then
    (clear_user_state db uid, [Effect.reply "events_you_joined"])
  else if data == "event:create" then
    (set_user_state db uid (some "create_event_name")
       (some { Payload.empty with src := some "hub:none" }),
     [Effect.reply "create_event_prompt"])
  else if py_startsWith data "event:open:" then
    match py_split ':' data with
    | _ :: _ :: eid :: src :: _ =>
        if ¬ event_exists db eid then (db, [Effect.reply "event_not_found"])
        else
          let db1 := ensure_participant_stub db eid uid u.username u.first_name u.last_name
          let db2 := set_current_event db1 uid (some eid)
          if !(is_admin db2 eid uid) && !(has_full_registration db2 eid uid) then
            (set_user_state db2 uid (some "reg_full_name")
               (some { Payload.empty with event_id := some eid, src := some src }),
             [Effect.reply "reg_full_name_prompt"])
          else show_event_menu uid (some eid) db2
    | _ => (db, [])
  else if py_startsWith data "event:invite:" then
    match py_split ':' data with
    | [_, _, eid, _] =>
        if ¬ is_admin db eid uid then (db, [Effect.reply "invite_only_admin"])
        else (db, [Effect.reply "invite_title"])
    | _ => (db, [])
  else if py_startsWith data "event:del_confirm:" then
    match py_split ':' data with
    | [_, _, eid, _] =>
        if ¬ is_admin db eid uid then (db, [Effect.reply "not_allowed"])
        else (db, [Effect.reply "delete_confirm"])
    | _ => (db, [])
  else if py_startsWith data "event:delete:" then
    match py_split ':' data with
    | [_, _, eid, _] =>
        if ¬ is_admin db eid uid then (db, [Effect.reply "not_allowed"])
        else
          let db1 := delete_event db eid
          let db2 := if get_current_event db1 uid == some eid then
              set_current_event db1 uid none
            else db1
          (db2, [Effect.reply "event_deleted"])
    | _ => (db, [])
  else if py_startsWith data "event:leave_confirm:" then
    match py_split ':' data with
    | [_, _, eid, _] =>
        if is_admin db eid uid then (db, [Effect.reply "organizer_cant_leave"])
        else (db, [Effect.reply "leave_confirm"])
    | _ => (db, [])
  else if py_startsWith data "event:leave:" then
    match py_split ':' data with
    | [_, _, eid, _] =>
        if is_admin db eid uid then (db, [Effect.reply "organizer_cant_leave"])
        else
          let db1 := leave_event db eid uid
          let db2 := if get_current_event db1 uid == some eid then
              set_current_event db1 uid none
            else db1
          (db2, [Effect.reply "left_event"])
    | _ => (db, [])
  else
    match get_current_event db uid with
    | none => (db, [Effect.reply "choose_event_first"])
    | some ce =>
        if ¬ event_exists db ce then (db, [Effect.reply "choose_event_first"])
        else if is_admin db ce uid && py_startsWith data "admin:" then
          handle_admin_action u ce data now db
        else if !(is_admin db ce uid) && py_startsWith data "p:" then
          handle_participant_action u ce data db
        else (db, [Effect.reply "unknown_action"])

/-- cmd_start, with the optional deep-link argument. -/
def cmd_start (u : UserInfo) (arg : Option String) (db : DB) : DB × List Effect :=
  match arg with
  | some eidRaw =>
      let eid := py_strip eidRaw
      if ¬ event_exists db eid then (db, [Effect.reply "invalid_event_link"])
      else
        let db1 := ensure_participant_stub db eid u.id u.username u.first_name u.last_name
        let db2 := set_current_event db1 u.id (some eid)
        if !(is_admin db2 eid u.id) && !(has_full_registration db2 eid u.id) then
          (set_user_state db2 u.id (some "reg_full_name")
             (some { Payload.empty with event_id := some eid, src := some "hub_joined" }),
           [Effect.reply "reg_full_name_prompt"])
        else show_event_menu u.id (some eid) db2
  | none => (clear_user_state db u.id, [Effect.reply "welcome"])

/-- cmd_my_events: clears the FSM state and renders the hub. -/
def cmd_my_events (u : UserInfo) (db : DB) : DB × List Effect :=
  (clear_user_state db u.id, [Effect.reply "my_events_title"])

/-- cmd_help. -/
def cmd_help (db : DB) : DB × List Effect :=
  (db, [Effect.reply "help"])

/-- cmd_cancel. -/
def cmd_cancel (u : UserInfo) (db : DB) : DB × List Effect :=
  (clear_user_state db u.id, [Effect.reply "cancelled"])

/-- job_send_alert: deliver the reminder to the current non-organizer
participants and mark the alert sent; a deleted event or an empty
recipient list marks it sent without delivering.  Per-recipient failures
are caught and logged without counters, so no delivery oracle is needed:
every recipient is attempted. -/
def job_send_alert (alert_id : Nat) (event_id : String) (db : DB) :
    DB × List Effect :=
  match get_event db event_id with
  | none => (mark_alert_sent db alert_id, [])
  | some ev =>
      let ids := get_participant_telegram_ids db event_id
      let recipients := ids.filter (fun pid => pid != 0 && pid != ev.admin_id)
      if recipients.isEmpty then (mark_alert_sent db alert_id, [])
      else (mark_alert_sent db alert_id, recipients.map Effect.deliver)

/-- post_init alert recovery: iterate over the snapshot of scheduled
alerts; re-arm the still-future ones, mark the rest sent without
delivering. -/
def post_init (now : Int) (db : DB) : DB × List Effect :=
  (list_future_alerts db).foldl
    (fun acc a =>
      if a.run_at > now then (acc.1, acc.2 ++ [Effect.armJob a.id a.run_at])
      else (mark_alert_sent acc.1 a.id, acc.2))
    (db, [])

/-- One inbound update or process event, covering every handler the
application registers in main plus the startup recovery routine. -/
inductive Op where
  | text (u : UserInfo) (raw : String) (freshId : String) (ok : Int → Bool)
  | contact (u : UserInfo) (owner : Option Int) (phoneRaw : String)
  | location (u : UserInfo) (lat lon : Int)
  | photo (u : UserInfo) (fileId : String) (caption : Option String) (ok : Int → Bool)
  | callback (u : UserInfo) (data : String) (now : Int)
  | start (u : UserInfo) (arg : Option String)
  | myEvents (u : UserInfo)
  | helpCmd
  | cancelCmd (u : UserInfo)
  | postInitOp (now : Int)
  | jobAlert (alert_id : Nat) (event_id : String)

/-- Dispatch of one Op to its handler. -/
def applyOp (op : Op) (db : DB) : DB × List Effect :=
  match op with
  | Op.text u raw freshId ok => on_text u raw freshId ok db
  | Op.contact u owner phoneRaw => on_contact u owner phoneRaw db
  | Op.location u lat lon => on_location u lat lon db
  | Op.photo u fileId caption ok => on_photo u fileId caption ok db
  | Op.callback u data now => on_callback u data now db
  | Op.start u arg => cmd_start u arg db
  | Op.myEvents u => cmd_my_events u db
  | Op.helpCmd => cmd_help db
  | Op.cancelCmd u => cmd_cancel u db
  | Op.postInitOp now => post_init now db
  | Op.jobAlert alert_id event_id => job_send_alert alert_id event_id db

/-! ## Invariants, spec-side predicates and observation helpers -/

/-- The user_state table has at most one row per telegram_id (its PRIMARY
KEY). -/
def UserStateUnique (db : DB) : Prop :=
  (db.user_state.map (fun r => r.telegram_id)).Nodup

/-- The participants table has at most one row per (event_id, telegram_id)
(its UNIQUE constraint). -/
def ParticipantsUnique (db : DB) : Prop :=
  (db.participants.map (fun p => (p.event_id, p.telegram_id))).Nodup

/-- Alert rowids are distinct (AUTOINCREMENT primary key). -/
def AlertIdsUnique (db : DB) : Prop :=
  (db.alerts.map (fun a => a.id)).Nodup

/-- Spec-side reading of fully registered, written from the specification
text: the participant row exists and full_name, phone and company are all
non-empty after trimming. -/
def FullyRegisteredSpec (db : DB) (eid : String) (uid : Int) : Prop :=
  ∃ p, db.participants.find? (fun q => q.event_id == eid && q.telegram_id == uid) = some p ∧
    py_strip (p.full_name.getD "") ≠ "" ∧ py_strip (p.phone_number.getD "") ≠ "" ∧
    py_strip (p.company_name.getD "") ≠ ""

/-- The three registration columns of the participant row for (eid, uid),
if the row exists. -/
def regTriple (db : DB) (eid : String) (uid : Int) :
    Option (Option String × Option String × Option String) :=
  (db.participants.find? (fun p => p.event_id == eid && p.telegram_id == uid)).map
    (fun p => (p.full_name, p.phone_number, p.company_name))

/-- The alerts row with the given id, if any. -/
def find_alert (db : DB) (i : Nat) : Option AlertRow :=
  db.alerts.find? (fun a => a.id == i)

/-- The feedback row for (eid, uid) as a (rating, comment) pair. -/
def get_feedback (db : DB) (eid : String) (uid : Int) : Option (Int × Option String) :=
  (db.feedback.find? (fun f => f.event_id == eid && f.telegram_id == uid)).map
    (fun f => (f.rating, f.comment))

/-- Recognize a per-recipient delivery attempt. -/
def isDeliver : Effect → Bool
  | Effect.deliver _ => true
  | _ => false

/-- Recognize a timer registration for the given alert id. -/
def isArmFor (i : Nat) : Effect → Bool
  | Effect.armJob j _ => j == i
  | _ => false

/-- The one operation of the system that writes the three registration
columns: a text update processed while the sender is in the reg_company
state (the final step of the registration flow, which calls
set_registration_info). -/
def RegWriteOp : Op → DB → Prop
  | Op.text u _ _ _, db => (get_user_state db u.id).1 = some "reg_company"
  | _, _ => False

/-- Pointwise evolution of the registration triples allowed to every
operation outside the registration flow: for each (event, user) pair the
triple is left unchanged, its row is removed, or its row is freshly
inserted as an all-null stub.  Only set_registration_info, reached from
the reg_company text step, may produce any other value. -/
def TriplePres (base d : DB) : Prop :=
  ∀ eid uid, regTriple d eid uid = regTriple base eid uid ∨
    regTriple d eid uid = none ∨
    regTriple d eid uid = some (none, none, none)

/-! ## Concrete databases used by witnesses and counterexamples -/

/-- A small concrete database: event E1 organized by user 1, with a
content row, the organizer stub and a participant stub for user 2, and a
second event E2 whose only participant row is its organizer. -/
def dbE : DB :=
  { events := [{ event_id := "E1", event_name := "Launch", admin_id := 1 },
               { event_id := "E2", event_name := "Offsite", admin_id := 1 }],
    contents := [{ event_id := "E1" }, { event_id := "E2" }],
    participants := [{ event_id := "E1", telegram_id := 1 },
                     { event_id := "E1", telegram_id := 2 },
                     { event_id := "E2", telegram_id := 1 }] }

/-- dbE with user 2 parked in the admin_set_location state for E1, an
event user 2 does not organize. -/
def dbC1 : DB :=
  { dbE with user_state :=
      [{ telegram_id := 2, state := "admin_set_location",
         payload := { event_id := some "E1" } }] }

/-- dbE with user 2 parked in the admin_edit_agenda state for E1, an
event user 2 does not organize. -/
def dbC1agenda : DB :=
  { dbE with user_state :=
      [{ telegram_id := 2, state := "admin_edit_agenda",
         payload := { event_id := some "E1" } }] }

/-- dbE with user 2 parked in the reg_phone state for E1. -/
def dbC7 : DB :=
  { dbE with user_state :=
      [{ telegram_id := 2, state := "reg_phone",
         payload := { event_id := some "E1", full_name := some "Ann Example" } }] }

/-- dbE with user 2 currently inside E1 (used by the feedback sequence
witness). -/
def dbC5 : DB :=
  { dbE with user_context := [{ telegram_id := 2, current_event_id := "E1" }] }

/-- dbE with an existing feedback row for (E1, user 2) and user 2 parked
in the p_feedback_comment state (used by the feedback upsert witness). -/
def dbC5fb : DB :=
  { dbE with
    feedback := [{ event_id := "E1", telegram_id := 2, rating := 1,
                   comment := some "nice" }],
    user_state :=
      [{ telegram_id := 2, state := "p_feedback_comment",
         payload := { event_id := some "E1", rating := some 1 } }] }

/-- dbE with an event time set for E1 (used by the alert-scheduling
witness). -/
def dbC8 : DB :=
  { dbE with contents := [{ event_id := "E1", event_time := some 1000 },
                          { event_id := "E2" }] }

/-- dbE with one stale and one future scheduled alert and one already-sent
alert (used by the recovery witness). -/
def dbC4 : DB :=
  { dbE with
    alerts := [{ id := 1, event_id := "E1", run_at := 50, minutes_before := 15,
                 created_by := 1, status := "scheduled" },
               { id := 2, event_id := "E1", run_at := 500, minutes_before := 30,
                 created_by := 1, status := "scheduled" },
               { id := 3, event_id := "E1", run_at := 40, minutes_before := 15,
                 created_by := 1, status := "sent" }],
    next_alert_id := 4 }

/-! ## Generic list lemmas -/

/-- Filtering with a predicate implied by the search predicate does not
change the result of find?. -/
theorem find?_filter_keep {α : Type} (p q : α → Bool) (l : List α)
    (h : ∀ r, p r = true → q r = true) : (l.filter q).find? p = l.find? p := by
  induction l with
  | nil => rfl
  | cons a t ih =>
      by_cases hp : p a = true
      · rw [List.filter_cons, if_pos (h a hp)]
        rw [List.find?_cons_of_pos _ hp, List.find?_cons_of_pos _ hp]
      · by_cases hq : q a = true
        · rw [List.filter_cons, if_pos hq, List.find?_cons_of_neg _ hp,
              List.find?_cons_of_neg _ hp, ih]
        · rw [List.filter_cons, if_neg hq, List.find?_cons_of_neg _ hp, ih]

/-- find? over a keyed in-place update. -/
theorem find?_map_update {α : Type} (key : α → Bool) (g : α → α) (l : List α)
    (hg : ∀ r, key r = true → key (g r) = true) :
    (l.map (fun r => if key r then g r else r)).find? key = (l.find? key).map g := by
  induction l with
  | nil => rfl
  | cons a t ih =>
      by_cases hk : key a = true
      · rw [List.map_cons, if_pos hk, List.find?_cons_of_pos _ (hg a hk),
            List.find?_cons_of_pos _ hk]
        rfl
      · rw [List.map_cons, if_neg hk, List.find?_cons_of_neg _ hk,
            List.find?_cons_of_neg _ hk, ih]

/-- find? over an append whose left part has no match. -/
theorem find?_append_of_none {α : Type} (p : α → Bool) (l t : List α)
    (hl : l.find? p = none) : (l ++ t).find? p = t.find? p := by
  induction l with
  | nil => rfl
  | cons a s ih =>
      by_cases hp : p a = true
      · rw [List.find?_cons_of_pos _ hp] at hl; exact absurd hl (by simp)
      · rw [List.find?_cons_of_neg _ hp] at hl
        rw [List.cons_append, List.find?_cons_of_neg _ hp, ih hl]

/-- Keys of a keyed in-place update are unchanged when the update
preserves the key. -/
theorem map_key_update {α β : Type} (key : α → Bool) (k : α → β) (g : α → α) (l : List α)
    (hg : ∀ r, key r = true → k (g r) = k r) :
    (l.map (fun r => if key r then g r else r)).map k = l.map k := by
  rw [List.map_map]
  refine List.map_congr_left ?_
  intro a _
  by_cases hk : key a = true
  · simp only [Function.comp_apply, if_pos hk, hg a hk]
  · simp only [Function.comp_apply, if_neg hk]

/-- Appending a row whose key is absent preserves key distinctness. -/
theorem nodup_map_append {α β : Type} (k : α → β) (l : List α) (x : α)
    (h : (l.map k).Nodup) (hx : ∀ r ∈ l, ¬ k r = k x) : ((l ++ [x]).map k).Nodup := by
  rw [List.map_append]
  rw [List.nodup_append]
  refine ⟨h, by simp, ?_⟩
  intro b hb
  simp only [List.map_cons, List.map_nil, List.mem_singleton]
  obtain ⟨r, hr, rfl⟩ := List.mem_map.mp hb
  intro hcon
  exact hx r hr (by simpa using hcon)

/-- Keys of a filtered list stay distinct. -/
theorem nodup_map_filter {α β : Type} (k : α → β) (q : α → Bool) (l : List α)
    (h : (l.map k).Nodup) : ((l.filter q).map k).Nodup :=
  List.Nodup.sublist (List.Sublist.map k (List.filter_sublist l)) h

/-! ## Session-store lemmas -/

/-- The user_state table after a clear. -/
theorem clear_user_state_user_state (db : DB) (uid : Int) :
    (clear_user_state db uid).user_state =
      db.user_state.filter (fun r => r.telegram_id != uid) := rfl

/-- The user_state table after a non-null upsert. -/
theorem set_user_state_user_state (db : DB) (uid : Int) (st : String) (pl : Option Payload) :
    (set_user_state db uid (some st) pl).user_state =
      if db.user_state.any (fun r => r.telegram_id == uid) then
        db.user_state.map (fun r =>
          if r.telegram_id == uid then
            { telegram_id := uid, state := st, payload := pl.getD Payload.empty } else r)
      else
        db.user_state ++
          [{ telegram_id := uid, state := st, payload := pl.getD Payload.empty }] := by
  simp only [set_user_state]
  split <;> rfl

/-- After clear_user_state the user reads back the idle state. -/
theorem get_user_state_clear (db : DB) (uid : Int) :
    get_user_state (clear_user_state db uid) uid = (none, Payload.empty) := by
  unfold get_user_state
  rw [clear_user_state_user_state]
  have h : (db.user_state.filter (fun r => r.telegram_id != uid)).find?
      (fun r => r.telegram_id == uid) = none := by
    refine List.find?_eq_none.mpr ?_
    intro x hx
    have hm := (List.mem_filter.mp hx).2
    simpa using hm
  rw [h]

/-- After set_user_state with a non-null state the user reads back exactly
that state and payload. -/
theorem get_user_state_set (db : DB) (uid : Int) (st : String) (pl : Option Payload) :
    get_user_state (set_user_state db uid (some st) pl) uid =
      (some st, pl.getD Payload.empty) := by
  unfold get_user_state
  rw [set_user_state_user_state]
  by_cases h : db.user_state.any (fun r => r.telegram_id == uid) = true
  · rw [if_pos h]
    rw [find?_map_update (fun r => r.telegram_id == uid)
        (fun _ => { telegram_id := uid, state := st, payload := pl.getD Payload.empty })
        db.user_state (by intro r _; simp)]
    have : (db.user_state.find? (fun r => r.telegram_id == uid)).isSome := by
      rw [List.find?_isSome]
      exact List.any_eq_true.mp h
    obtain ⟨y, hy⟩ := Option.isSome_iff_exists.mp this
    rw [hy]
    rfl
  · rw [if_neg h]
    have hnone : db.user_state.find? (fun r => r.telegram_id == uid) = none := by
      refine List.find?_eq_none.mpr ?_
      intro x hx
      have := List.any_eq_false.mp (Bool.eq_false_iff.mpr h) x hx
      simpa using this
    rw [find?_append_of_none _ _ _ hnone]
    simp

/-- One occurrence of a key in a key-distinct list. -/
theorem countP_key_of_nodup {α β : Type} [BEq β] [LawfulBEq β] (k : α → β) (b : β) (l : List α)
    (h : (l.map k).Nodup) (x : α) (hx : x ∈ l) (hkx : k x = b) :
    l.countP (fun r => k r == b) = 1 := by
  induction l with
  | nil => cases hx
  | cons a t ih =>
      rw [List.map_cons, List.nodup_cons] at h
      rcases List.mem_cons.mp hx with rfl | hxt
      · rw [List.countP_cons_of_pos _ _ (by simpa using hkx)]
        have hz : t.countP (fun r => k r == b) = 0 := by
          rw [List.countP_eq_zero]
          intro r hr hc
          exact h.1 (List.mem_map.mpr ⟨r, hr, by subst hkx; simpa using hc⟩)
        omega
      · have hka : ¬ k a = b := by
          intro hc
          exact h.1 (List.mem_map.mpr ⟨x, hxt, by rw [hkx, hc]⟩)
        rw [List.countP_cons_of_neg _ _ (by simpa using hka)]
        exact ih h.2 hxt

/-- The set_user_state row count for the written user is exactly one. -/
theorem set_user_state_count (db : DB) (uid : Int) (st : String) (pl : Option Payload)
    (h : UserStateUnique db) :
    ((set_user_state db uid (some st) pl).user_state.filter
        (fun r => r.telegram_id == uid)).length = 1 := by
  have husu : (db.user_state.map (fun r => r.telegram_id)).Nodup := h
  rw [set_user_state_user_state]
  by_cases ha : db.user_state.any (fun r => r.telegram_id == uid) = true
  · rw [if_pos ha]
    obtain ⟨x, hx, hpx⟩ := List.any_eq_true.mp ha
    have hkey : x.telegram_id = uid := by simpa using hpx
    rw [← List.countP_eq_length_filter, List.countP_map]
    have hc : (db.user_state.countP (fun r =>
        ((fun s => s.telegram_id == uid) ∘ (fun r => if r.telegram_id == uid then
          ({ telegram_id := uid, state := st, payload := pl.getD Payload.empty } :
            UserStateRow) else r)) r)) =
        db.user_state.countP (fun r => r.telegram_id == uid) := by
      refine List.countP_congr ?_
      intro r _
      by_cases hk : r.telegram_id = uid <;> simp [hk]
    rw [hc]
    exact countP_key_of_nodup (fun r => r.telegram_id) uid db.user_state husu x hx hkey
  · rw [if_neg ha]
    have hall := List.any_eq_false.mp (Bool.eq_false_iff.mpr ha)
    rw [List.filter_append]
    have h0 : db.user_state.filter (fun r => r.telegram_id == uid) = [] := by
      refine List.filter_eq_nil_iff.mpr ?_
      intro x hx
      simpa using hall x hx
    simp [h0]

/-! ## Preservation of the one-state-row-per-user invariant by each
primitive -/

theorem US_clear (db : DB) (uid : Int) (h : UserStateUnique db) :
    UserStateUnique (clear_user_state db uid) := by
  unfold UserStateUnique at *
  rw [clear_user_state_user_state]
  exact nodup_map_filter _ _ _ h

theorem US_set (db : DB) (uid : Int) (st : String) (pl : Option Payload)
    (h : UserStateUnique db) : UserStateUnique (set_user_state db uid (some st) pl) := by
  unfold UserStateUnique at *
  rw [set_user_state_user_state]
  by_cases ha : db.user_state.any (fun r => r.telegram_id == uid) = true
  · rw [if_pos ha]
    have hmk := map_key_update (fun r : UserStateRow => r.telegram_id == uid)
      (fun r : UserStateRow => r.telegram_id)
      (fun _ => ({ telegram_id := uid, state := st, payload := pl.getD Payload.empty } :
        UserStateRow))
      db.user_state (fun r hr => ((by simpa using hr : r.telegram_id = uid)).symm)
    rw [hmk]
    exact h
  · rw [if_neg ha]
    refine nodup_map_append _ _ _ h ?_
    intro r hr
    have := List.any_eq_false.mp (Bool.eq_false_iff.mpr ha) r hr
    simpa using this

theorem US_create (db : DB) (e n : String) (a : Int) (h : UserStateUnique db) :
    UserStateUnique (create_event db e n a) := h

theorem US_delete (db : DB) (e : String) (h : UserStateUnique db) :
    UserStateUnique (delete_event db e) := h

theorem US_update_content (db : DB) (e : Option String) (f : ContentRow → ContentRow)
    (h : UserStateUnique db) : UserStateUnique (update_content db e f) := by
  unfold update_content
  repeat' split
  all_goals exact h

theorem US_ensure (db : DB) (e : String) (uid : Int) (un fn ln : Option String)
    (h : UserStateUnique db) : UserStateUnique (ensure_participant_stub db e uid un fn ln) := by
  unfold ensure_participant_stub
  repeat' split
  all_goals exact h

theorem US_setreg (db : DB) (e : Option String) (uid : Int) (a b c : String)
    (h : UserStateUnique db) : UserStateUnique (set_registration_info db e uid a b c) := by
  unfold set_registration_info
  repeat' split
  all_goals exact h

theorem US_leave (db : DB) (e : String) (uid : Int) (h : UserStateUnique db) :
    UserStateUnique (leave_event db e uid) := h

theorem US_addphoto (db : DB) (e f : String) (c : Option String) (h : UserStateUnique db) :
    UserStateUnique (add_photo db e f c) := h

theorem US_addquestion (db : DB) (e : String) (s : Int) (t : String) (h : UserStateUnique db) :
    UserStateUnique (add_question db e s t) := h

theorem US_setfeedback (db : DB) (e : Option String) (uid r : Int) (c : Option String)
    (h : UserStateUnique db) : UserStateUnique (set_feedback db e uid r c) := by
  unfold set_feedback
  repeat' split
  all_goals exact h

theorem US_setcur (db : DB) (uid : Int) (e : Option String) (h : UserStateUnique db) :
    UserStateUnique (set_current_event db uid e) := by
  unfold set_current_event
  repeat' split
  all_goals exact h

theorem US_addalert (db : DB) (e : String) (r m c : Int) (h : UserStateUnique db) :
    UserStateUnique (add_alert db e r m c).1 := h

theorem US_marksent (db : DB) (i : Nat) (h : UserStateUnique db) :
    UserStateUnique (mark_alert_sent db i) := h

theorem US_menu (uid : Int) (e : Option String) (db : DB) (h : UserStateUnique db) :
    UserStateUnique (show_event_menu uid e db).1 := by
  unfold show_event_menu
  repeat' split
  all_goals first
    | exact h
    | exact US_setcur _ _ _ h

/-- The alert-recovery fold preserves every property preserved by
mark_alert_sent. -/
theorem post_init_pred (now : Int) (db : DB) (P : DB → Prop)
    (hP : ∀ d i, P d → P (mark_alert_sent d i)) (h : P db) : P (post_init now db).1 := by
  unfold post_init
  have H : ∀ (l : List AlertRow) (d : DB) (es : List Effect), P d →
      P ((l.foldl (fun acc a =>
          if a.run_at > now then (acc.1, acc.2 ++ [Effect.armJob a.id a.run_at])
          else (mark_alert_sent acc.1 a.id, acc.2)) (d, es)).1) := by
    intro l
    induction l with
    | nil => intro d es hd; exact hd
    | cons a t ih =>
        intro d es hd
        rw [List.foldl_cons]
        by_cases hr : a.run_at > now
        · rw [if_pos hr]; exact ih d _ hd
        · rw [if_neg hr]; exact ih (mark_alert_sent d a.id) _ (hP d a.id hd)
  exact H _ db [] h

theorem US_setagenda (db : DB) (e : Option String) (a : String) (h : UserStateUnique db) :
    UserStateUnique (set_agenda db e a) := US_update_content _ _ _ h

theorem US_settime (db : DB) (e : Option String) (t : Option Int) (h : UserStateUnique db) :
    UserStateUnique (set_time db e t) := US_update_content _ _ _ h

theorem US_setloc (db : DB) (e : Option String) (l : Option String) (h : UserStateUnique db) :
    UserStateUnique (set_location db e l) := US_update_content _ _ _ h

theorem US_setwifi (db : DB) (e : Option String) (a b : String) (h : UserStateUnique db) :
    UserStateUnique (set_wifi db e a b) := US_update_content _ _ _ h

theorem US_setorg (db : DB) (e : Option String) (a b c d : String) (h : UserStateUnique db) :
    UserStateUnique (set_organizer_info db e a b c d) := US_update_content _ _ _ h

theorem US_setpin (db : DB) (e : Option String) (la lo : Int) (h : UserStateUnique db) :
    UserStateUnique (set_map_pin db e la lo) := US_update_content _ _ _ h

theorem US_clearpin (db : DB) (e : Option String) (h : UserStateUnique db) :
    UserStateUnique (clear_map_pin db e) := US_update_content _ _ _ h

/-! ## Preservation of the invariant by each handler -/

theorem US_text_create (u : UserInfo) (text freshId : String) (db : DB)
    (h : UserStateUnique db) : UserStateUnique (text_create_event_name u text freshId db).1 := by
  unfold text_create_event_name
  dsimp only
  repeat' split
  all_goals first
    | exact h
    | exact US_menu _ _ _ (US_clear _ _ (US_setcur _ _ _ (US_ensure _ _ _ _ _ _
        (US_create _ _ _ _ h))))

theorem US_text_reg_full_name (uid : Int) (text : String) (pl : Payload) (db : DB)
    (h : UserStateUnique db) : UserStateUnique (text_reg_full_name uid text pl db).1 := by
  unfold text_reg_full_name
  repeat' split
  all_goals first
    | exact h
    | exact US_clear _ _ h
    | exact US_set _ _ _ _ h

theorem US_text_reg_company (uid : Int) (text : String) (pl : Payload) (db : DB)
    (h : UserStateUnique db) : UserStateUnique (text_reg_company uid text pl db).1 := by
  unfold text_reg_company
  dsimp only
  repeat' split
  all_goals first
    | exact h
    | exact US_menu _ _ _ (US_clear _ _ (US_setreg _ _ _ _ _ _ h))

theorem US_text_agenda (uid : Int) (text : String) (eidO : Option String) (db : DB)
    (h : UserStateUnique db) : UserStateUnique (text_admin_edit_agenda uid text eidO db).1 := by
  unfold text_admin_edit_agenda
  dsimp only
  repeat' split
  all_goals first
    | exact US_clear _ _ h
    | exact US_menu _ _ _ (US_clear _ _ (US_setagenda _ _ _ h))

theorem US_text_time (uid : Int) (text : String) (eidO : Option String) (db : DB)
    (h : UserStateUnique db) : UserStateUnique (text_admin_set_time uid text eidO db).1 := by
  unfold text_admin_set_time
  dsimp only
  repeat' split
  all_goals first
    | exact h
    | exact US_menu _ _ _ (US_clear _ _ (US_settime _ _ _ h))

theorem US_text_location (uid : Int) (text : String) (eidO : Option String) (db : DB)
    (h : UserStateUnique db) : UserStateUnique (text_admin_set_location uid text eidO db).1 := by
  unfold text_admin_set_location
  dsimp only
  repeat' split
  all_goals exact US_menu _ _ _ (US_clear _ _ (US_setloc _ _ _ h))

theorem US_text_map_pin (uid : Int) (text : String) (eidO : Option String) (db : DB)
    (h : UserStateUnique db) : UserStateUnique (text_admin_set_map_pin uid text eidO db).1 := by
  unfold text_admin_set_map_pin
  dsimp only
  repeat' split
  all_goals first
    | exact h
    | exact US_menu _ _ _ (US_clear _ _ (US_clearpin _ _ h))

theorem US_text_wifi (uid : Int) (text : String) (eidO : Option String) (db : DB)
    (h : UserStateUnique db) : UserStateUnique (text_admin_set_wifi uid text eidO db).1 := by
  unfold text_admin_set_wifi
  dsimp only
  repeat' split
  all_goals first
    | exact h
    | exact US_menu _ _ _ (US_clear _ _ (US_setwifi _ _ _ _ h))

theorem US_text_org (uid : Int) (text : String) (eidO : Option String) (db : DB)
    (h : UserStateUnique db) : UserStateUnique (text_admin_set_org uid text eidO db).1 := by
  unfold text_admin_set_org
  dsimp only
  repeat' split
  all_goals first
    | exact h
    | exact US_menu _ _ _ (US_clear _ _ (US_setorg _ _ _ _ _ _ h))

theorem US_text_notify (uid : Int) (eidO : Option String) (ok : Int → Bool) (db : DB)
    (h : UserStateUnique db) : UserStateUnique (text_admin_notify uid eidO ok db).1 := by
  unfold text_admin_notify
  dsimp only
  exact US_menu _ _ _ (US_clear _ _ h)

theorem US_text_ask (uid : Int) (text : String) (pl : Payload) (db : DB)
    (h : UserStateUnique db) : UserStateUnique (text_p_ask_question uid text pl db).1 := by
  unfold text_p_ask_question
  dsimp only
  repeat' split
  all_goals first
    | exact US_clear _ _ h
    | exact US_menu _ _ _ (US_clear _ _ (US_addquestion _ _ _ _ h))

theorem US_text_comment (uid : Int) (text : String) (eidO : Option String) (rating : Int)
    (db : DB) (h : UserStateUnique db) :
    UserStateUnique (text_p_feedback_comment uid text eidO rating db).1 := by
  unfold text_p_feedback_comment
  dsimp only
  repeat' split
  all_goals first
    | exact h
    | exact US_menu _ _ _ (US_clear _ _ (US_setfeedback _ _ _ _ _ h))

/-- Equality on lifted string options reduces to equality of contents. -/
theorem some_beq_false (a b : String) (h : ¬ a = b) :
    ((some a : Option String) == some b) = false := by
  have hb : (a == b) = false := beq_eq_false_iff_ne.mpr h
  show (a == b) = false
  exact hb

theorem on_text_US (u : UserInfo) (raw freshId : String) (ok : Int → Bool) (db : DB)
    (h : UserStateUnique db) : UserStateUnique (on_text u raw freshId ok db).1 := by
  unfold on_text
  dsimp only
  by_cases hc : is_cancel_text (py_strip raw) = true
  · rw [if_pos hc]; exact US_clear _ _ h
  · rw [if_neg hc]
    by_cases h1 : ((get_user_state db u.id).1 == some "create_event_name") = true
    · rw [if_pos h1]; exact US_text_create _ _ _ _ h
    · rw [if_neg h1]
      by_cases h2 : ((get_user_state db u.id).1 == some "reg_full_name") = true
      · rw [if_pos h2]; exact US_text_reg_full_name _ _ _ _ h
      · rw [if_neg h2]
        by_cases h3 : ((get_user_state db u.id).1 == some "reg_phone") = true
        · rw [if_pos h3]; exact h
        · rw [if_neg h3]
          by_cases h4 : ((get_user_state db u.id).1 == some "reg_company") = true
          · rw [if_pos h4]; exact US_text_reg_company _ _ _ _ h
          · rw [if_neg h4]
            by_cases h5 : ((get_user_state db u.id).1 == some "admin_edit_agenda") = true
            · rw [if_pos h5]; exact US_text_agenda _ _ _ _ h
            · rw [if_neg h5]
              by_cases h6 : ((get_user_state db u.id).1 == some "admin_set_time") = true
              · rw [if_pos h6]; exact US_text_time _ _ _ _ h
              · rw [if_neg h6]
                by_cases h7 : ((get_user_state db u.id).1 == some "admin_set_location") = true
                · rw [if_pos h7]; exact US_text_location _ _ _ _ h
                · rw [if_neg h7]
                  by_cases h8 : ((get_user_state db u.id).1 == some "admin_set_map_pin") = true
                  · rw [if_pos h8]; exact US_text_map_pin _ _ _ _ h
                  · rw [if_neg h8]
                    by_cases h9 : ((get_user_state db u.id).1 == some "admin_set_wifi") = true
                    · rw [if_pos h9]; exact US_text_wifi _ _ _ _ h
                    · rw [if_neg h9]
                      by_cases h10 : ((get_user_state db u.id).1 == some "admin_set_org") = true
                      · rw [if_pos h10]; exact US_text_org _ _ _ _ h
                      · rw [if_neg h10]
                        by_cases h11 :
                            ((get_user_state db u.id).1 == some "admin_notify_text") = true
                        · rw [if_pos h11]; exact US_text_notify _ _ _ _ h
                        · rw [if_neg h11]
                          by_cases h12 :
                              ((get_user_state db u.id).1 == some "p_ask_question") = true
                          · rw [if_pos h12]; exact US_text_ask _ _ _ _ h
                          · rw [if_neg h12]
                            by_cases h13 :
                                ((get_user_state db u.id).1 == some "p_feedback_comment") = true
                            · rw [if_pos h13]; exact US_text_comment _ _ _ _ _ h
                            · rw [if_neg h13]; exact h

theorem on_contact_US (u : UserInfo) (owner : Option Int) (phoneRaw : String) (db : DB)
    (h : UserStateUnique db) : UserStateUnique (on_contact u owner phoneRaw db).1 := by
  unfold on_contact
  dsimp only
  by_cases h1 : ((get_user_state db u.id).1 != some "reg_phone") = true
  · rw [if_pos h1]; exact h
  · rw [if_neg h1]
    by_cases h2 : (match owner with | some o => o != 0 && o != u.id | none => false) = true
    · rw [if_pos h2]; exact h
    · rw [if_neg h2]
      rcases hnp : norm_phone (some phoneRaw) with _ | ph
      · exact h
      · exact US_set _ _ _ _ h


theorem on_location_US (u : UserInfo) (lat lon : Int) (db : DB)
    (h : UserStateUnique db) : UserStateUnique (on_location u lat lon db).1 := by
  unfold on_location
  dsimp only
  by_cases h1 : ((get_user_state db u.id).1 != some "admin_set_map_pin") = true
  · rw [if_pos h1]; exact h
  · rw [if_neg h1]
    by_cases h2 : (!truthyS (pyOr (get_user_state db u.id).2.event_id (get_current_event db u.id)) ||
        !is_admin db ((pyOr (get_user_state db u.id).2.event_id (get_current_event db u.id)).getD "") u.id) = true
    · rw [if_pos h2]; exact US_clear _ _ h
    · rw [if_neg h2]
      exact US_menu _ _ _ (US_clear _ _ (US_setpin _ _ _ _ h))


theorem on_photo_US (u : UserInfo) (fileId : String) (caption : Option String)
    (ok : Int → Bool) (db : DB) (h : UserStateUnique db) :
    UserStateUnique (on_photo u fileId caption ok db).1 := by
  unfold on_photo
  dsimp only
  by_cases h1 : ((get_user_state db u.id).1 == some "admin_upload_photos") = true
  · rw [if_pos h1]
    by_cases h2 : (!truthyS (pyOr (get_user_state db u.id).2.event_id (get_current_event db u.id)) ||
        !is_admin db ((pyOr (get_user_state db u.id).2.event_id (get_current_event db u.id)).getD "") u.id) = true
    · rw [if_pos h2]; exact US_clear _ _ h
    · rw [if_neg h2]; exact US_addphoto _ _ _ _ h
  · rw [if_neg h1]
    by_cases h3 : ((get_user_state db u.id).1 == some "admin_notify_text") = true
    · rw [if_pos h3]
      by_cases h4 : (!truthyS (pyOr (get_user_state db u.id).2.event_id (get_current_event db u.id)) ||
          !is_admin db ((pyOr (get_user_state db u.id).2.event_id (get_current_event db u.id)).getD "") u.id) = true
      · rw [if_pos h4]; exact US_clear _ _ h
      · rw [if_neg h4]; exact US_menu _ _ _ (US_clear _ _ h)
    · rw [if_neg h3]; exact h


theorem US_alert_set (uid : Int) (event_id data : String) (now : Int) (db : DB)
    (h : UserStateUnique db) :
    UserStateUnique (admin_alert_set uid event_id data now db).1 := by
  unfold admin_alert_set
  dsimp only
  rcases hpi : parseInt? ((py_split ':' data).getLastD "") with _ | minutes
  · exact h
  · dsimp only
    rcases hgc : get_event_content db event_id with _ | c
    · exact h
    · dsimp only
      rcases het : c.event_time with _ | t
      · exact h
      · dsimp only
        by_cases hle : t - minutes ≤ now
        · rw [if_pos hle]; exact h
        · rw [if_neg hle]; exact US_addalert _ _ _ _ _ h

theorem handle_admin_US (u : UserInfo) (event_id data : String) (now : Int) (db : DB)
    (h : UserStateUnique db) :
    UserStateUnique (handle_admin_action u event_id data now db).1 := by
  unfold handle_admin_action
  rcases hev : get_event db event_id with _ | ev
  · exact h
  · dsimp only
    by_cases h1 : (data == "admin:manage") = true
    · rw [if_pos h1]; exact h
    · rw [if_neg h1]
      by_cases h2 : (data == "admin:view") = true
      · rw [if_pos h2]; exact h
      · rw [if_neg h2]
        by_cases h3 : (data == "admin:agenda") = true
        · rw [if_pos h3]; exact h
        · rw [if_neg h3]
          by_cases h4 : (data == "admin:wifi") = true
          · rw [if_pos h4]; exact h
          · rw [if_neg h4]
            by_cases h5 : (data == "admin:org") = true
            · rw [if_pos h5]; exact h
            · rw [if_neg h5]
              by_cases h6 : (data == "admin:time") = true
              · rw [if_pos h6]; exact h
              · rw [if_neg h6]
                by_cases h7 : (data == "admin:location") = true
                · rw [if_pos h7]; exact h
                · rw [if_neg h7]
                  by_cases h8 : (data == "admin:map_pin") = true
                  · rw [if_pos h8]; exact h
                  · rw [if_neg h8]
                    by_cases h9 : (data == "admin:agenda_view") = true
                    · rw [if_pos h9]; exact h
                    · rw [if_neg h9]
                      by_cases h10 : (data == "admin:wifi_view") = true
                      · rw [if_pos h10]; exact h
                      · rw [if_neg h10]
                        by_cases h11 : (data == "admin:org_view") = true
                        · rw [if_pos h11]; exact h
                        · rw [if_neg h11]
                          by_cases h12 : (data == "admin:time_view") = true
                          · rw [if_pos h12]; exact h
                          · rw [if_neg h12]
                            by_cases h13 : (data == "admin:location_view") = true
                            · rw [if_pos h13]; exact h
                            · rw [if_neg h13]
                              by_cases h14 : (data == "admin:map_pin_view") = true
                              · rw [if_pos h14]; exact h
                              · rw [if_neg h14]
                                by_cases h15 : (data == "admin:agenda_edit") = true
                                · rw [if_pos h15]; exact US_set _ _ _ _ h
                                · rw [if_neg h15]
                                  by_cases h16 : (data == "admin:wifi_edit") = true
                                  · rw [if_pos h16]; exact US_set _ _ _ _ h
                                  · rw [if_neg h16]
                                    by_cases h17 : (data == "admin:org_edit") = true
                                    · rw [if_pos h17]; exact US_set _ _ _ _ h
                                    · rw [if_neg h17]
                                      by_cases h18 : (data == "admin:time_edit") = true
                                      · rw [if_pos h18]; exact US_set _ _ _ _ h
                                      · rw [if_neg h18]
                                        by_cases h19 : (data == "admin:location_edit") = true
                                        · rw [if_pos h19]; exact US_set _ _ _ _ h
                                        · rw [if_neg h19]
                                          by_cases h20 : (data == "admin:map_pin_edit") = true
                                          · rw [if_pos h20]; exact US_set _ _ _ _ h
                                          · rw [if_neg h20]
                                            by_cases h21 : (data == "admin:members") = true
                                            · rw [if_pos h21]; exact h
                                            · rw [if_neg h21]
                                              by_cases h22 : (data == "admin:notify") = true
                                              · rw [if_pos h22]; exact US_set _ _ _ _ h
                                              · rw [if_neg h22]
                                                by_cases h23 : (data == "admin:alert") = true
                                                · rw [if_pos h23]; exact h
                                                · rw [if_neg h23]
                                                  by_cases h24 : py_startsWith data "admin:alert_set:" = true
                                                  · rw [if_pos h24]
                                                    exact US_alert_set _ _ _ _ _ h
                                                  · rw [if_neg h24]
                                                    by_cases h25 : (data == "admin:photos") = true
                                                    · rw [if_pos h25]; exact h
                                                    · rw [if_neg h25]
                                                      by_cases h26 : (data == "admin:photos_view") = true
                                                      · rw [if_pos h26]; exact h
                                                      · rw [if_neg h26]
                                                        by_cases h27 : (data == "admin:photos_upload") = true
                                                        · rw [if_pos h27]; exact US_set _ _ _ _ h
                                                        · rw [if_neg h27]
                                                          by_cases h28 : (data == "admin:photos_done") = true
                                                          · rw [if_pos h28]; exact US_clear _ _ h
                                                          · rw [if_neg h28]
                                                            by_cases h29 : (data == "admin:questions") = true
                                                            · rw [if_pos h29]; exact h
                                                            · rw [if_neg h29]
                                                              by_cases h30 : (data == "admin:feedback") = true
                                                              · rw [if_pos h30]; exact h
                                                              · rw [if_neg h30]
                                                                by_cases h31 : (data == "admin:invite") = true
                                                                · rw [if_pos h31]; exact h
                                                                · rw [if_neg h31]
                                                                  by_cases h32 : (data == "admin:delete") = true
                                                                  · rw [if_pos h32]; exact h
                                                                  · rw [if_neg h32]
                                                                    by_cases h33 : (data == "admin:delete_yes") = true
                                                                    · rw [if_pos h33]; exact US_setcur _ _ _ (US_delete _ _ h)
                                                                    · rw [if_neg h33]
                                                                      by_cases h34 : (data == "admin:back_to_menu") = true
                                                                      · rw [if_pos h34]; exact US_menu _ _ _ h
                                                                      · rw [if_neg h34]
                                                                        exact h

theorem handle_part_US (u : UserInfo) (event_id data : String) (db : DB)
    (h : UserStateUnique db) :
    UserStateUnique (handle_participant_action u event_id data db).1 := by
  unfold handle_participant_action
  rcases hev : get_event db event_id with _ | ev
  · exact h
  · dsimp only
    by_cases h1 : (data == "p:info") = true
    · rw [if_pos h1]; exact h
    · rw [if_neg h1]
      by_cases h2 : (data == "p:share") = true
      · rw [if_pos h2]; exact h
      · rw [if_neg h2]
        by_cases h3 : (data == "p:ask") = true
        · rw [if_pos h3]; exact US_set _ _ _ _ h
        · rw [if_neg h3]
          by_cases h4 : (data == "p:feedback") = true
          · rw [if_pos h4]; exact h
          · rw [if_neg h4]
            by_cases h5 : py_startsWith data "p:rate:" = true
            · rw [if_pos h5]
              rcases hpi : parseInt? ((py_split ':' data).getLastD "") with _ | rating
              · exact h
              · exact US_set _ _ _ _ (US_setfeedback _ _ _ _ _ h)
            · rw [if_neg h5]
              by_cases h6 : (data == "p:feedback_skip") = true
              · rw [if_pos h6]; exact US_clear _ _ h
              · rw [if_neg h6]
                by_cases h7 : (data == "p:leave") = true
                · rw [if_pos h7]; exact h
                · rw [if_neg h7]
                  by_cases h8 : (data == "p:leave_yes") = true
                  · rw [if_pos h8]; exact US_setcur _ _ _ (US_leave _ _ _ h)
                  · rw [if_neg h8]
                    by_cases h9 : (data == "p:back_to_menu") = true
                    · rw [if_pos h9]; exact US_menu _ _ _ h
                    · rw [if_neg h9]; exact h

theorem on_callback_US (u : UserInfo) (data : String) (now : Int) (db : DB)
    (h : UserStateUnique db) : UserStateUnique (on_callback u data now db).1 := by
  unfold on_callback
  dsimp only
  by_cases h1 : (data == "hub:none") = true
  · rw [if_pos h1]; exact h
  · rw [if_neg h1]
    by_cases h2 : (data == "hub:admin") = true
    · rw [if_pos h2]; exact US_clear _ _ h
    · rw [if_neg h2]
      by_cases h3 : (data == "hub:joined") = true
      · rw [if_pos h3]; exact US_clear _ _ h
      · rw [if_neg h3]
        by_cases h4 : (data == "event:create") = true
        · rw [if_pos h4]; exact US_set _ _ _ _ h
        · rw [if_neg h4]
          by_cases h5 : py_startsWith data "event:open:" = true
          · rw [if_pos h5]
            rcases hsp : py_split ':' data with _ | ⟨p1, _ | ⟨p2, _ | ⟨p3, _ | ⟨p4, rest⟩⟩⟩⟩
            · exact h
            · exact h
            · exact h
            · exact h
            · dsimp only
              by_cases he : ¬ event_exists db p3 = true
              · rw [if_pos he]; exact h
              · rw [if_neg he]
                by_cases hr : (!is_admin (set_current_event (ensure_participant_stub db p3 u.id
                    u.username u.first_name u.last_name) u.id (some p3)) p3 u.id &&
                    !has_full_registration (set_current_event (ensure_participant_stub db p3 u.id
                    u.username u.first_name u.last_name) u.id (some p3)) p3 u.id) = true
                · rw [if_pos hr]
                  exact US_set _ _ _ _ (US_setcur _ _ _ (US_ensure _ _ _ _ _ _ h))
                · rw [if_neg hr]
                  exact US_menu _ _ _ (US_setcur _ _ _ (US_ensure _ _ _ _ _ _ h))
          · rw [if_neg h5]
            by_cases h6 : py_startsWith data "event:invite:" = true
            · rw [if_pos h6]
              rcases hsp : py_split ':' data with _ | ⟨p1, _ | ⟨p2, _ | ⟨p3, _ | ⟨p4, _ | ⟨p5, rest⟩⟩⟩⟩⟩
              · exact h
              · exact h
              · exact h
              · exact h
              · dsimp only
                by_cases ha : ¬ is_admin db p3 u.id = true
                · rw [if_pos ha]; exact h
                · rw [if_neg ha]; exact h
              · exact h
            · rw [if_neg h6]
              by_cases h7 : py_startsWith data "event:del_confirm:" = true
              · rw [if_pos h7]
                rcases hsp : py_split ':' data with _ | ⟨p1, _ | ⟨p2, _ | ⟨p3, _ | ⟨p4, _ | ⟨p5, rest⟩⟩⟩⟩⟩
                · exact h
                · exact h
                · exact h
                · exact h
                · dsimp only
                  by_cases ha : ¬ is_admin db p3 u.id = true
                  · rw [if_pos ha]; exact h
                  · rw [if_neg ha]; exact h
                · exact h
              · rw [if_neg h7]
                by_cases h8 : py_startsWith data "event:delete:" = true
                · rw [if_pos h8]
                  rcases hsp : py_split ':' data with _ | ⟨p1, _ | ⟨p2, _ | ⟨p3, _ | ⟨p4, _ | ⟨p5, rest⟩⟩⟩⟩⟩
                  · exact h
                  · exact h
                  · exact h
                  · exact h
                  · dsimp only
                    by_cases ha : ¬ is_admin db p3 u.id = true
                    · rw [if_pos ha]; exact h
                    · rw [if_neg ha]
                      by_cases hcu : (get_current_event (delete_event db p3) u.id == some p3) = true
                      · rw [if_pos hcu]; exact US_setcur _ _ _ (US_delete _ _ h)
                      · rw [if_neg hcu]; exact US_delete _ _ h
                  · exact h
                · rw [if_neg h8]
                  by_cases h9 : py_startsWith data "event:leave_confirm:" = true
                  · rw [if_pos h9]
                    rcases hsp : py_split ':' data with _ | ⟨p1, _ | ⟨p2, _ | ⟨p3, _ | ⟨p4, _ | ⟨p5, rest⟩⟩⟩⟩⟩
                    · exact h
                    · exact h
                    · exact h
                    · exact h
                    · dsimp only
                      by_cases ha : is_admin db p3 u.id = true
                      · rw [if_pos ha]; exact h
                      · rw [if_neg ha]; exact h
                    · exact h
                  · rw [if_neg h9]
                    by_cases h10 : py_startsWith data "event:leave:" = true
                    · rw [if_pos h10]
                      rcases hsp : py_split ':' data with _ | ⟨p1, _ | ⟨p2, _ | ⟨p3, _ | ⟨p4, _ | ⟨p5, rest⟩⟩⟩⟩⟩
                      · exact h
                      · exact h
                      · exact h
                      · exact h
                      · dsimp only
                        by_cases ha : is_admin db p3 u.id = true
                        · rw [if_pos ha]; exact h
                        · rw [if_neg ha]
                          by_cases hcu : (get_current_event (leave_event db p3 u.id) u.id == some p3) = true
                          · rw [if_pos hcu]; exact US_setcur _ _ _ (US_leave _ _ _ h)
                          · rw [if_neg hcu]; exact US_leave _ _ _ h
                      · exact h
                    · rw [if_neg h10]
                      rcases hce : get_current_event db u.id with _ | ce
                      · exact h
                      · dsimp only
                        by_cases hex : ¬ event_exists db ce = true
                        · rw [if_pos hex]; exact h
                        · rw [if_neg hex]
                          by_cases had : (is_admin db ce u.id && py_startsWith data "admin:") = true
                          · rw [if_pos had]; exact handle_admin_US _ _ _ _ _ h
                          · rw [if_neg had]
                            by_cases hpd : (!is_admin db ce u.id && py_startsWith data "p:") = true
                            · rw [if_pos hpd]; exact handle_part_US _ _ _ _ h
                            · rw [if_neg hpd]; exact h

theorem cmd_start_US (u : UserInfo) (arg : Option String) (db : DB)
    (h : UserStateUnique db) : UserStateUnique (cmd_start u arg db).1 := by
  unfold cmd_start
  rcases arg with _ | eidRaw
  · exact US_clear _ _ h
  · dsimp only
    by_cases he : ¬ event_exists db (py_strip eidRaw) = true
    · rw [if_pos he]; exact h
    · rw [if_neg he]
      by_cases hr : (!is_admin (set_current_event (ensure_participant_stub db (py_strip eidRaw) u.id
          u.username u.first_name u.last_name) u.id (some (py_strip eidRaw))) (py_strip eidRaw) u.id &&
          !has_full_registration (set_current_event (ensure_participant_stub db (py_strip eidRaw) u.id
          u.username u.first_name u.last_name) u.id (some (py_strip eidRaw))) (py_strip eidRaw) u.id) = true
      · rw [if_pos hr]; exact US_set _ _ _ _ (US_setcur _ _ _ (US_ensure _ _ _ _ _ _ h))
      · rw [if_neg hr]; exact US_menu _ _ _ (US_setcur _ _ _ (US_ensure _ _ _ _ _ _ h))

theorem job_US (alert_id : Nat) (event_id : String) (db : DB)
    (h : UserStateUnique db) : UserStateUnique (job_send_alert alert_id event_id db).1 := by
  unfold job_send_alert
  rcases hev : get_event db event_id with _ | ev
  · exact US_marksent _ _ h
  · dsimp only
    by_cases hr : (List.filter (fun pid => pid != 0 && pid != ev.admin_id)
        (get_participant_telegram_ids db event_id)).isEmpty = true
    · rw [if_pos hr]; exact US_marksent _ _ h
    · rw [if_neg hr]; exact US_marksent _ _ h

/-- Every operation of the system preserves the at-most-one-state-row
invariant. -/
theorem applyOp_US (op : Op) (db : DB) (h : UserStateUnique db) :
    UserStateUnique (applyOp op db).1 := by
  cases op with
  | text u raw freshId ok => exact on_text_US u raw freshId ok db h
  | contact u owner phoneRaw => exact on_contact_US u owner phoneRaw db h
  | location u lat lon => exact on_location_US u lat lon db h
  | photo u fileId caption ok => exact on_photo_US u fileId caption ok db h
  | callback u data now => exact on_callback_US u data now db h
  | start u arg => exact cmd_start_US u arg db h
  | myEvents u => exact US_clear _ _ h
  | helpCmd => exact h
  | cancelCmd u => exact US_clear _ _ h
  | postInitOp now => exact post_init_pred now db UserStateUnique (fun d i hd => US_marksent d i hd) h
  | jobAlert alert_id event_id => exact job_US alert_id event_id db h

/-! ## Claim C2 -/

/-- Claim C2: for every user identity there is at most one UserSession
state row at any time.  Every flow start goes through
Database.set_user_state, whose upsert (keyed on the telegram_id primary
key) replaces the previous state rather than adding to it: after the
write the user reads back exactly the new state, the table holds exactly
one row for that user, and the at-most-one-row-per-user invariant is
preserved by every operation of the system. -/
theorem claim_C2 :
    (∀ (db : DB) (uid : Int) (st : String) (pl : Option Payload), UserStateUnique db →
       UserStateUnique (set_user_state db uid (some st) pl) ∧
       get_user_state (set_user_state db uid (some st) pl) uid =
         (some st, pl.getD Payload.empty) ∧
       ((set_user_state db uid (some st) pl).user_state.filter
           (fun r => r.telegram_id == uid)).length = 1) ∧
    (∀ (op : Op) (db : DB), UserStateUnique db → UserStateUnique (applyOp op db).1) := by
  constructor
  · intro db uid st pl h
    exact ⟨US_set db uid st pl h, get_user_state_set db uid st pl,
      set_user_state_count db uid st pl h⟩
  · intro op db h
    exact applyOp_US op db h

/-- Witness for claim C2 at a concrete database and operation. -/
theorem claim_C2_witness :
    UserStateUnique dbE ∧
    (UserStateUnique (set_user_state dbE 2 (some "reg_phone") none) ∧
      get_user_state (set_user_state dbE 2 (some "reg_phone") none) 2 =
        (some "reg_phone", Payload.empty) ∧
      ((set_user_state dbE 2 (some "reg_phone") none).user_state.filter
          (fun r => r.telegram_id == 2)).length = 1) ∧
    UserStateUnique (applyOp (Op.myEvents { id := 2 }) dbE).1 := by
  refine ⟨by unfold UserStateUnique; decide, ?_, ?_⟩
  · have h := claim_C2.1 dbE 2 "reg_phone" none (by unfold UserStateUnique; decide)
    exact ⟨h.1, h.2.1, h.2.2⟩
  · exact claim_C2.2 (Op.myEvents { id := 2 }) dbE (by unfold UserStateUnique; decide)

/-! ## Claim C9 -/

/-- Claim C9: opening the events hub through the my_events command or the
hub:admin / hub:joined callback tokens always clears the persisted FSM
state back to None (an implicit cancel of any in-progress flow), for every
starting database. -/
theorem claim_C9 :
    ∀ (u : UserInfo) (db : DB) (now : Int),
      get_user_state (cmd_my_events u db).1 u.id = (none, Payload.empty) ∧
      get_user_state (on_callback u "hub:admin" now db).1 u.id = (none, Payload.empty) ∧
      get_user_state (on_callback u "hub:joined" now db).1 u.id = (none, Payload.empty) := by
  intro u db now
  refine ⟨get_user_state_clear db u.id, ?_, ?_⟩
  · have e : on_callback u "hub:admin" now db =
        (clear_user_state db u.id, [Effect.reply "events_you_organize"]) := rfl
    rw [e]
    exact get_user_state_clear db u.id
  · have e : on_callback u "hub:joined" now db =
        (clear_user_state db u.id, [Effect.reply "events_you_joined"]) := rfl
    rw [e]
    exact get_user_state_clear db u.id

/-! ## Claim C7 -/

/-- Reduction of on_text in the reg_phone state: any text that is not the
explicit-cancel keyword only re-prompts and returns the database
untouched. -/
theorem on_text_reg_phone_eq (u : UserInfo) (raw freshId : String) (ok : Int → Bool)
    (db : DB) (hst : (get_user_state db u.id).1 = some "reg_phone")
    (hc : is_cancel_text (py_strip raw) = false) :
    on_text u raw freshId ok db = (db, [Effect.reply "reg_phone_reject"]) := by
  unfold on_text
  dsimp only
  rw [if_neg (by simp [hc]), hst]
  rfl

/-- Claim C7: while a user is in the reg_phone state, every text input
other than the explicit-cancel keyword (the one input the FSM accepts in
every state, handled before state dispatch) is answered with the
reg_phone_reject re-prompt and leaves the whole database, hence the
persisted state and payload, byte-identical; this extends to any sequence
of such inputs; and only a contact that passes the own-contact check and
phone normalization moves the state forward, to reg_company, while any
failing contact input leaves the database unchanged. -/
theorem claim_C7 :
    (∀ (u : UserInfo) (raw freshId : String) (ok : Int → Bool) (db : DB),
       (get_user_state db u.id).1 = some "reg_phone" →
       is_cancel_text (py_strip raw) = false →
       on_text u raw freshId ok db = (db, [Effect.reply "reg_phone_reject"])) ∧
    (∀ (u : UserInfo) (freshId : String) (ok : Int → Bool) (ts : List String) (db : DB),
       (get_user_state db u.id).1 = some "reg_phone" →
       (∀ t ∈ ts, is_cancel_text (py_strip t) = false) →
       ts.foldl (fun d t => (on_text u t freshId ok d).1) db = db) ∧
    (∀ (u : UserInfo) (owner : Option Int) (phoneRaw : String) (db : DB) (pl : Payload)
       (ph : String),
       get_user_state db u.id = (some "reg_phone", pl) →
       (match owner with | some o => o != 0 && o != u.id | none => false) = false →
       norm_phone (some phoneRaw) = some ph →
       get_user_state (on_contact u owner phoneRaw db).1 u.id =
         (some "reg_company", { pl with phone_number := some ph })) ∧
    (∀ (u : UserInfo) (owner : Option Int) (phoneRaw : String) (db : DB),
       ((get_user_state db u.id).1 ≠ some "reg_phone" ∨
        (match owner with | some o => o != 0 && o != u.id | none => false) = true ∨
        norm_phone (some phoneRaw) = none) →
       (on_contact u owner phoneRaw db).1 = db) := by
  refine ⟨?_, ?_, ?_, ?_⟩
  · intro u raw freshId ok db hst hc
    exact on_text_reg_phone_eq u raw freshId ok db hst hc
  · intro u freshId ok ts
    induction ts with
    | nil => intro db hst hall; rfl
    | cons t ts ih =>
        intro db hst hall
        rw [List.foldl_cons]
        have e1 : (on_text u t freshId ok db).1 = db := by
          rw [on_text_reg_phone_eq u t freshId ok db hst (hall t (List.mem_cons_self t ts))]
        rw [e1]
        exact ih db hst (fun t' ht' => hall t' (List.mem_cons_of_mem t ht'))
  · intro u owner phoneRaw db pl ph hsp howner hph
    unfold on_contact
    dsimp only
    rw [hsp]
    try dsimp only
    rw [if_neg (by decide), if_neg (by simp [howner]), hph]
    simpa using get_user_state_set db u.id "reg_company"
      (some { pl with phone_number := some ph })
  · intro u owner phoneRaw db hd
    unfold on_contact
    dsimp only
    by_cases h1 : ((get_user_state db u.id).1 != some "reg_phone") = true
    · rw [if_pos h1]
    · rw [if_neg h1]
      have hst : (get_user_state db u.id).1 = some "reg_phone" := by
        have := Bool.not_eq_true _ |>.mp h1
        simpa using this
      rcases hd with hd | hd | hd
      · exact absurd hst hd
      · rw [if_pos hd]
      · by_cases howner :
            (match owner with | some o => o != 0 && o != u.id | none => false) = true
        · rw [if_pos howner]
        · rw [if_neg howner, hd]

/-- Witness for claim C7 at a concrete database: user 2 is parked in
reg_phone for E1; the text hello only re-prompts, and sharing their own
contact moves them to reg_company with the normalized phone. -/
theorem claim_C7_witness :
    (get_user_state dbC7 2).1 = some "reg_phone" ∧
    on_text { id := 2 } "hello" "F" (fun _ => true) dbC7 =
      (dbC7, [Effect.reply "reg_phone_reject"]) ∧
    get_user_state (on_contact { id := 2 } (some 2) "+49 170 000" dbC7).1 2 =
      (some "reg_company",
       { event_id := some "E1", full_name := some "Ann Example",
         phone_number := some "+49170000" }) := by
  refine ⟨by decide, ?_, ?_⟩
  · exact claim_C7.1 { id := 2 } "hello" "F" (fun _ => true) dbC7 (by decide) (by decide)
  · have h := claim_C7.2.2.1 { id := 2 } (some 2) "+49 170 000" dbC7
      { event_id := some "E1", full_name := some "Ann Example" } "+49170000"
      (by decide) (by decide) (by decide)
    simpa using h

/-! ## Claim C1 -/

/-- Contents are untouched by a state-row upsert. -/
theorem contents_setus (db : DB) (uid : Int) (st : String) (pl : Option Payload) :
    (set_user_state db uid (some st) pl).contents = db.contents := by
  unfold set_user_state
  dsimp only
  split <;> rfl

/-- Contents are untouched by a current-event write. -/
theorem contents_setcur (db : DB) (uid : Int) (e : Option String) :
    (set_current_event db uid e).contents = db.contents := by
  unfold set_current_event
  repeat' split
  all_goals rfl

/-- Contents are untouched by rendering the event menu. -/
theorem contents_menu (uid : Int) (e : Option String) (db : DB) :
    (show_event_menu uid e db).1.contents = db.contents := by
  unfold show_event_menu
  repeat' split
  all_goals first
    | rfl
    | exact contents_setcur _ _ _

/-- Dispatch of on_text to the admin_edit_agenda branch. -/
theorem on_text_eq_agenda (u : UserInfo) (raw freshId : String) (ok : Int → Bool) (db : DB)
    (pl : Payload) (hst : get_user_state db u.id = (some "admin_edit_agenda", pl))
    (hc : is_cancel_text (py_strip raw) = false) :
    on_text u raw freshId ok db = text_admin_edit_agenda u.id (py_strip raw)
      (pyOr pl.event_id (get_current_event db u.id)) db := by
  unfold on_text
  dsimp only
  rw [if_neg (by simp [hc]), hst]
  rfl

/-- Dispatch of on_text to the admin_set_time branch. -/
theorem on_text_eq_time (u : UserInfo) (raw freshId : String) (ok : Int → Bool) (db : DB)
    (pl : Payload) (hst : get_user_state db u.id = (some "admin_set_time", pl))
    (hc : is_cancel_text (py_strip raw) = false) :
    on_text u raw freshId ok db = text_admin_set_time u.id (py_strip raw)
      (pyOr pl.event_id (get_current_event db u.id)) db := by
  unfold on_text
  dsimp only
  rw [if_neg (by simp [hc]), hst]
  rfl

/-- Dispatch of on_text to the admin_set_location branch. -/
theorem on_text_eq_location (u : UserInfo) (raw freshId : String) (ok : Int → Bool)
    (db : DB) (pl : Payload)
    (hst : get_user_state db u.id = (some "admin_set_location", pl))
    (hc : is_cancel_text (py_strip raw) = false) :
    on_text u raw freshId ok db = text_admin_set_location u.id (py_strip raw)
      (pyOr pl.event_id (get_current_event db u.id)) db := by
  unfold on_text
  dsimp only
  rw [if_neg (by simp [hc]), hst]
  rfl

/-- Dispatch of on_text to the admin_set_wifi branch. -/
theorem on_text_eq_wifi (u : UserInfo) (raw freshId : String) (ok : Int → Bool) (db : DB)
    (pl : Payload) (hst : get_user_state db u.id = (some "admin_set_wifi", pl))
    (hc : is_cancel_text (py_strip raw) = false) :
    on_text u raw freshId ok db = text_admin_set_wifi u.id (py_strip raw)
      (pyOr pl.event_id (get_current_event db u.id)) db := by
  unfold on_text
  dsimp only
  rw [if_neg (by simp [hc]), hst]
  rfl

/-- Dispatch of on_text to the admin_set_org branch. -/
theorem on_text_eq_org (u : UserInfo) (raw freshId : String) (ok : Int → Bool) (db : DB)
    (pl : Payload) (hst : get_user_state db u.id = (some "admin_set_org", pl))
    (hc : is_cancel_text (py_strip raw) = false) :
    on_text u raw freshId ok db = text_admin_set_org u.id (py_strip raw)
      (pyOr pl.event_id (get_current_event db u.id)) db := by
  unfold on_text
  dsimp only
  rw [if_neg (by simp [hc]), hst]
  rfl

/-- Counterexample to claim C1 as stated: user 2 is not the organizer of
E1, holds the admin_set_location state whose payload names E1, and a plain
text input writes event_location anyway - no organizer re-check happens in
that branch. -/
theorem claim_C1_counterexample :
    is_admin dbC1 "E1" 2 = false ∧
    (get_user_state dbC1 2).1 = some "admin_set_location" ∧
    (get_event_content (on_text { id := 2 } "Room 5" "F" (fun _ => true) dbC1).1 "E1").map
        (fun c => c.event_location) = some (some "Room 5") := by
  refine ⟨by decide, by decide, by decide⟩

/-- Claim C1 (amended): among the five admin text branches, only
admin_edit_agenda re-checks organizer authorization (against the payload
event id with a current_event fallback) before writing, and a failed
check writes nothing to EventContent; the admin_set_time,
admin_set_location, admin_set_wifi and admin_set_org branches perform
their writes for every caller whose input passes the field validator,
with no organizer re-check - their conclusions below hold for arbitrary
databases, including ones where the caller is not the organizer. -/
theorem claim_C1 :
    (∀ (u : UserInfo) (raw freshId : String) (ok : Int → Bool) (db : DB) (pl : Payload),
       get_user_state db u.id = (some "admin_edit_agenda", pl) →
       is_cancel_text (py_strip raw) = false →
       (!(truthyS (pyOr pl.event_id (get_current_event db u.id))) ||
        !(is_admin db ((pyOr pl.event_id (get_current_event db u.id)).getD "") u.id)) = true →
       (on_text u raw freshId ok db).1.contents = db.contents) ∧
    (∀ (u : UserInfo) (raw freshId : String) (ok : Int → Bool) (db : DB) (pl : Payload) (t : Int),
       get_user_state db u.id = (some "admin_set_time", pl) →
       is_cancel_text (py_strip raw) = false →
       parse_event_time (py_strip raw) = some t →
       (on_text u raw freshId ok db).1.contents =
         (set_time db (pyOr pl.event_id (get_current_event db u.id)) (some t)).contents) ∧
    (∀ (u : UserInfo) (raw freshId : String) (ok : Int → Bool) (db : DB) (pl : Payload),
       get_user_state db u.id = (some "admin_set_location", pl) →
       is_cancel_text (py_strip raw) = false →
       (py_lower (py_strip raw) == "clear") = false →
       (on_text u raw freshId ok db).1.contents =
         (set_location db (pyOr pl.event_id (get_current_event db u.id))
           (some (py_strip raw))).contents) ∧
    (∀ (u : UserInfo) (raw freshId : String) (ok : Int → Bool) (db : DB) (pl : Payload),
       get_user_state db u.id = (some "admin_set_wifi", pl) →
       is_cancel_text (py_strip raw) = false →
       truthyS (parse_wifi (py_strip raw)).1 = true →
       truthyS (parse_wifi (py_strip raw)).2 = true →
       ¬ ((parse_wifi (py_strip raw)).2.getD "").length < 8 →
       (on_text u raw freshId ok db).1.contents =
         (set_wifi db (pyOr pl.event_id (get_current_event db u.id))
           ((parse_wifi (py_strip raw)).1.getD "")
           ((parse_wifi (py_strip raw)).2.getD "")).contents) ∧
    (∀ (u : UserInfo) (raw freshId : String) (ok : Int → Bool) (db : DB) (pl : Payload),
       get_user_state db u.id = (some "admin_set_org", pl) →
       is_cancel_text (py_strip raw) = false →
       ((parse_org_fields (py_strip raw)).1 == "") = false →
       (on_text u raw freshId ok db).1.contents =
         (set_organizer_info db (pyOr pl.event_id (get_current_event db u.id))
           (parse_org_fields (py_strip raw)).1
           (parse_org_fields (py_strip raw)).2.1
           (parse_org_fields (py_strip raw)).2.2.1
           (parse_org_fields (py_strip raw)).2.2.2).contents) := by
  refine ⟨?_, ?_, ?_, ?_, ?_⟩
  · intro u raw freshId ok db pl hst hc hguard
    rw [on_text_eq_agenda u raw freshId ok db pl hst hc]
    unfold text_admin_edit_agenda
    rw [if_pos hguard]
    rfl
  · intro u raw freshId ok db pl t hst hc hpt
    rw [on_text_eq_time u raw freshId ok db pl hst hc]
    unfold text_admin_set_time
    rw [hpt]
    dsimp only
    rw [contents_menu]
    rfl
  · intro u raw freshId ok db pl hst hc hcl
    rw [on_text_eq_location u raw freshId ok db pl hst hc]
    unfold text_admin_set_location
    rw [if_neg (by simp [hcl])]
    dsimp only
    rw [contents_menu]
    rfl
  · intro u raw freshId ok db pl hst hc hs hp hlen
    rw [on_text_eq_wifi u raw freshId ok db pl hst hc]
    unfold text_admin_set_wifi
    dsimp only
    rw [if_neg (by simp [hs, hp]), if_neg hlen]
    dsimp only
    rw [contents_menu]
    rfl
  · intro u raw freshId ok db pl hst hc hn
    rw [on_text_eq_org u raw freshId ok db pl hst hc]
    unfold text_admin_set_org
    dsimp only
    rw [if_neg (by simp [hn])]
    dsimp only
    rw [contents_menu]
    rfl

/-- Witness for the amended claim C1 at concrete inputs: the agenda guard
fires for non-organizer user 2 and leaves contents unchanged, and the
location branch writes for the same non-organizer user. -/
theorem claim_C1_witness :
    get_user_state dbC1agenda 2 =
      (some "admin_edit_agenda", ({ event_id := some "E1" } : Payload)) ∧
    (on_text { id := 2 } "New agenda" "F" (fun _ => true) dbC1agenda).1.contents =
      dbC1agenda.contents ∧
    (on_text { id := 2 } "Room 5" "F" (fun _ => true) dbC1).1.contents =
      (set_location dbC1 (some "E1") (some "Room 5")).contents := by
  refine ⟨by decide, ?_, ?_⟩
  · exact claim_C1.1 { id := 2 } "New agenda" "F" (fun _ => true) dbC1agenda
      { event_id := some "E1" } (by decide) (by decide) (by decide)
  · have h := claim_C1.2.2.1 { id := 2 } "Room 5" "F" (fun _ => true) dbC1
      { event_id := some "E1" } (by decide) (by decide) (by decide)
    simpa using h

/-! ## Claim C6 -/

/-- Characterization of the sequential delivery loop: every recipient is
attempted exactly once in order, and the counters are the numbers of
successful and failed attempts. -/
theorem broadcast_fold_eq (ok : Int → Bool) (l : List Int) :
    broadcast_fold ok l =
      (l.countP ok, l.countP (fun pid => !ok pid), l.map Effect.deliver) := by
  have H : ∀ (l : List Int) (s0 f0 : Nat) (es0 : List Effect),
      l.foldl (fun acc pid =>
        if ok pid then (acc.1 + 1, acc.2.1, acc.2.2 ++ [Effect.deliver pid])
        else (acc.1, acc.2.1 + 1, acc.2.2 ++ [Effect.deliver pid])) (s0, f0, es0) =
      (s0 + l.countP ok, f0 + l.countP (fun pid => !ok pid), es0 ++ l.map Effect.deliver) := by
    intro l
    induction l with
    | nil => intro s0 f0 es0; simp
    | cons a t ih =>
        intro s0 f0 es0
        rw [List.foldl_cons]
        by_cases ha : ok a
        · rw [if_pos ha, ih]
          simp [List.countP_cons, ha, Nat.add_comm, Nat.add_assoc, Nat.add_left_comm]
        · rw [if_neg ha, ih]
          simp [List.countP_cons, ha, Nat.add_comm, Nat.add_assoc, Nat.add_left_comm]
  have h0 := H l 0 0 []
  unfold broadcast_fold
  simpa using h0

/-- Claim C6: send_broadcast computes its recipients as the participants
of the event minus the organizer (the extra nonzero-id guard is vacuous
for transport-issued ids); an empty recipient set renders broadcast_none
and issues no delivery call; otherwise every recipient is attempted - a
failing recipient never aborts the fan-out - and the aggregate
success/fail counts, which sum to the recipient count, are reported once
after the last attempt. -/
theorem claim_C6 :
    ∀ (db : DB) (eid : String) (ev : EventRow) (okf : Int → Bool),
      get_event db eid = some ev →
      (∀ pid ∈ get_participant_telegram_ids db eid, pid ≠ 0) →
      ((get_participant_telegram_ids db eid).filter
          (fun pid => pid != 0 && pid != ev.admin_id) =
        (get_participant_telegram_ids db eid).filter (fun pid => pid != ev.admin_id)) ∧
      (((get_participant_telegram_ids db eid).filter
          (fun pid => pid != 0 && pid != ev.admin_id)) = [] →
        send_broadcast db (some eid) okf = [Effect.reply "broadcast_none"] ∧
        (send_broadcast db (some eid) okf).filter isDeliver = []) ∧
      (((get_participant_telegram_ids db eid).filter
          (fun pid => pid != 0 && pid != ev.admin_id)) ≠ [] →
        send_broadcast db (some eid) okf =
          Effect.reply "broadcast_sending" ::
            ((get_participant_telegram_ids db eid).filter
              (fun pid => pid != 0 && pid != ev.admin_id)).map Effect.deliver ++
            [Effect.report
              (((get_participant_telegram_ids db eid).filter
                (fun pid => pid != 0 && pid != ev.admin_id)).countP okf)
              (((get_participant_telegram_ids db eid).filter
                (fun pid => pid != 0 && pid != ev.admin_id)).countP (fun pid => !okf pid))] ∧
        (((get_participant_telegram_ids db eid).filter
            (fun pid => pid != 0 && pid != ev.admin_id)).countP okf) +
          (((get_participant_telegram_ids db eid).filter
            (fun pid => pid != 0 && pid != ev.admin_id)).countP (fun pid => !okf pid)) =
          ((get_participant_telegram_ids db eid).filter
            (fun pid => pid != 0 && pid != ev.admin_id)).length) := by
  intro db eid ev okf hev hnz
  have hevid : ev.event_id = eid := by
    have hp := List.find?_some hev
    simpa using hp
  refine ⟨?_, ?_, ?_⟩
  · refine List.filter_congr ?_
    intro pid hpid
    have : (pid != 0) = true := by simpa using hnz pid hpid
    simp [this]
  · intro hemp
    have e : send_broadcast db (some eid) okf = [Effect.reply "broadcast_none"] := by
      unfold send_broadcast
      dsimp only [Option.bind]
      rw [hev]
      dsimp only
      rw [hevid]
      rw [if_pos (by simp [hemp])]
    exact ⟨e, by rw [e]; rfl⟩
  · intro hne
    have e : send_broadcast db (some eid) okf =
        Effect.reply "broadcast_sending" ::
          ((get_participant_telegram_ids db eid).filter
            (fun pid => pid != 0 && pid != ev.admin_id)).map Effect.deliver ++
          [Effect.report
            (((get_participant_telegram_ids db eid).filter
              (fun pid => pid != 0 && pid != ev.admin_id)).countP okf)
            (((get_participant_telegram_ids db eid).filter
              (fun pid => pid != 0 && pid != ev.admin_id)).countP (fun pid => !okf pid))] := by
      unfold send_broadcast
      dsimp only [Option.bind]
      rw [hev]
      dsimp only
      rw [hevid]
      rw [if_neg (by simp [List.isEmpty_iff, hne]), broadcast_fold_eq]
    refine ⟨e, ?_⟩
    rw [List.countP_eq_length_filter, List.countP_eq_length_filter]
    rw [← List.length_append]
    rw [List.filter_append_perm _ _ |>.length_eq]

/-- Witness for claim C6: event E2 has no non-organizer participants and
broadcasting to it renders broadcast_none with zero attempts, while E1
has exactly one recipient, user 2, whose failed delivery is counted. -/
theorem claim_C6_witness :
    send_broadcast dbE (some "E2") (fun _ => true) = [Effect.reply "broadcast_none"] ∧
    send_broadcast dbE (some "E1") (fun _ => false) =
      [Effect.reply "broadcast_sending", Effect.deliver 2, Effect.report 0 1] := by
  constructor
  · exact ((claim_C6 dbE "E2" { event_id := "E2", event_name := "Offsite", admin_id := 1 }
      (fun _ => true) (by decide) (by decide)).2.1 (by decide)).1
  · have h := (claim_C6 dbE "E1" { event_id := "E1", event_name := "Launch", admin_id := 1 }
      (fun _ => false) (by decide) (by decide)).2.2 (by decide)
    exact h.1.trans (by decide)

/-! ## Claim C8 -/

/-- A token with a given prefix differs from any literal lacking that
prefix. -/
theorem data_ne_lit (data lit p : String) (hs : py_startsWith data p = true)
    (hl : py_startsWith lit p = false) : (data == lit) = false := by
  by_cases h : data = lit
  · subst h; rw [hs] at hl; exact absurd hl (by simp)
  · exact beq_eq_false_iff_ne.mpr h

/-- Dispatch of the admin router to the alert_set branch. -/
theorem handle_admin_eq_alert_set (u : UserInfo) (event_id data : String) (now : Int)
    (db : DB) (ev : EventRow) (hev : get_event db event_id = some ev)
    (hs : py_startsWith data "admin:alert_set:" = true) :
    handle_admin_action u event_id data now db =
      admin_alert_set u.id event_id data now db := by
  unfold handle_admin_action
  rw [hev]
  dsimp only
  rw [if_neg (by simp [data_ne_lit data "admin:manage" "admin:alert_set:" hs (by decide)])]
  rw [if_neg (by simp [data_ne_lit data "admin:view" "admin:alert_set:" hs (by decide)])]
  rw [if_neg (by simp [data_ne_lit data "admin:agenda" "admin:alert_set:" hs (by decide)])]
  rw [if_neg (by simp [data_ne_lit data "admin:wifi" "admin:alert_set:" hs (by decide)])]
  rw [if_neg (by simp [data_ne_lit data "admin:org" "admin:alert_set:" hs (by decide)])]
  rw [if_neg (by simp [data_ne_lit data "admin:time" "admin:alert_set:" hs (by decide)])]
  rw [if_neg (by simp [data_ne_lit data "admin:location" "admin:alert_set:" hs (by decide)])]
  rw [if_neg (by simp [data_ne_lit data "admin:map_pin" "admin:alert_set:" hs (by decide)])]
  rw [if_neg (by simp [data_ne_lit data "admin:agenda_view" "admin:alert_set:" hs (by decide)])]
  rw [if_neg (by simp [data_ne_lit data "admin:wifi_view" "admin:alert_set:" hs (by decide)])]
  rw [if_neg (by simp [data_ne_lit data "admin:org_view" "admin:alert_set:" hs (by decide)])]
  rw [if_neg (by simp [data_ne_lit data "admin:time_view" "admin:alert_set:" hs (by decide)])]
  rw [if_neg (by simp [data_ne_lit data "admin:location_view" "admin:alert_set:" hs (by decide)])]
  rw [if_neg (by simp [data_ne_lit data "admin:map_pin_view" "admin:alert_set:" hs (by decide)])]
  rw [if_neg (by simp [data_ne_lit data "admin:agenda_edit" "admin:alert_set:" hs (by decide)])]
  rw [if_neg (by simp [data_ne_lit data "admin:wifi_edit" "admin:alert_set:" hs (by decide)])]
  rw [if_neg (by simp [data_ne_lit data "admin:org_edit" "admin:alert_set:" hs (by decide)])]
  rw [if_neg (by simp [data_ne_lit data "admin:time_edit" "admin:alert_set:" hs (by decide)])]
  rw [if_neg (by simp [data_ne_lit data "admin:location_edit" "admin:alert_set:" hs (by decide)])]
  rw [if_neg (by simp [data_ne_lit data "admin:map_pin_edit" "admin:alert_set:" hs (by decide)])]
  rw [if_neg (by simp [data_ne_lit data "admin:members" "admin:alert_set:" hs (by decide)])]
  rw [if_neg (by simp [data_ne_lit data "admin:notify" "admin:alert_set:" hs (by decide)])]
  rw [if_neg (by simp [data_ne_lit data "admin:alert" "admin:alert_set:" hs (by decide)])]
  rw [if_pos hs]

/-- Claim C8: scheduling an alert rejects any computed fire-at that is not
strictly in the future - the rejection is reported and no alert row is
persisted (the alerts table is unchanged on that path, as it is when the
event time is unset) - and an alert row is persisted exactly when the
fire-at is strictly later than now, as a scheduled row carrying that
fire-at. -/
theorem claim_C8 :
    ∀ (u : UserInfo) (event_id data : String) (now : Int) (db : DB) (minutes : Int)
      (ev : EventRow) (c : ContentRow),
      get_event db event_id = some ev →
      get_event_content db event_id = some c →
      py_startsWith data "admin:alert_set:" = true →
      parseInt? ((py_split ':' data).getLastD "") = some minutes →
      ((c.event_time = none →
          (handle_admin_action u event_id data now db).1.alerts = db.alerts ∧
          (handle_admin_action u event_id data now db).2 =
            [Effect.reply "event_time_not_set"]) ∧
       (∀ t : Int, c.event_time = some t → t - minutes ≤ now →
          (handle_admin_action u event_id data now db).1.alerts = db.alerts ∧
          (handle_admin_action u event_id data now db).2 = [Effect.reply "reminder_past"]) ∧
       (∀ t : Int, c.event_time = some t → now < t - minutes →
          (handle_admin_action u event_id data now db).1.alerts =
            db.alerts ++ [{ id := db.next_alert_id, event_id := event_id,
                            run_at := t - minutes, minutes_before := minutes,
                            created_by := u.id, status := "scheduled" }] ∧
          (handle_admin_action u event_id data now db).2 =
            [Effect.armJob db.next_alert_id (t - minutes),
             Effect.reply "reminder_scheduled"])) := by
  intro u event_id data now db minutes ev c hev hgc hs hpi
  have hred := handle_admin_eq_alert_set u event_id data now db ev hev hs
  refine ⟨?_, ?_, ?_⟩
  · intro het
    rw [hred]
    unfold admin_alert_set
    rw [hpi]
    dsimp only
    rw [hgc]
    dsimp only
    rw [het]
    exact ⟨rfl, rfl⟩
  · intro t het hle
    rw [hred]
    unfold admin_alert_set
    rw [hpi]
    dsimp only
    rw [hgc]
    dsimp only
    rw [het]
    dsimp only
    rw [if_pos hle]
    exact ⟨rfl, rfl⟩
  · intro t het hlt
    rw [hred]
    unfold admin_alert_set
    rw [hpi]
    dsimp only
    rw [hgc]
    dsimp only
    rw [het]
    dsimp only
    rw [if_neg (by exact not_le.mpr hlt)]
    exact ⟨rfl, rfl⟩

/-- Witness for claim C8 at concrete inputs against dbC8 (event time 1000
minutes): a 30-minute lead at now=990 is in the past and persists nothing;
at now=900 it persists one scheduled row firing at 970. -/
theorem claim_C8_witness :
    (handle_admin_action { id := 1 } "E1" "admin:alert_set:30" 990 dbC8).1.alerts = [] ∧
    (handle_admin_action { id := 1 } "E1" "admin:alert_set:30" 990 dbC8).2 =
      [Effect.reply "reminder_past"] ∧
    (handle_admin_action { id := 1 } "E1" "admin:alert_set:30" 900 dbC8).1.alerts =
      [{ id := 1, event_id := "E1", run_at := 970, minutes_before := 30,
         created_by := 1, status := "scheduled" }] := by
  have h1 := (claim_C8 { id := 1 } "E1" "admin:alert_set:30" 990 dbC8 30
      { event_id := "E1", event_name := "Launch", admin_id := 1 }
      { event_id := "E1", event_time := some 1000 }
      (by decide) (by decide) (by decide) (by decide)).2.1 1000 (by decide) (by decide)
  have h2 := (claim_C8 { id := 1 } "E1" "admin:alert_set:30" 900 dbC8 30
      { event_id := "E1", event_name := "Launch", admin_id := 1 }
      { event_id := "E1", event_time := some 1000 }
      (by decide) (by decide) (by decide) (by decide)).2.2 1000 (by decide) (by decide)
  refine ⟨?_, h1.2, ?_⟩
  · rw [h1.1]; rfl
  · rw [h2.1]; rfl

/-! ## Claim C10 -/

/-- At most one occurrence of a key in a key-distinct list. -/
theorem countP_key_le_one {α β : Type} [BEq β] [LawfulBEq β] (k : α → β) (b : β) (l : List α)
    (h : (l.map k).Nodup) : l.countP (fun r => k r == b) ≤ 1 := by
  by_cases hex : ∃ x ∈ l, k x = b
  · obtain ⟨x, hx, hkx⟩ := hex
    rw [countP_key_of_nodup k b l h x hx hkx]
  · have hz : l.countP (fun r => k r == b) = 0 := by
      rw [List.countP_eq_zero]
      intro a ha hc
      exact hex ⟨a, ha, by simpa using hc⟩
    omega

/-- ensure_participant_stub preserves the one-row-per-(event, user)
uniqueness. -/
theorem PU_ensure (db : DB) (eid : String) (uid : Int) (un fn ln : Option String)
    (h : ParticipantsUnique db) :
    ParticipantsUnique (ensure_participant_stub db eid uid un fn ln) := by
  unfold ParticipantsUnique at *
  unfold ensure_participant_stub
  by_cases hne : ¬ event_exists db eid = true
  · rw [if_pos hne]; exact h
  · rw [if_neg hne]
    try dsimp only
    by_cases hany :
        db.participants.any (fun p => p.event_id == eid && p.telegram_id == uid) = true
    · rw [if_pos hany]
      try dsimp only
      have hmk := map_key_update
        (fun p : ParticipantRow => p.event_id == eid && p.telegram_id == uid)
        (fun p : ParticipantRow => (p.event_id, p.telegram_id))
        (fun p => { p with username := coalesce (norm_username un) p.username,
                           first_name := coalesce fn p.first_name,
                           last_name := coalesce ln p.last_name })
        db.participants (fun r _ => rfl)
      rw [hmk]
      exact h
    · rw [if_neg hany]
      try dsimp only
      have hmk := map_key_update
        (fun p : ParticipantRow => p.event_id == eid && p.telegram_id == uid)
        (fun p : ParticipantRow => (p.event_id, p.telegram_id))
        (fun p => { p with username := coalesce (norm_username un) p.username,
                           first_name := coalesce fn p.first_name,
                           last_name := coalesce ln p.last_name })
        (db.participants ++
          [({ event_id := eid, telegram_id := uid, username := norm_username un,
              first_name := fn, last_name := ln } : ParticipantRow)])
        (fun r _ => rfl)
      rw [hmk]
      refine nodup_map_append _ _ _ h ?_
      intro r hr hcon
      have hfalse := List.any_eq_false.mp (Bool.eq_false_iff.mpr hany) r hr
      have : r.event_id = eid ∧ r.telegram_id = uid := by
        have := congrArg Prod.fst hcon
        have h2 := congrArg Prod.snd hcon
        exact ⟨this, h2⟩
      simp [this.1, this.2] at hfalse

/-- Claim C10: ensure_participant_stub is idempotent in row count - under
the UNIQUE(event_id, telegram_id) constraint at most one participant row
per (event, user) pair ever exists, however often it is called - and
monotone in identity data: a call whose username / first_name / last_name
argument is null leaves the stored value of that column unchanged, and it
never touches the three registration columns. -/
theorem claim_C10 :
    ∀ (db : DB) (eid : String) (uid : Int) (un fn ln : Option String),
      ParticipantsUnique db →
      (ParticipantsUnique (ensure_participant_stub db eid uid un fn ln) ∧
       ((ensure_participant_stub db eid uid un fn ln).participants.filter
           (fun p => p.event_id == eid && p.telegram_id == uid)).length ≤ 1 ∧
       (∀ p0, db.participants.find?
             (fun p => p.event_id == eid && p.telegram_id == uid) = some p0 →
          ∃ p1, (ensure_participant_stub db eid uid un fn ln).participants.find?
              (fun p => p.event_id == eid && p.telegram_id == uid) = some p1 ∧
            (un = none → p1.username = p0.username) ∧
            (fn = none → p1.first_name = p0.first_name) ∧
            (ln = none → p1.last_name = p0.last_name) ∧
            p1.full_name = p0.full_name ∧ p1.phone_number = p0.phone_number ∧
            p1.company_name = p0.company_name)) := by
  intro db eid uid un fn ln h
  refine ⟨PU_ensure db eid uid un fn ln h, ?_, ?_⟩
  · have hpu := PU_ensure db eid uid un fn ln h
    unfold ParticipantsUnique at hpu
    rw [← List.countP_eq_length_filter]
    have hc : ((ensure_participant_stub db eid uid un fn ln).participants.countP
          (fun p => p.event_id == eid && p.telegram_id == uid)) =
        ((ensure_participant_stub db eid uid un fn ln).participants.countP
          (fun p => (p.event_id, p.telegram_id) == (eid, uid))) := by
      refine List.countP_congr ?_
      intro p _
      rfl
    rw [hc]
    exact countP_key_le_one (fun p : ParticipantRow => (p.event_id, p.telegram_id)) (eid, uid) _ hpu
  · intro p0 hp0
    have hany : db.participants.any
        (fun p => p.event_id == eid && p.telegram_id == uid) = true := by
      rw [List.any_eq_true]
      have hmem := List.mem_of_find?_eq_some hp0
      have hpred := List.find?_some hp0
      exact ⟨p0, hmem, hpred⟩
    unfold ensure_participant_stub
    by_cases hne : ¬ event_exists db eid = true
    · rw [if_pos hne]
      exact ⟨p0, hp0, fun _ => rfl, fun _ => rfl, fun _ => rfl, rfl, rfl, rfl⟩
    · rw [if_neg hne]
      try dsimp only
      rw [if_pos hany]
      try dsimp only
      have hmk := find?_map_update
        (fun p : ParticipantRow => p.event_id == eid && p.telegram_id == uid)
        (fun p => { p with username := coalesce (norm_username un) p.username,
                           first_name := coalesce fn p.first_name,
                           last_name := coalesce ln p.last_name })
        db.participants (fun r hr => hr)
      rw [hmk, hp0]
      refine ⟨_, rfl, ?_, ?_, ?_, rfl, rfl, rfl⟩
      · intro hun; subst hun; rfl
      · intro hfn; subst hfn; rfl
      · intro hln; subst hln; rfl

/-- Witness for claim C10: re-adding user 2 to E1 with null identity
arguments keeps the single existing row and its stored values. -/
theorem claim_C10_witness :
    ParticipantsUnique (ensure_participant_stub dbE "E1" 2 none none none) ∧
    ((ensure_participant_stub dbE "E1" 2 none none none).participants.filter
        (fun p => p.event_id == "E1" && p.telegram_id == 2)).length ≤ 1 := by
  have h := claim_C10 dbE "E1" 2 none none none (by unfold ParticipantsUnique; decide)
  exact ⟨h.1, h.2.1⟩

/-! ## Alert recovery lemmas -/

/-- The alerts table of a mark_alert_sent result. -/
theorem mark_alert_sent_alerts (db : DB) (i : Nat) :
    (mark_alert_sent db i).alerts =
      db.alerts.map (fun a => if a.id == i then { a with status := "sent" } else a) := rfl

/-- find? of a member key over a distinct-key list returns that member. -/
theorem find?_key_of_nodup {α β : Type} [BEq β] [LawfulBEq β] (k : α → β) (l : List α)
    (h : (l.map k).Nodup) (a : α) (ha : a ∈ l) :
    l.find? (fun x => k x == k a) = some a := by
  induction l with
  | nil => cases ha
  | cons x t ih =>
      rw [List.map_cons, List.nodup_cons] at h
      rcases List.mem_cons.mp ha with rfl | hat
      · rw [List.find?_cons_of_pos _ (by simp)]
      · have hne : ¬ k x = k a := by
          intro hc
          exact h.1 (by rw [hc]; exact List.mem_map.mpr ⟨a, hat, rfl⟩)
        rw [List.find?_cons_of_neg _ (by simpa using hne)]
        exact ih h.2 hat

/-- Filtering by a key that occurs nowhere in the list gives nil. -/
theorem filter_key_nil {α β : Type} [BEq β] [LawfulBEq β] (k : α → β) (b : β) (l : List α)
    (h : ∀ r ∈ l, ¬ k r = b) : l.filter (fun r => k r == b) = [] := by
  induction l with
  | nil => rfl
  | cons x t ih =>
      rw [List.filter_cons, if_neg (by simpa using h x (List.mem_cons_self x t))]
      exact ih (fun r hr => h r (List.mem_cons_of_mem x hr))

/-- Under distinct keys, filtering a selection by the key of a member
keeps exactly that member, if it passes the selection. -/
theorem filter_key_filter_of_nodup {α β : Type} [BEq β] [LawfulBEq β] (k : α → β)
    (q : α → Bool) (l : List α) (h : (l.map k).Nodup) (a : α) (ha : a ∈ l) :
    (l.filter q).filter (fun x => k x == k a) = if q a then [a] else [] := by
  induction l with
  | nil => cases ha
  | cons x t ih =>
      rw [List.map_cons, List.nodup_cons] at h
      rcases List.mem_cons.mp ha with rfl | hat
      · have hnil : (t.filter q).filter (fun r => k r == k a) = [] := by
          refine filter_key_nil k (k a) _ ?_
          intro r hr hc
          exact h.1 (by
            rw [← hc]
            exact List.mem_map.mpr ⟨r, List.mem_of_mem_filter hr, rfl⟩)
        rw [List.filter_cons]
        by_cases hq : q a = true
        · rw [if_pos hq, List.filter_cons, if_pos (by simp), hnil, if_pos hq]
        · rw [if_neg hq, hnil, if_neg hq]
      · have hne : ¬ k x = k a := by
          intro hc
          exact h.1 (by rw [hc]; exact List.mem_map.mpr ⟨a, hat, rfl⟩)
        rw [List.filter_cons]
        by_cases hq : q x = true
        · rw [if_pos hq, List.filter_cons, if_neg (by simpa using hne), ih h.2 hat]
        · rw [if_neg hq, ih h.2 hat]

/-- Under distinct keys, whether a key occurs in a selection is exactly
the selection evaluated at the member carrying the key. -/
theorem any_key_filter_of_nodup {α β : Type} [BEq β] [LawfulBEq β] (k : α → β)
    (q : α → Bool) (l : List α) (h : (l.map k).Nodup) (a : α) (ha : a ∈ l) :
    (l.filter q).any (fun p => k a == k p) = q a := by
  induction l with
  | nil => cases ha
  | cons x t ih =>
      rw [List.map_cons, List.nodup_cons] at h
      rcases List.mem_cons.mp ha with rfl | hat
      · have hfalse : (t.filter q).any (fun p => k a == k p) = false := by
          rw [List.any_eq_false]
          intro r hr hc
          exact h.1 (by
            rw [show k a = k r from by simpa using hc]
            exact List.mem_map.mpr ⟨r, List.mem_of_mem_filter hr, rfl⟩)
        rw [List.filter_cons]
        by_cases hq : q a = true
        · rw [if_pos hq, List.any_cons, hfalse, hq]
          simp
        · rw [if_neg hq, hfalse]
          simp at hq
          rw [hq]
      · have hne : ¬ k a = k x := by
          intro hc
          exact h.1 (by rw [← hc]; exact List.mem_map.mpr ⟨a, hat, rfl⟩)
        rw [List.filter_cons]
        by_cases hq : q x = true
        · rw [if_pos hq, List.any_cons, ih h.2 hat]
          rw [show (k a == k x) = false from by simpa using hne, Bool.false_or]
        · rw [if_neg hq, ih h.2 hat]

/-- find? commutes with a pointwise update that preserves the search
predicate. -/
theorem find?_map_pres {α : Type} (p : α → Bool) (f : α → α) (l : List α)
    (hf : ∀ r, p (f r) = p r) :
    (l.map f).find? p = (l.find? p).map f := by
  induction l with
  | nil => rfl
  | cons x t ih =>
      by_cases hp : p x = true
      · rw [List.map_cons, List.find?_cons_of_pos _ (by rw [hf x]; exact hp),
            List.find?_cons_of_pos _ hp]
        rfl
      · rw [List.map_cons, List.find?_cons_of_neg _ (by rw [hf x]; exact hp),
            List.find?_cons_of_neg _ hp, ih]

/-- Two nested filters fuse into the conjunction of the predicates. -/
theorem filter_filter_and {α : Type} (p q : α → Bool) (l : List α) :
    (l.filter p).filter q = l.filter (fun a => p a && q a) := by
  induction l with
  | nil => rfl
  | cons x t ih =>
      rw [List.filter_cons, List.filter_cons]
      by_cases hp : p x = true
      · rw [if_pos hp, List.filter_cons]
        by_cases hq : q x = true
        · rw [if_pos hq, if_pos (by simp [hp, hq]), ih]
        · rw [if_neg hq, if_neg (by simp [hp, hq]), ih]
      · rw [if_neg hp, if_neg (by simp [hp]), ih]

/-- A list of timer registrations contains no delivery attempt. -/
theorem filter_isDeliver_map_arm (l : List AlertRow) :
    (l.map (fun a => Effect.armJob a.id a.run_at)).filter isDeliver = [] := by
  induction l with
  | nil => rfl
  | cons a t ih =>
      rw [List.map_cons, List.filter_cons, if_neg (by simp [isDeliver])]
      exact ih

/-- Selecting the timer registrations for one alert id commutes with
building the registration list. -/
theorem filter_armFor_map_arm (i : Nat) (l : List AlertRow) :
    (l.map (fun a => Effect.armJob a.id a.run_at)).filter (isArmFor i) =
    (l.filter (fun a => a.id == i)).map (fun a => Effect.armJob a.id a.run_at) := by
  induction l with
  | nil => rfl
  | cons a t ih =>
      rw [List.map_cons, List.filter_cons, List.filter_cons]
      by_cases h : (a.id == i) = true
      · rw [if_pos (by simpa [isArmFor] using h), if_pos h, List.map_cons, ih]
      · rw [if_neg (by simpa [isArmFor] using h), if_neg h, ih]

/-- Splitting the recovery fold into its database and effect components. -/
theorem post_init_fold (now : Int) (l : List AlertRow) (d0 : DB) (e0 : List Effect) :
    l.foldl (fun acc a =>
        if a.run_at > now then (acc.1, acc.2 ++ [Effect.armJob a.id a.run_at])
        else (mark_alert_sent acc.1 a.id, acc.2)) (d0, e0) =
    ((l.filter (fun a => decide (a.run_at ≤ now))).foldl
        (fun d a => mark_alert_sent d a.id) d0,
     e0 ++ (l.filter (fun a => decide (a.run_at > now))).map
        (fun a => Effect.armJob a.id a.run_at)) := by
  induction l generalizing d0 e0 with
  | nil => simp
  | cons a t ih =>
      rw [List.foldl_cons, List.filter_cons, List.filter_cons]
      by_cases hr : a.run_at > now
      · rw [if_pos hr, if_neg (by simp only [decide_eq_true_eq]; omega),
            if_pos (by simp only [decide_eq_true_eq]; omega), ih, List.map_cons,
            List.append_assoc]
        rfl
      · rw [if_neg hr, if_pos (by simp only [decide_eq_true_eq]; omega),
            if_neg (by simp only [decide_eq_true_eq]; omega), ih, List.foldl_cons]

/-- The alerts table after folding mark_alert_sent over a batch. -/
theorem foldl_mark_alerts (P : List AlertRow) (d0 : DB) :
    (P.foldl (fun d a => mark_alert_sent d a.id) d0).alerts =
    d0.alerts.map (fun x =>
      if P.any (fun p => x.id == p.id) then { x with status := "sent" } else x) := by
  induction P generalizing d0 with
  | nil => simp
  | cons p t ih =>
      rw [List.foldl_cons, ih, mark_alert_sent_alerts, List.map_map]
      refine List.map_congr_left ?_
      intro x _
      simp only [Function.comp_apply, List.any_cons]
      by_cases h1 : (x.id == p.id) = true
      · rw [if_pos h1]
        try dsimp only
        by_cases h2 : t.any (fun q => x.id == q.id) = true
        · rw [if_pos h2, if_pos (by simp [h1, h2])]
        · rw [if_neg h2, if_pos (by simp [h1])]
      · rw [if_neg h1]
        try dsimp only
        by_cases h2 : t.any (fun q => x.id == q.id) = true
        · rw [if_pos h2, if_pos (by simp [h1, h2])]
        · rw [if_neg h2, if_neg (by simp [h1, h2])]

/-- Running the alert job always marks the alert sent, whichever delivery
path was taken. -/
theorem job_marks_sent (i : Nat) (e : String) (d : DB) :
    (job_send_alert i e d).1 = mark_alert_sent d i := by
  unfold job_send_alert
  rcases hev : get_event d e with _ | ev
  · rfl
  · dsimp only
    by_cases hr : (List.filter (fun pid => pid != 0 && pid != ev.admin_id)
        (get_participant_telegram_ids d e)).isEmpty = true
    · rw [if_pos hr]
    · rw [if_neg hr]

/-- The full effect list of the recovery routine: one timer registration
per still-future scheduled alert, nothing else. -/
theorem post_init_effects (now : Int) (db : DB) :
    (post_init now db).2 =
      (db.alerts.filter (fun x =>
          (x.status == "scheduled") && decide (x.run_at > now))).map
        (fun a => Effect.armJob a.id a.run_at) := by
  unfold post_init
  rw [post_init_fold]
  have h1 : list_future_alerts db =
      db.alerts.filter (fun x => x.status == "scheduled") := rfl
  rw [h1, filter_filter_and, filter_filter_and, List.nil_append]

/-- The alerts table after the recovery routine. -/
theorem post_init_alerts (now : Int) (db : DB) :
    (post_init now db).1.alerts =
      db.alerts.map (fun x =>
        if (db.alerts.filter (fun y =>
              (y.status == "scheduled") && decide (y.run_at ≤ now))).any
            (fun p => x.id == p.id)
        then { x with status := "sent" } else x) := by
  unfold post_init
  rw [post_init_fold]
  have h1 : list_future_alerts db =
      db.alerts.filter (fun x => x.status == "scheduled") := rfl
  rw [h1, filter_filter_and]
  exact foldl_mark_alerts _ db

/-- Claim C4: at process start the recovery routine reads every alert with
status scheduled; it issues no delivery call at all; a scheduled alert
whose run_at is not in the future is marked sent and gets no timer; a
scheduled alert whose run_at is still in the future keeps its row
unchanged and gets exactly one timer registration, at its run_at; an
alert in any other status is left untouched and gets no timer; and the
armed job, once it runs, marks its alert sent. -/
theorem claim_C4 (now : Int) (db : DB) (h : AlertIdsUnique db) :
    (post_init now db).2.filter isDeliver = [] ∧
    (∀ a ∈ db.alerts, a.status = "scheduled" → a.run_at ≤ now →
        find_alert (post_init now db).1 a.id = some { a with status := "sent" } ∧
        (post_init now db).2.filter (isArmFor a.id) = []) ∧
    (∀ a ∈ db.alerts, a.status = "scheduled" → a.run_at > now →
        find_alert (post_init now db).1 a.id = some a ∧
        (post_init now db).2.filter (isArmFor a.id) = [Effect.armJob a.id a.run_at]) ∧
    (∀ a ∈ db.alerts, ¬ a.status = "scheduled" →
        find_alert (post_init now db).1 a.id = some a ∧
        (post_init now db).2.filter (isArmFor a.id) = []) ∧
    (∀ (i : Nat) (e : String) (d : DB), (job_send_alert i e d).1 = mark_alert_sent d i) := by
  unfold AlertIdsUnique at h
  have hfind : ∀ a ∈ db.alerts,
      find_alert (post_init now db).1 a.id =
        some (if (db.alerts.filter (fun y =>
                (y.status == "scheduled") && decide (y.run_at ≤ now))).any
              (fun p => a.id == p.id)
            then { a with status := "sent" } else a) := by
    intro a ha
    unfold find_alert
    rw [post_init_alerts]
    have hfp : ∀ r : AlertRow,
        ((if (db.alerts.filter (fun y =>
              (y.status == "scheduled") && decide (y.run_at ≤ now))).any
            (fun p => r.id == p.id)
          then { r with status := "sent" } else r).id == a.id) = (r.id == a.id) := by
      intro r
      by_cases hc : (db.alerts.filter (fun y =>
          (y.status == "scheduled") && decide (y.run_at ≤ now))).any
          (fun p => r.id == p.id) = true
      · rw [if_pos hc]
      · rw [if_neg hc]
    rw [find?_map_pres _ _ _ hfp]
    rw [find?_key_of_nodup (fun x : AlertRow => x.id) db.alerts h a ha]
    rfl
  have hany : ∀ a ∈ db.alerts,
      (db.alerts.filter (fun y =>
          (y.status == "scheduled") && decide (y.run_at ≤ now))).any
        (fun p => a.id == p.id) =
      ((a.status == "scheduled") && decide (a.run_at ≤ now)) :=
    fun a ha => any_key_filter_of_nodup (fun x : AlertRow => x.id)
      (fun y => (y.status == "scheduled") && decide (y.run_at ≤ now)) db.alerts h a ha
  have hfiltArm : ∀ a ∈ db.alerts,
      (post_init now db).2.filter (isArmFor a.id) =
        (if ((a.status == "scheduled") && decide (a.run_at > now)) = true
         then [Effect.armJob a.id a.run_at] else []) := by
    intro a ha
    rw [post_init_effects, filter_armFor_map_arm]
    rw [filter_key_filter_of_nodup (fun x : AlertRow => x.id)
      (fun y => (y.status == "scheduled") && decide (y.run_at > now)) db.alerts h a ha]
    by_cases hc : ((a.status == "scheduled") && decide (a.run_at > now)) = true
    · rw [if_pos hc, if_pos hc]
      rfl
    · rw [if_neg hc, if_neg hc]
      rfl
  refine ⟨?_, ?_, ?_, ?_, job_marks_sent⟩
  · rw [post_init_effects]
    exact filter_isDeliver_map_arm _
  · intro a ha hs hle
    refine ⟨?_, ?_⟩
    · rw [hfind a ha, hany a ha, if_pos (by simp [hs, hle])]
    · rw [hfiltArm a ha, if_neg (by simp [hs]; omega)]
  · intro a ha hs hgt
    refine ⟨?_, ?_⟩
    · rw [hfind a ha, hany a ha, if_neg (by simp [hs]; omega)]
    · rw [hfiltArm a ha, if_pos (by simp [hs]; omega)]
  · intro a ha hs
    have hsb : (a.status == "scheduled") = false := by
      by_cases hb : (a.status == "scheduled") = true
      · exact absurd (by simpa using hb) hs
      · simpa using hb
    refine ⟨?_, ?_⟩
    · rw [hfind a ha, hany a ha, if_neg (by simp [hsb])]
    · rw [hfiltArm a ha, if_neg (by simp [hsb])]

theorem claim_C4_witness :
    AlertIdsUnique dbC4 ∧
    find_alert (post_init 100 dbC4).1 1 =
      some { id := 1, event_id := "E1", run_at := 50, minutes_before := 15,
             created_by := 1, status := "sent" } ∧
    (post_init 100 dbC4).2.filter (isArmFor 1) = [] ∧
    find_alert (post_init 100 dbC4).1 2 =
      some { id := 2, event_id := "E1", run_at := 500, minutes_before := 30,
             created_by := 1, status := "scheduled" } ∧
    (post_init 100 dbC4).2.filter (isArmFor 2) = [Effect.armJob 2 500] ∧
    (post_init 100 dbC4).2.filter isDeliver = [] := by
  have hu : AlertIdsUnique dbC4 := by unfold AlertIdsUnique; decide
  have h := claim_C4 100 dbC4 hu
  have h1 := h.2.1
    { id := 1, event_id := "E1", run_at := 50, minutes_before := 15,
      created_by := 1, status := "scheduled" } (by decide) rfl (by decide)
  have h2 := h.2.2.1
    { id := 2, event_id := "E1", run_at := 500, minutes_before := 30,
      created_by := 1, status := "scheduled" } (by decide) rfl (by decide)
  exact ⟨hu, h1.1, h1.2, h2.1, h2.2, h.1⟩

/-! ## Feedback upsert lemmas -/

/-- Dispatch of on_text to the p_feedback_comment branch. -/
theorem on_text_eq_feedback_comment (u : UserInfo) (raw freshId : String) (ok : Int → Bool)
    (db : DB) (pl : Payload)
    (hst : get_user_state db u.id = (some "p_feedback_comment", pl))
    (hc : is_cancel_text (py_strip raw) = false) :
    on_text u raw freshId ok db = text_p_feedback_comment u.id (py_strip raw)
      (pyOr pl.event_id (get_current_event db u.id)) (pl.rating.getD 1) db := by
  unfold on_text
  dsimp only
  rw [if_neg (by simp [hc]), hst]
  rfl

/-- Upserting feedback over an existing row overwrites the rating and
coalesces the comment with the stored one. -/
theorem get_feedback_set_update (db : DB) (e : String) (uid r : Int) (c : Option String)
    (f0 : FeedbackRow)
    (h : db.feedback.find? (fun f => f.event_id == e && f.telegram_id == uid) = some f0) :
    get_feedback (set_feedback db (some e) uid r c) e uid =
      some (r, coalesce c f0.comment) := by
  have hany : db.feedback.any (fun f => f.event_id == e && f.telegram_id == uid) = true := by
    rw [List.any_eq_true]
    have hmem := List.mem_of_find?_eq_some h
    have hpred := List.find?_some h
    exact ⟨f0, hmem, hpred⟩
  unfold get_feedback set_feedback
  dsimp only
  rw [if_pos hany]
  try dsimp only
  rw [find?_map_update (fun f => f.event_id == e && f.telegram_id == uid)
    (fun f => { f with rating := r, comment := coalesce c f.comment }) db.feedback
    (fun x hx => hx), h]
  rfl

/-- Upserting feedback with no existing row inserts rating and comment as
given, provided the event still exists. -/
theorem get_feedback_set_insert (db : DB) (e : String) (uid r : Int) (c : Option String)
    (hnone : db.feedback.find? (fun f => f.event_id == e && f.telegram_id == uid) = none)
    (hex : event_exists db e = true) :
    get_feedback (set_feedback db (some e) uid r c) e uid = some (r, c) := by
  have hany : db.feedback.any (fun f => f.event_id == e && f.telegram_id == uid) = false := by
    rw [List.any_eq_false]
    intro x hx
    exact List.find?_eq_none.mp hnone x hx
  unfold get_feedback set_feedback
  dsimp only
  rw [if_neg (by simp [hany]), if_pos hex]
  try dsimp only
  rw [find?_append_of_none _ _ _ hnone, List.find?_cons_of_pos _ (by simp)]
  rfl

/-- The feedback table produced by an upsert over an existing row. -/
theorem set_feedback_feedback (db : DB) (e : String) (uid r : Int) (c : Option String)
    (hany : db.feedback.any (fun f => f.event_id == e && f.telegram_id == uid) = true) :
    (set_feedback db (some e) uid r c).feedback =
      db.feedback.map (fun f =>
        if f.event_id == e && f.telegram_id == uid then
          { f with rating := r, comment := coalesce c f.comment }
        else f) := by
  unfold set_feedback
  dsimp only
  rw [if_pos hany]

/-- Claim C5: per (event, user) feedback upserts overwrite the rating and
keep the stored comment unless a non-null replacement is supplied; a
fresh pair inserts both as given; a comment that strips to empty is
rejected by the text handler before any write; and the sequence rating 1,
empty comment, rating -1 ends at rating -1 with the comment unchanged
from before the empty-comment step. -/
theorem claim_C5 :
    (∀ (db : DB) (e : String) (uid r : Int) (c : Option String) (f0 : FeedbackRow),
        db.feedback.find? (fun f => f.event_id == e && f.telegram_id == uid) = some f0 →
        get_feedback (set_feedback db (some e) uid r c) e uid =
          some (r, coalesce c f0.comment)) ∧
    (∀ (db : DB) (e : String) (uid r : Int) (c : Option String),
        db.feedback.find? (fun f => f.event_id == e && f.telegram_id == uid) = none →
        event_exists db e = true →
        get_feedback (set_feedback db (some e) uid r c) e uid = some (r, c)) ∧
    (∀ (u : UserInfo) (raw freshId : String) (ok : Int → Bool) (db : DB) (pl : Payload),
        get_user_state db u.id = (some "p_feedback_comment", pl) →
        is_cancel_text (py_strip raw) = false →
        py_strip raw = "" →
        on_text u raw freshId ok db = (db, [Effect.reply "comment_empty"])) ∧
    (∀ (db : DB) (e : String) (uid : Int) (f0 : FeedbackRow),
        db.feedback.find? (fun f => f.event_id == e && f.telegram_id == uid) = some f0 →
        (text_p_feedback_comment uid "" (some e) 1
            (set_feedback db (some e) uid 1 none)).1 =
          set_feedback db (some e) uid 1 none ∧
        get_feedback (set_feedback db (some e) uid 1 none) e uid =
          some (1, f0.comment) ∧
        get_feedback
            (set_feedback
              ((text_p_feedback_comment uid "" (some e) 1
                  (set_feedback db (some e) uid 1 none)).1)
              (some e) uid (-1) none) e uid = some (-1, f0.comment)) := by
  refine ⟨get_feedback_set_update, get_feedback_set_insert, ?_, ?_⟩
  · intro u raw freshId ok db pl hst hc he
    rw [on_text_eq_feedback_comment u raw freshId ok db pl hst hc]
    unfold text_p_feedback_comment
    rw [if_pos (by simp [he])]
  · intro db e uid f0 h
    have hany : db.feedback.any
        (fun f => f.event_id == e && f.telegram_id == uid) = true := by
      rw [List.any_eq_true]
      have hmem := List.mem_of_find?_eq_some h
      have hpred := List.find?_some h
      exact ⟨f0, hmem, hpred⟩
    have hs2 : (text_p_feedback_comment uid "" (some e) 1
        (set_feedback db (some e) uid 1 none)).1 =
        set_feedback db (some e) uid 1 none := by
      unfold text_p_feedback_comment
      rw [if_pos (by decide)]
    have hfind1 : (set_feedback db (some e) uid 1 none).feedback.find?
        (fun f => f.event_id == e && f.telegram_id == uid) =
        some { f0 with rating := 1, comment := coalesce none f0.comment } := by
      rw [set_feedback_feedback db e uid 1 none hany]
      rw [find?_map_update (fun f => f.event_id == e && f.telegram_id == uid)
        (fun f => { f with rating := 1, comment := coalesce none f.comment }) db.feedback
        (fun x hx => hx), h]
      rfl
    refine ⟨hs2, get_feedback_set_update db e uid 1 none f0 h, ?_⟩
    rw [hs2]
    exact get_feedback_set_update (set_feedback db (some e) uid 1 none) e uid (-1) none
      { f0 with rating := 1, comment := coalesce none f0.comment } hfind1

theorem claim_C5_witness :
    dbC5fb.feedback.find? (fun f => f.event_id == "E1" && f.telegram_id == 2) =
      some { event_id := "E1", telegram_id := 2, rating := 1, comment := some "nice" } ∧
    get_feedback (set_feedback dbC5fb (some "E1") 2 (-1) none) "E1" 2 =
      some (-1, some "nice") ∧
    get_feedback (set_feedback dbC5fb (some "E1") 2 2 (some "great")) "E1" 2 =
      some (2, some "great") ∧
    on_text { id := 2 } "   " "F" (fun _ => true) dbC5fb =
      (dbC5fb, [Effect.reply "comment_empty"]) ∧
    get_feedback
        (set_feedback
          ((text_p_feedback_comment 2 "" (some "E1") 1
              (set_feedback dbC5fb (some "E1") 2 1 none)).1)
          (some "E1") 2 (-1) none) "E1" 2 = some (-1, some "nice") := by
  have hrow : dbC5fb.feedback.find?
      (fun f => f.event_id == "E1" && f.telegram_id == 2) =
      some { event_id := "E1", telegram_id := 2, rating := 1, comment := some "nice" } := by
    decide
  refine ⟨hrow, ?_, ?_, ?_, ?_⟩
  · exact claim_C5.1 dbC5fb "E1" 2 (-1) none
      { event_id := "E1", telegram_id := 2, rating := 1, comment := some "nice" } hrow
  · exact claim_C5.1 dbC5fb "E1" 2 2 (some "great")
      { event_id := "E1", telegram_id := 2, rating := 1, comment := some "nice" } hrow
  · exact claim_C5.2.2.1 { id := 2 } "   " "F" (fun _ => true) dbC5fb
      { event_id := some "E1", rating := some 1 } (by decide) (by decide) (by decide)
  · exact (claim_C5.2.2.2 dbC5fb "E1" 2
      { event_id := "E1", telegram_id := 2, rating := 1, comment := some "nice" } hrow).2.2

/-! ## Registration triple lemmas -/

/-- TriplePres is reflexive. -/
theorem TP_refl (db : DB) : TriplePres db db := fun _ _ => Or.inl rfl

/-- TriplePres transports along pointwise equal registration triples. -/
theorem TP_congr (base d1 d2 : DB)
    (he : ∀ eid uid, regTriple d2 eid uid = regTriple d1 eid uid)
    (h : TriplePres base d1) : TriplePres base d2 := by
  intro eid uid
  rw [he eid uid]
  exact h eid uid

/-- A step that leaves the participants table unchanged preserves
TriplePres. -/
theorem TP_parts (base db d2 : DB) (hp : d2.participants = db.participants)
    (h : TriplePres base db) : TriplePres base d2 := by
  refine TP_congr base db d2 ?_ h
  intro eid uid
  unfold regTriple
  rw [hp]

/-- find? over a list extended on the right keeps an existing hit. -/
theorem find?_append_left {α : Type} (p : α → Bool) (l t : List α) (a : α)
    (h : l.find? p = some a) : (l ++ t).find? p = some a := by
  induction l with
  | nil => simp at h
  | cons x s ih =>
      by_cases hp : p x = true
      · rw [List.find?_cons_of_pos _ hp] at h
        rw [List.cons_append, List.find?_cons_of_pos _ hp]
        exact h
      · rw [List.find?_cons_of_neg _ hp] at h
        rw [List.cons_append, List.find?_cons_of_neg _ hp]
        exact ih h

/-- The identity-coalescing map of ensure_participant_stub never changes
a registration triple. -/
theorem find?_triple_map_coalesce (l : List ParticipantRow) (e : String) (uid0 : Int)
    (un fn ln : Option String) (eid : String) (uid : Int) :
    ((l.map (fun p => if p.event_id == e && p.telegram_id == uid0 then
        { p with username := coalesce un p.username,
                 first_name := coalesce fn p.first_name,
                 last_name := coalesce ln p.last_name } else p)).find?
      (fun p => p.event_id == eid && p.telegram_id == uid)).map
        (fun p => (p.full_name, p.phone_number, p.company_name)) =
    (l.find? (fun p => p.event_id == eid && p.telegram_id == uid)).map
      (fun p => (p.full_name, p.phone_number, p.company_name)) := by
  have hkeep : ∀ r : ParticipantRow,
      ((if r.event_id == e && r.telegram_id == uid0 then
          { r with username := coalesce un r.username,
                   first_name := coalesce fn r.first_name,
                   last_name := coalesce ln r.last_name } else r).event_id == eid &&
        (if r.event_id == e && r.telegram_id == uid0 then
          { r with username := coalesce un r.username,
                   first_name := coalesce fn r.first_name,
                   last_name := coalesce ln r.last_name } else r).telegram_id == uid) =
      (r.event_id == eid && r.telegram_id == uid) := by
    intro r
    by_cases hk : (r.event_id == e && r.telegram_id == uid0) = true
    · rw [if_pos hk]
    · rw [if_neg hk]
  rw [find?_map_pres _ _ _ hkeep]
  rcases hf : l.find? (fun p => p.event_id == eid && p.telegram_id == uid) with _ | r
  · rw [hf]
    rfl
  · rw [hf]
    by_cases hk : (r.event_id == e && r.telegram_id == uid0) = true
    · rw [Option.map_some', Option.map_some', Option.map_some', if_pos hk]
    · rw [Option.map_some', Option.map_some', Option.map_some', if_neg hk]

/-- Clearing the session state leaves every registration triple alone. -/
theorem TP_clear (base db : DB) (uid : Int) (h : TriplePres base db) :
    TriplePres base (clear_user_state db uid) :=
  TP_parts base db (clear_user_state db uid) rfl h

/-- Writing a session state leaves every registration triple alone. -/
theorem TP_set (base db : DB) (uid : Int) (st : String) (pl : Option Payload)
    (h : TriplePres base db) : TriplePres base (set_user_state db uid (some st) pl) :=
  TP_parts base db (set_user_state db uid (some st) pl)
    (by unfold set_user_state; dsimp only; split <;> rfl) h

/-- Writing the current-event pointer leaves every registration triple
alone. -/
theorem TP_setcur (base db : DB) (uid : Int) (e : Option String)
    (h : TriplePres base db) : TriplePres base (set_current_event db uid e) :=
  TP_parts base db (set_current_event db uid e)
    (by unfold set_current_event; repeat' split; all_goals first | rfl | (split <;> rfl)) h

/-- Content updates leave every registration triple alone. -/
theorem TP_update_content (base db : DB) (e : Option String) (f : ContentRow → ContentRow)
    (h : TriplePres base db) : TriplePres base (update_content db e f) :=
  TP_parts base db (update_content db e f)
    (by unfold update_content; repeat' split; all_goals rfl) h

theorem TP_setagenda (base db : DB) (e : Option String) (a : String)
    (h : TriplePres base db) : TriplePres base (set_agenda db e a) :=
  TP_update_content base db e _ h

theorem TP_settime (base db : DB) (e : Option String) (t : Option Int)
    (h : TriplePres base db) : TriplePres base (set_time db e t) :=
  TP_update_content base db e _ h

theorem TP_setloc (base db : DB) (e : Option String) (l : Option String)
    (h : TriplePres base db) : TriplePres base (set_location db e l) :=
  TP_update_content base db e _ h

theorem TP_setwifi (base db : DB) (e : Option String) (a b : String)
    (h : TriplePres base db) : TriplePres base (set_wifi db e a b) :=
  TP_update_content base db e _ h

theorem TP_setorg (base db : DB) (e : Option String) (a b c d : String)
    (h : TriplePres base db) : TriplePres base (set_organizer_info db e a b c d) :=
  TP_update_content base db e _ h

theorem TP_setpin (base db : DB) (e : Option String) (la lo : Int)
    (h : TriplePres base db) : TriplePres base (set_map_pin db e la lo) :=
  TP_update_content base db e _ h

theorem TP_clearpin (base db : DB) (e : Option String)
    (h : TriplePres base db) : TriplePres base (clear_map_pin db e) :=
  TP_update_content base db e _ h

/-- Feedback upserts leave every registration triple alone. -/
theorem TP_setfeedback (base db : DB) (e : Option String) (uid r : Int) (c : Option String)
    (h : TriplePres base db) : TriplePres base (set_feedback db e uid r c) :=
  TP_parts base db (set_feedback db e uid r c)
    (by
      unfold set_feedback
      repeat' split
      all_goals first
        | rfl
        | (split <;> (first | rfl | (split <;> rfl)))) h

/-- Creating an event leaves every registration triple alone. -/
theorem TP_create (base db : DB) (e n : String) (a : Int)
    (h : TriplePres base db) : TriplePres base (create_event db e n a) :=
  TP_parts base db (create_event db e n a) rfl h

theorem TP_addphoto (base db : DB) (e f : String) (c : Option String)
    (h : TriplePres base db) : TriplePres base (add_photo db e f c) :=
  TP_parts base db (add_photo db e f c) rfl h

theorem TP_addquestion (base db : DB) (e : String) (s : Int) (t : String)
    (h : TriplePres base db) : TriplePres base (add_question db e s t) :=
  TP_parts base db (add_question db e s t) rfl h

theorem TP_addalert (base db : DB) (e : String) (r m c : Int)
    (h : TriplePres base db) : TriplePres base (add_alert db e r m c).1 :=
  TP_parts base db (add_alert db e r m c).1 rfl h

theorem TP_marksent (base db : DB) (i : Nat)
    (h : TriplePres base db) : TriplePres base (mark_alert_sent db i) :=
  TP_parts base db (mark_alert_sent db i) rfl h

/-- Rendering the event menu leaves every registration triple alone. -/
theorem TP_menu (base : DB) (uid : Int) (e : Option String) (db : DB)
    (h : TriplePres base db) : TriplePres base (show_event_menu uid e db).1 := by
  unfold show_event_menu
  repeat' split
  all_goals first
    | exact h
    | exact TP_setcur _ _ _ _ h

/-- Leaving an event removes the pair's row and keeps every other
registration triple. -/
theorem TP_leave (base db : DB) (e : String) (uid0 : Int)
    (h : TriplePres base db) : TriplePres base (leave_event db e uid0) := by
  intro eid uid
  by_cases hpair : e = eid ∧ uid0 = uid
  · refine Or.inr (Or.inl ?_)
    unfold regTriple
    have hnone : (leave_event db e uid0).participants.find?
        (fun p => p.event_id == eid && p.telegram_id == uid) = none := by
      rw [show (leave_event db e uid0).participants =
          db.participants.filter (fun p => !(p.event_id == e && p.telegram_id == uid0))
        from rfl]
      rw [List.find?_eq_none]
      intro x hx hpx
      have hq := (List.mem_filter.mp hx).2
      simp at hq hpx
      rcases hq with hq1 | hq2
      · exact hq1 (by rw [hpair.1]; exact hpx.1)
      · exact hq2 (by rw [hpair.2]; exact hpx.2)
    rw [hnone]
    rfl
  · have heq : regTriple (leave_event db e uid0) eid uid = regTriple db eid uid := by
      unfold regTriple
      rw [show (leave_event db e uid0).participants =
          db.participants.filter (fun p => !(p.event_id == e && p.telegram_id == uid0))
        from rfl]
      rw [find?_filter_keep (fun p => p.event_id == eid && p.telegram_id == uid)
        (fun p => !(p.event_id == e && p.telegram_id == uid0)) db.participants ?_]
      intro r hr
      simp at hr
      cases hb : (r.event_id == e && r.telegram_id == uid0) with
      | false => simp [hb]
      | true =>
          exfalso
          simp at hb
          have he2 : e = eid := by rw [← hb.1]; exact hr.1
          have hu2 : uid0 = uid := by rw [← hb.2]; exact hr.2
          exact hpair ⟨he2, hu2⟩
    rw [heq]
    exact h eid uid

/-- Deleting an event removes all its rows and keeps every other
registration triple. -/
theorem TP_delete (base db : DB) (e : String)
    (h : TriplePres base db) : TriplePres base (delete_event db e) := by
  intro eid uid
  by_cases he : e = eid
  · refine Or.inr (Or.inl ?_)
    unfold regTriple
    have hnone : (delete_event db e).participants.find?
        (fun p => p.event_id == eid && p.telegram_id == uid) = none := by
      rw [show (delete_event db e).participants =
          db.participants.filter (fun p => p.event_id != e) from rfl]
      rw [List.find?_eq_none]
      intro x hx hpx
      have hq := (List.mem_filter.mp hx).2
      simp at hq hpx
      exact hq (by rw [he]; exact hpx.1)
    rw [hnone]
    rfl
  · have heq : regTriple (delete_event db e) eid uid = regTriple db eid uid := by
      unfold regTriple
      rw [show (delete_event db e).participants =
          db.participants.filter (fun p => p.event_id != e) from rfl]
      rw [find?_filter_keep (fun p => p.event_id == eid && p.telegram_id == uid)
        (fun p => p.event_id != e) db.participants ?_]
      intro r hr
      simp at hr ⊢
      rw [hr.1]
      exact fun hc => he hc.symm
    rw [heq]
    exact h eid uid

/-- The participant stub upsert either keeps a triple, or freshly inserts
the all-null stub for its own pair. -/
theorem TP_ensure (base db : DB) (e : String) (uid0 : Int) (un fn ln : Option String)
    (h : TriplePres base db) : TriplePres base (ensure_participant_stub db e uid0 un fn ln) := by
  by_cases hne : ¬ event_exists db e = true
  · have hid : ensure_participant_stub db e uid0 un fn ln = db := by
      unfold ensure_participant_stub
      rw [if_pos hne]
    rw [hid]
    exact h
  · by_cases hany : db.participants.any
        (fun p => p.event_id == e && p.telegram_id == uid0) = true
    · have hparts : (ensure_participant_stub db e uid0 un fn ln).participants =
          db.participants.map (fun p =>
            if p.event_id == e && p.telegram_id == uid0 then
              { p with username := coalesce (norm_username un) p.username,
                       first_name := coalesce fn p.first_name,
                       last_name := coalesce ln p.last_name }
            else p) := by
        unfold ensure_participant_stub
        rw [if_neg hne]
        dsimp only
        rw [if_pos hany]
      intro eid uid
      have heq : regTriple (ensure_participant_stub db e uid0 un fn ln) eid uid =
          regTriple db eid uid := by
        unfold regTriple
        rw [hparts]
        exact find?_triple_map_coalesce db.participants e uid0 (norm_username un) fn ln eid uid
      rw [heq]
      exact h eid uid
    · have hparts : (ensure_participant_stub db e uid0 un fn ln).participants =
          (db.participants ++
            [({ event_id := e, telegram_id := uid0, username := norm_username un,
                first_name := fn, last_name := ln } : ParticipantRow)]).map (fun p =>
            if p.event_id == e && p.telegram_id == uid0 then
              { p with username := coalesce (norm_username un) p.username,
                       first_name := coalesce fn p.first_name,
                       last_name := coalesce ln p.last_name }
            else p) := by
        unfold ensure_participant_stub
        rw [if_neg hne]
        dsimp only
        rw [if_neg hany]
      intro eid uid
      have heq : regTriple (ensure_participant_stub db e uid0 un fn ln) eid uid =
          ((db.participants ++
            [({ event_id := e, telegram_id := uid0, username := norm_username un,
                first_name := fn, last_name := ln } : ParticipantRow)]).find?
              (fun p => p.event_id == eid && p.telegram_id == uid)).map
            (fun p => (p.full_name, p.phone_number, p.company_name)) := by
        unfold regTriple
        rw [hparts]
        exact find?_triple_map_coalesce _ e uid0 (norm_username un) fn ln eid uid
      rw [heq]
      rcases hf : db.participants.find?
          (fun p => p.event_id == eid && p.telegram_id == uid) with _ | r
      · rw [find?_append_of_none _ _ _ hf]
        by_cases hm : (e == eid && uid0 == uid) = true
        · refine Or.inr (Or.inr ?_)
          rw [List.find?_cons_of_pos _ (by simpa using hm)]
          rfl
        · refine Or.inr (Or.inl ?_)
          rw [List.find?_cons_of_neg _ (by simpa using hm)]
          rfl
      · rw [find?_append_left _ _ _ _ hf]
        have hdb : regTriple db eid uid =
            (some r).map (fun p => (p.full_name, p.phone_number, p.company_name)) := by
          unfold regTriple
          rw [hf]
        rw [← hdb]
        exact h eid uid
theorem TP_text_create (base : DB) (u : UserInfo) (text freshId : String) (db : DB)
    (h : TriplePres base db) : TriplePres base (text_create_event_name u text freshId db).1 := by
  unfold text_create_event_name
  dsimp only
  repeat' split
  all_goals first
    | exact h
    | exact TP_menu _ _ _ _ (TP_clear _ _ _ (TP_setcur _ _ _ _ (TP_ensure _ _ _ _ _ _ _
        (TP_create _ _ _ _ _ h))))

theorem TP_text_reg_full_name (base : DB) (uid : Int) (text : String) (pl : Payload) (db : DB)
    (h : TriplePres base db) : TriplePres base (text_reg_full_name uid text pl db).1 := by
  unfold text_reg_full_name
  repeat' split
  all_goals first
    | exact h
    | exact TP_clear _ _ _ h
    | exact TP_set _ _ _ _ _ h

theorem TP_text_agenda (base : DB) (uid : Int) (text : String) (eidO : Option String) (db : DB)
    (h : TriplePres base db) : TriplePres base (text_admin_edit_agenda uid text eidO db).1 := by
  unfold text_admin_edit_agenda
  dsimp only
  repeat' split
  all_goals first
    | exact TP_clear _ _ _ h
    | exact TP_menu _ _ _ _ (TP_clear _ _ _ (TP_setagenda _ _ _ _ h))

theorem TP_text_time (base : DB) (uid : Int) (text : String) (eidO : Option String) (db : DB)
    (h : TriplePres base db) : TriplePres base (text_admin_set_time uid text eidO db).1 := by
  unfold text_admin_set_time
  dsimp only
  repeat' split
  all_goals first
    | exact h
    | exact TP_menu _ _ _ _ (TP_clear _ _ _ (TP_settime _ _ _ _ h))

theorem TP_text_location (base : DB) (uid : Int) (text : String) (eidO : Option String) (db : DB)
    (h : TriplePres base db) : TriplePres base (text_admin_set_location uid text eidO db).1 := by
  unfold text_admin_set_location
  dsimp only
  repeat' split
  all_goals exact TP_menu _ _ _ _ (TP_clear _ _ _ (TP_setloc _ _ _ _ h))

theorem TP_text_map_pin (base : DB) (uid : Int) (text : String) (eidO : Option String) (db : DB)
    (h : TriplePres base db) : TriplePres base (text_admin_set_map_pin uid text eidO db).1 := by
  unfold text_admin_set_map_pin
  dsimp only
  repeat' split
  all_goals first
    | exact h
    | exact TP_menu _ _ _ _ (TP_clear _ _ _ (TP_clearpin _ _ _ h))

theorem TP_text_wifi (base : DB) (uid : Int) (text : String) (eidO : Option String) (db : DB)
    (h : TriplePres base db) : TriplePres base (text_admin_set_wifi uid text eidO db).1 := by
  unfold text_admin_set_wifi
  dsimp only
  repeat' split
  all_goals first
    | exact h
    | exact TP_menu _ _ _ _ (TP_clear _ _ _ (TP_setwifi _ _ _ _ _ h))

theorem TP_text_org (base : DB) (uid : Int) (text : String) (eidO : Option String) (db : DB)
    (h : TriplePres base db) : TriplePres base (text_admin_set_org uid text eidO db).1 := by
  unfold text_admin_set_org
  dsimp only
  repeat' split
  all_goals first
    | exact h
    | exact TP_menu _ _ _ _ (TP_clear _ _ _ (TP_setorg _ _ _ _ _ _ _ h))

theorem TP_text_notify (base : DB) (uid : Int) (eidO : Option String) (ok : Int → Bool) (db : DB)
    (h : TriplePres base db) : TriplePres base (text_admin_notify uid eidO ok db).1 := by
  unfold text_admin_notify
  dsimp only
  exact TP_menu _ _ _ _ (TP_clear _ _ _ h)

theorem TP_text_ask (base : DB) (uid : Int) (text : String) (pl : Payload) (db : DB)
    (h : TriplePres base db) : TriplePres base (text_p_ask_question uid text pl db).1 := by
  unfold text_p_ask_question
  dsimp only
  repeat' split
  all_goals first
    | exact TP_clear _ _ _ h
    | exact TP_menu _ _ _ _ (TP_clear _ _ _ (TP_addquestion _ _ _ _ _ h))

theorem TP_text_comment (base : DB) (uid : Int) (text : String) (eidO : Option String) (rating : Int)
    (db : DB) (h : TriplePres base db) :
    TriplePres base (text_p_feedback_comment uid text eidO rating db).1 := by
  unfold text_p_feedback_comment
  dsimp only
  repeat' split
  all_goals first
    | exact h
    | exact TP_menu _ _ _ _ (TP_clear _ _ _ (TP_setfeedback _ _ _ _ _ _ h))

theorem TP_on_text (base : DB) (u : UserInfo) (raw freshId : String) (ok : Int → Bool) (db : DB)
    (hnr : ¬ (get_user_state db u.id).1 = some "reg_company")
    (h : TriplePres base db) : TriplePres base (on_text u raw freshId ok db).1 := by
  unfold on_text
  dsimp only
  by_cases hc : is_cancel_text (py_strip raw) = true
  · rw [if_pos hc]; exact TP_clear _ _ _ h
  · rw [if_neg hc]
    by_cases h1 : ((get_user_state db u.id).1 == some "create_event_name") = true
    · rw [if_pos h1]; exact TP_text_create _ _ _ _ _ h
    · rw [if_neg h1]
      by_cases h2 : ((get_user_state db u.id).1 == some "reg_full_name") = true
      · rw [if_pos h2]; exact TP_text_reg_full_name _ _ _ _ _ h
      · rw [if_neg h2]
        by_cases h3 : ((get_user_state db u.id).1 == some "reg_phone") = true
        · rw [if_pos h3]; exact h
        · rw [if_neg h3]
          by_cases h4 : ((get_user_state db u.id).1 == some "reg_company") = true
          · exact absurd (by simpa using h4) hnr
          · rw [if_neg h4]
            by_cases h5 : ((get_user_state db u.id).1 == some "admin_edit_agenda") = true
            · rw [if_pos h5]; exact TP_text_agenda _ _ _ _ _ h
            · rw [if_neg h5]
              by_cases h6 : ((get_user_state db u.id).1 == some "admin_set_time") = true
              · rw [if_pos h6]; exact TP_text_time _ _ _ _ _ h
              · rw [if_neg h6]
                by_cases h7 : ((get_user_state db u.id).1 == some "admin_set_location") = true
                · rw [if_pos h7]; exact TP_text_location _ _ _ _ _ h
                · rw [if_neg h7]
                  by_cases h8 : ((get_user_state db u.id).1 == some "admin_set_map_pin") = true
                  · rw [if_pos h8]; exact TP_text_map_pin _ _ _ _ _ h
                  · rw [if_neg h8]
                    by_cases h9 : ((get_user_state db u.id).1 == some "admin_set_wifi") = true
                    · rw [if_pos h9]; exact TP_text_wifi _ _ _ _ _ h
                    · rw [if_neg h9]
                      by_cases h10 : ((get_user_state db u.id).1 == some "admin_set_org") = true
                      · rw [if_pos h10]; exact TP_text_org _ _ _ _ _ h
                      · rw [if_neg h10]
                        by_cases h11 :
                            ((get_user_state db u.id).1 == some "admin_notify_text") = true
                        · rw [if_pos h11]; exact TP_text_notify _ _ _ _ _ h
                        · rw [if_neg h11]
                          by_cases h12 :
                              ((get_user_state db u.id).1 == some "p_ask_question") = true
                          · rw [if_pos h12]; exact TP_text_ask _ _ _ _ _ h
                          · rw [if_neg h12]
                            by_cases h13 :
                                ((get_user_state db u.id).1 == some "p_feedback_comment") = true
                            · rw [if_pos h13]; exact TP_text_comment _ _ _ _ _ _ h
                            · rw [if_neg h13]; exact h

theorem TP_on_contact (base : DB) (u : UserInfo) (owner : Option Int) (phoneRaw : String) (db : DB)
    (h : TriplePres base db) : TriplePres base (on_contact u owner phoneRaw db).1 := by
  unfold on_contact
  dsimp only
  by_cases h1 : ((get_user_state db u.id).1 != some "reg_phone") = true
  · rw [if_pos h1]; exact h
  · rw [if_neg h1]
    by_cases h2 : (match owner with | some o => o != 0 && o != u.id | none => false) = true
    · rw [if_pos h2]; exact h
    · rw [if_neg h2]
      rcases hnp : norm_phone (some phoneRaw) with _ | ph
      · exact h
      · exact TP_set _ _ _ _ _ h

theorem TP_on_location (base : DB) (u : UserInfo) (lat lon : Int) (db : DB)
    (h : TriplePres base db) : TriplePres base (on_location u lat lon db).1 := by
  unfold on_location
  dsimp only
  by_cases h1 : ((get_user_state db u.id).1 != some "admin_set_map_pin") = true
  · rw [if_pos h1]; exact h
  · rw [if_neg h1]
    by_cases h2 : (!truthyS (pyOr (get_user_state db u.id).2.event_id (get_current_event db u.id)) ||
        !is_admin db ((pyOr (get_user_state db u.id).2.event_id (get_current_event db u.id)).getD "") u.id) = true
    · rw [if_pos h2]; exact TP_clear _ _ _ h
    · rw [if_neg h2]
      exact TP_menu _ _ _ _ (TP_clear _ _ _ (TP_setpin _ _ _ _ _ h))

theorem TP_on_photo (base : DB) (u : UserInfo) (fileId : String) (caption : Option String)
    (ok : Int → Bool) (db : DB) (h : TriplePres base db) :
    TriplePres base (on_photo u fileId caption ok db).1 := by
  unfold on_photo
  dsimp only
  by_cases h1 : ((get_user_state db u.id).1 == some "admin_upload_photos") = true
  · rw [if_pos h1]
    by_cases h2 : (!truthyS (pyOr (get_user_state db u.id).2.event_id (get_current_event db u.id)) ||
        !is_admin db ((pyOr (get_user_state db u.id).2.event_id (get_current_event db u.id)).getD "") u.id) = true
    · rw [if_pos h2]; exact TP_clear _ _ _ h
    · rw [if_neg h2]; exact TP_addphoto _ _ _ _ _ h
  · rw [if_neg h1]
    by_cases h3 : ((get_user_state db u.id).1 == some "admin_notify_text") = true
    · rw [if_pos h3]
      by_cases h4 : (!truthyS (pyOr (get_user_state db u.id).2.event_id (get_current_event db u.id)) ||
          !is_admin db ((pyOr (get_user_state db u.id).2.event_id (get_current_event db u.id)).getD "") u.id) = true
      · rw [if_pos h4]; exact TP_clear _ _ _ h
      · rw [if_neg h4]; exact TP_menu _ _ _ _ (TP_clear _ _ _ h)
    · rw [if_neg h3]; exact h

theorem TP_alert_set (base : DB) (uid : Int) (event_id data : String) (now : Int) (db : DB)
    (h : TriplePres base db) :
    TriplePres base (admin_alert_set uid event_id data now db).1 := by
  unfold admin_alert_set
  dsimp only
  rcases hpi : parseInt? ((py_split ':' data).getLastD "") with _ | minutes
  · exact h
  · dsimp only
    rcases hgc : get_event_content db event_id with _ | c
    · exact h
    · dsimp only
      rcases het : c.event_time with _ | t
      · exact h
      · dsimp only
        by_cases hle : t - minutes ≤ now
        · rw [if_pos hle]; exact h
        · rw [if_neg hle]; exact TP_addalert _ _ _ _ _ _ h

theorem TP_handle_admin (base : DB) (u : UserInfo) (event_id data : String) (now : Int) (db : DB)
    (h : TriplePres base db) :
    TriplePres base (handle_admin_action u event_id data now db).1 := by
  unfold handle_admin_action
  rcases hev : get_event db event_id with _ | ev
  · exact h
  · dsimp only
    by_cases h1 : (data == "admin:manage") = true
    · rw [if_pos h1]; exact h
    · rw [if_neg h1]
      by_cases h2 : (data == "admin:view") = true
      · rw [if_pos h2]; exact h
      · rw [if_neg h2]
        by_cases h3 : (data == "admin:agenda") = true
        · rw [if_pos h3]; exact h
        · rw [if_neg h3]
          by_cases h4 : (data == "admin:wifi") = true
          · rw [if_pos h4]; exact h
          · rw [if_neg h4]
            by_cases h5 : (data == "admin:org") = true
            · rw [if_pos h5]; exact h
            · rw [if_neg h5]
              by_cases h6 : (data == "admin:time") = true
              · rw [if_pos h6]; exact h
              · rw [if_neg h6]
                by_cases h7 : (data == "admin:location") = true
                · rw [if_pos h7]; exact h
                · rw [if_neg h7]
                  by_cases h8 : (data == "admin:map_pin") = true
                  · rw [if_pos h8]; exact h
                  · rw [if_neg h8]
                    by_cases h9 : (data == "admin:agenda_view") = true
                    · rw [if_pos h9]; exact h
                    · rw [if_neg h9]
                      by_cases h10 : (data == "admin:wifi_view") = true
                      · rw [if_pos h10]; exact h
                      · rw [if_neg h10]
                        by_cases h11 : (data == "admin:org_view") = true
                        · rw [if_pos h11]; exact h
                        · rw [if_neg h11]
                          by_cases h12 : (data == "admin:time_view") = true
                          · rw [if_pos h12]; exact h
                          · rw [if_neg h12]
                            by_cases h13 : (data == "admin:location_view") = true
                            · rw [if_pos h13]; exact h
                            · rw [if_neg h13]
                              by_cases h14 : (data == "admin:map_pin_view") = true
                              · rw [if_pos h14]; exact h
                              · rw [if_neg h14]
                                by_cases h15 : (data == "admin:agenda_edit") = true
                                · rw [if_pos h15]; exact TP_set _ _ _ _ _ h
                                · rw [if_neg h15]
                                  by_cases h16 : (data == "admin:wifi_edit") = true
                                  · rw [if_pos h16]; exact TP_set _ _ _ _ _ h
                                  · rw [if_neg h16]
                                    by_cases h17 : (data == "admin:org_edit") = true
                                    · rw [if_pos h17]; exact TP_set _ _ _ _ _ h
                                    · rw [if_neg h17]
                                      by_cases h18 : (data == "admin:time_edit") = true
                                      · rw [if_pos h18]; exact TP_set _ _ _ _ _ h
                                      · rw [if_neg h18]
                                        by_cases h19 : (data == "admin:location_edit") = true
                                        · rw [if_pos h19]; exact TP_set _ _ _ _ _ h
                                        · rw [if_neg h19]
                                          by_cases h20 : (data == "admin:map_pin_edit") = true
                                          · rw [if_pos h20]; exact TP_set _ _ _ _ _ h
                                          · rw [if_neg h20]
                                            by_cases h21 : (data == "admin:members") = true
                                            · rw [if_pos h21]; exact h
                                            · rw [if_neg h21]
                                              by_cases h22 : (data == "admin:notify") = true
                                              · rw [if_pos h22]; exact TP_set _ _ _ _ _ h
                                              · rw [if_neg h22]
                                                by_cases h23 : (data == "admin:alert") = true
                                                · rw [if_pos h23]; exact h
                                                · rw [if_neg h23]
                                                  by_cases h24 : py_startsWith data "admin:alert_set:" = true
                                                  · rw [if_pos h24]
                                                    exact TP_alert_set _ _ _ _ _ _ h
                                                  · rw [if_neg h24]
                                                    by_cases h25 : (data == "admin:photos") = true
                                                    · rw [if_pos h25]; exact h
                                                    · rw [if_neg h25]
                                                      by_cases h26 : (data == "admin:photos_view") = true
                                                      · rw [if_pos h26]; exact h
                                                      · rw [if_neg h26]
                                                        by_cases h27 : (data == "admin:photos_upload") = true
                                                        · rw [if_pos h27]; exact TP_set _ _ _ _ _ h
                                                        · rw [if_neg h27]
                                                          by_cases h28 : (data == "admin:photos_done") = true
                                                          · rw [if_pos h28]; exact TP_clear _ _ _ h
                                                          · rw [if_neg h28]
                                                            by_cases h29 : (data == "admin:questions") = true
                                                            · rw [if_pos h29]; exact h
                                                            · rw [if_neg h29]
                                                              by_cases h30 : (data == "admin:feedback") = true
                                                              · rw [if_pos h30]; exact h
                                                              · rw [if_neg h30]
                                                                by_cases h31 : (data == "admin:invite") = true
                                                                · rw [if_pos h31]; exact h
                                                                · rw [if_neg h31]
                                                                  by_cases h32 : (data == "admin:delete") = true
                                                                  · rw [if_pos h32]; exact h
                                                                  · rw [if_neg h32]
                                                                    by_cases h33 : (data == "admin:delete_yes") = true
                                                                    · rw [if_pos h33]; exact TP_setcur _ _ _ _ (TP_delete _ _ _ h)
                                                                    · rw [if_neg h33]
                                                                      by_cases h34 : (data == "admin:back_to_menu") = true
                                                                      · rw [if_pos h34]; exact TP_menu _ _ _ _ h
                                                                      · rw [if_neg h34]
                                                                        exact h

theorem TP_handle_part (base : DB) (u : UserInfo) (event_id data : String) (db : DB)
    (h : TriplePres base db) :
    TriplePres base (handle_participant_action u event_id data db).1 := by
  unfold handle_participant_action
  rcases hev : get_event db event_id with _ | ev
  · exact h
  · dsimp only
    by_cases h1 : (data == "p:info") = true
    · rw [if_pos h1]; exact h
    · rw [if_neg h1]
      by_cases h2 : (data == "p:share") = true
      · rw [if_pos h2]; exact h
      · rw [if_neg h2]
        by_cases h3 : (data == "p:ask") = true
        · rw [if_pos h3]; exact TP_set _ _ _ _ _ h
        · rw [if_neg h3]
          by_cases h4 : (data == "p:feedback") = true
          · rw [if_pos h4]; exact h
          · rw [if_neg h4]
            by_cases h5 : py_startsWith data "p:rate:" = true
            · rw [if_pos h5]
              rcases hpi : parseInt? ((py_split ':' data).getLastD "") with _ | rating
              · exact h
              · exact TP_set _ _ _ _ _ (TP_setfeedback _ _ _ _ _ _ h)
            · rw [if_neg h5]
              by_cases h6 : (data == "p:feedback_skip") = true
              · rw [if_pos h6]; exact TP_clear _ _ _ h
              · rw [if_neg h6]
                by_cases h7 : (data == "p:leave") = true
                · rw [if_pos h7]; exact h
                · rw [if_neg h7]
                  by_cases h8 : (data == "p:leave_yes") = true
                  · rw [if_pos h8]; exact TP_setcur _ _ _ _ (TP_leave _ _ _ _ h)
                  · rw [if_neg h8]
                    by_cases h9 : (data == "p:back_to_menu") = true
                    · rw [if_pos h9]; exact TP_menu _ _ _ _ h
                    · rw [if_neg h9]; exact h

theorem TP_on_callback (base : DB) (u : UserInfo) (data : String) (now : Int) (db : DB)
    (h : TriplePres base db) : TriplePres base (on_callback u data now db).1 := by
  unfold on_callback
  dsimp only
  by_cases h1 : (data == "hub:none") = true
  · rw [if_pos h1]; exact h
  · rw [if_neg h1]
    by_cases h2 : (data == "hub:admin") = true
    · rw [if_pos h2]; exact TP_clear _ _ _ h
    · rw [if_neg h2]
      by_cases h3 : (data == "hub:joined") = true
      · rw [if_pos h3]; exact TP_clear _ _ _ h
      · rw [if_neg h3]
        by_cases h4 : (data == "event:create") = true
        · rw [if_pos h4]; exact TP_set _ _ _ _ _ h
        · rw [if_neg h4]
          by_cases h5 : py_startsWith data "event:open:" = true
          · rw [if_pos h5]
            rcases hsp : py_split ':' data with _ | ⟨p1, _ | ⟨p2, _ | ⟨p3, _ | ⟨p4, rest⟩⟩⟩⟩
            · exact h
            · exact h
            · exact h
            · exact h
            · dsimp only
              by_cases he : ¬ event_exists db p3 = true
              · rw [if_pos he]; exact h
              · rw [if_neg he]
                by_cases hr : (!is_admin (set_current_event (ensure_participant_stub db p3 u.id
                    u.username u.first_name u.last_name) u.id (some p3)) p3 u.id &&
                    !has_full_registration (set_current_event (ensure_participant_stub db p3 u.id
                    u.username u.first_name u.last_name) u.id (some p3)) p3 u.id) = true
                · rw [if_pos hr]
                  exact TP_set _ _ _ _ _ (TP_setcur _ _ _ _ (TP_ensure _ _ _ _ _ _ _ h))
                · rw [if_neg hr]
                  exact TP_menu _ _ _ _ (TP_setcur _ _ _ _ (TP_ensure _ _ _ _ _ _ _ h))
          · rw [if_neg h5]
            by_cases h6 : py_startsWith data "event:invite:" = true
            · rw [if_pos h6]
              rcases hsp : py_split ':' data with _ | ⟨p1, _ | ⟨p2, _ | ⟨p3, _ | ⟨p4, _ | ⟨p5, rest⟩⟩⟩⟩⟩
              · exact h
              · exact h
              · exact h
              · exact h
              · dsimp only
                by_cases ha : ¬ is_admin db p3 u.id = true
                · rw [if_pos ha]; exact h
                · rw [if_neg ha]; exact h
              · exact h
            · rw [if_neg h6]
              by_cases h7 : py_startsWith data "event:del_confirm:" = true
              · rw [if_pos h7]
                rcases hsp : py_split ':' data with _ | ⟨p1, _ | ⟨p2, _ | ⟨p3, _ | ⟨p4, _ | ⟨p5, rest⟩⟩⟩⟩⟩
                · exact h
                · exact h
                · exact h
                · exact h
                · dsimp only
                  by_cases ha : ¬ is_admin db p3 u.id = true
                  · rw [if_pos ha]; exact h
                  · rw [if_neg ha]; exact h
                · exact h
              · rw [if_neg h7]
                by_cases h8 : py_startsWith data "event:delete:" = true
                · rw [if_pos h8]
                  rcases hsp : py_split ':' data with _ | ⟨p1, _ | ⟨p2, _ | ⟨p3, _ | ⟨p4, _ | ⟨p5, rest⟩⟩⟩⟩⟩
                  · exact h
                  · exact h
                  · exact h
                  · exact h
                  · dsimp only
                    by_cases ha : ¬ is_admin db p3 u.id = true
                    · rw [if_pos ha]; exact h
                    · rw [if_neg ha]
                      by_cases hcu : (get_current_event (delete_event db p3) u.id == some p3) = true
                      · rw [if_pos hcu]; exact TP_setcur _ _ _ _ (TP_delete _ _ _ h)
                      · rw [if_neg hcu]; exact TP_delete _ _ _ h
                  · exact h
                · rw [if_neg h8]
                  by_cases h9 : py_startsWith data "event:leave_confirm:" = true
                  · rw [if_pos h9]
                    rcases hsp : py_split ':' data with _ | ⟨p1, _ | ⟨p2, _ | ⟨p3, _ | ⟨p4, _ | ⟨p5, rest⟩⟩⟩⟩⟩
                    · exact h
                    · exact h
                    · exact h
                    · exact h
                    · dsimp only
                      by_cases ha : is_admin db p3 u.id = true
                      · rw [if_pos ha]; exact h
                      · rw [if_neg ha]; exact h
                    · exact h
                  · rw [if_neg h9]
                    by_cases h10 : py_startsWith data "event:leave:" = true
                    · rw [if_pos h10]
                      rcases hsp : py_split ':' data with _ | ⟨p1, _ | ⟨p2, _ | ⟨p3, _ | ⟨p4, _ | ⟨p5, rest⟩⟩⟩⟩⟩
                      · exact h
                      · exact h
                      · exact h
                      · exact h
                      · dsimp only
                        by_cases ha : is_admin db p3 u.id = true
                        · rw [if_pos ha]; exact h
                        · rw [if_neg ha]
                          by_cases hcu : (get_current_event (leave_event db p3 u.id) u.id == some p3) = true
                          · rw [if_pos hcu]; exact TP_setcur _ _ _ _ (TP_leave _ _ _ _ h)
                          · rw [if_neg hcu]; exact TP_leave _ _ _ _ h
                      · exact h
                    · rw [if_neg h10]
                      rcases hce : get_current_event db u.id with _ | ce
                      · exact h
                      · dsimp only
                        by_cases hex : ¬ event_exists db ce = true
                        · rw [if_pos hex]; exact h
                        · rw [if_neg hex]
                          by_cases had : (is_admin db ce u.id && py_startsWith data "admin:") = true
                          · rw [if_pos had]; exact TP_handle_admin _ _ _ _ _ _ h
                          · rw [if_neg had]
                            by_cases hpd : (!is_admin db ce u.id && py_startsWith data "p:") = true
                            · rw [if_pos hpd]; exact TP_handle_part _ _ _ _ _ h
                            · rw [if_neg hpd]; exact h

theorem TP_cmd_start (base : DB) (u : UserInfo) (arg : Option String) (db : DB)
    (h : TriplePres base db) : TriplePres base (cmd_start u arg db).1 := by
  unfold cmd_start
  rcases arg with _ | eidRaw
  · exact TP_clear _ _ _ h
  · dsimp only
    by_cases he : ¬ event_exists db (py_strip eidRaw) = true
    · rw [if_pos he]; exact h
    · rw [if_neg he]
      by_cases hr : (!is_admin (set_current_event (ensure_participant_stub db (py_strip eidRaw) u.id
          u.username u.first_name u.last_name) u.id (some (py_strip eidRaw))) (py_strip eidRaw) u.id &&
          !has_full_registration (set_current_event (ensure_participant_stub db (py_strip eidRaw) u.id
          u.username u.first_name u.last_name) u.id (some (py_strip eidRaw))) (py_strip eidRaw) u.id) = true
      · rw [if_pos hr]; exact TP_set _ _ _ _ _ (TP_setcur _ _ _ _ (TP_ensure _ _ _ _ _ _ _ h))
      · rw [if_neg hr]; exact TP_menu _ _ _ _ (TP_setcur _ _ _ _ (TP_ensure _ _ _ _ _ _ _ h))

theorem TP_job (base : DB) (alert_id : Nat) (event_id : String) (db : DB)
    (h : TriplePres base db) : TriplePres base (job_send_alert alert_id event_id db).1 := by
  unfold job_send_alert
  rcases hev : get_event db event_id with _ | ev
  · exact TP_marksent _ _ _ h
  · dsimp only
    by_cases hr : (List.filter (fun pid => pid != 0 && pid != ev.admin_id)
        (get_participant_telegram_ids db event_id)).isEmpty = true
    · rw [if_pos hr]; exact TP_marksent _ _ _ h
    · rw [if_neg hr]; exact TP_marksent _ _ _ h

/-- Every operation outside the reg_company text step only preserves,
removes, or stub-initializes registration triples. -/
theorem TP_applyOp (op : Op) (db : DB) (hnr : ¬ RegWriteOp op db) :
    TriplePres db (applyOp op db).1 := by
  cases op with
  | text u raw freshId ok => exact TP_on_text db u raw freshId ok db hnr (TP_refl db)
  | contact u owner phoneRaw => exact TP_on_contact db u owner phoneRaw db (TP_refl db)
  | location u lat lon => exact TP_on_location db u lat lon db (TP_refl db)
  | photo u fileId caption ok => exact TP_on_photo db u fileId caption ok db (TP_refl db)
  | callback u data now => exact TP_on_callback db u data now db (TP_refl db)
  | start u arg => exact TP_cmd_start db u arg db (TP_refl db)
  | myEvents u => exact TP_clear db db u.id (TP_refl db)
  | helpCmd => exact TP_refl db
  | cancelCmd u => exact TP_clear db db u.id (TP_refl db)
  | postInitOp now =>
      exact post_init_pred now db (TriplePres db)
        (fun d i hd => TP_marksent db d i hd) (TP_refl db)
  | jobAlert alert_id event_id => exact TP_job db alert_id event_id db (TP_refl db)

/-- The model predicate agrees with the specification reading of fully
registered. -/
theorem has_full_iff (db : DB) (eid : String) (uid : Int) :
    has_full_registration db eid uid = true ↔ FullyRegisteredSpec db eid uid := by
  unfold has_full_registration FullyRegisteredSpec
  rcases hf : db.participants.find? (fun p => p.event_id == eid && p.telegram_id == uid)
    with _ | p
  · simp only [hf]
    constructor
    · intro hcon
      simp at hcon
    · rintro ⟨q, hq, _⟩
      simp at hq
  · simp only [hf]
    constructor
    · intro hcon
      simp only [Bool.and_eq_true, bne_iff_ne] at hcon
      exact ⟨p, rfl, hcon.1.1, hcon.1.2, hcon.2⟩
    · rintro ⟨q, hq, h1, h2, h3⟩
      simp only [Option.some.injEq] at hq
      subst hq
      simp only [Bool.and_eq_true, bne_iff_ne]
      exact ⟨⟨h1, h2⟩, h3⟩

/-- set_registration_info writes exactly the stripped name, normalized
phone and stripped company into the pair's triple. -/
theorem regTriple_setreg (db : DB) (e : String) (uid : Int) (fn ph co : String)
    (p0 : ParticipantRow)
    (h : db.participants.find? (fun p => p.event_id == e && p.telegram_id == uid) = some p0) :
    regTriple (set_registration_info db (some e) uid fn ph co) e uid =
      some (some (py_strip fn), norm_phone (some ph), some (py_strip co)) := by
  unfold regTriple set_registration_info
  dsimp only
  rw [find?_map_update (fun p => p.event_id == e && p.telegram_id == uid)
    (fun p => { p with full_name := some (py_strip fn),
                       phone_number := norm_phone (some ph),
                       company_name := some (py_strip co) }) db.participants
    (fun x hx => hx), h]
  rfl

/-- Claim C3: a participant is fully registered iff the row exists and the
stripped full_name, phone and company are all non-empty; the registration
flow's set_registration_info writes exactly those three columns for its
pair; and every operation of the system other than the reg_company text
step leaves each (event, user) registration triple unchanged, removes its
row, or freshly inserts the all-null stub - so no other path sets the
three fields. -/
theorem claim_C3 :
    (∀ (db : DB) (eid : String) (uid : Int),
        has_full_registration db eid uid = true ↔ FullyRegisteredSpec db eid uid) ∧
    (∀ (db : DB) (e : String) (uid : Int) (fn ph co : String) (p0 : ParticipantRow),
        db.participants.find? (fun p => p.event_id == e && p.telegram_id == uid) = some p0 →
        regTriple (set_registration_info db (some e) uid fn ph co) e uid =
          some (some (py_strip fn), norm_phone (some ph), some (py_strip co))) ∧
    (∀ (op : Op) (db : DB), ¬ RegWriteOp op db → TriplePres db (applyOp op db).1) :=
  ⟨has_full_iff, regTriple_setreg, TP_applyOp⟩

theorem claim_C3_witness :
    (has_full_registration dbE "E1" 2 = true ↔ FullyRegisteredSpec dbE "E1" 2) ∧
    regTriple (set_registration_info dbE (some "E1") 2 " Ann " "+49 170 0" "ACME") "E1" 2 =
      some (some (py_strip " Ann "), norm_phone (some "+49 170 0"), some (py_strip "ACME")) ∧
    TriplePres dbE (applyOp (Op.callback { id := 2 } "p:feedback_skip" 0) dbE).1 := by
  refine ⟨claim_C3.1 dbE "E1" 2, ?_, ?_⟩
  · exact claim_C3.2.1 dbE "E1" 2 " Ann " "+49 170 0" "ACME"
      { event_id := "E1", telegram_id := 2 } (by decide)
  · exact claim_C3.2.2 (Op.callback { id := 2 } "p:feedback_skip" 0) dbE (fun hf => hf)
